import Mathlib

/-!
Verification of the CKMS quantile-summary library (`src/lib.rs`).

The Rust source is shallowly embedded below.  `f64` arithmetic is modelled
by exact rational arithmetic (`ℚ`); machine integers (`usize`, `u32`) are
modelled by `ℕ`.  The element type `T` (Rust: `Copy + PartialOrd + Add`) is
modelled by a type with a `LinearOrder` (the claims under study quantify
over totally ordered element types) and, where the source needs `Add`, an
`Add` instance.  Fallible lookups are total here because every access in
the source is guarded by the surrounding control flow.

To evaluate the model on concrete inputs we also define, further below, a
mirror of each operation in which the single rational computation on the
hot path (the allowance function `invariant`) is replaced by the equal
natural-number computation; the equality is proved, never assumed.
-/

/-- One retained sample: a value `v`, its gap `g` (weight in the cumulative
rank) and its rank-error allowance `delta`.  Mirrors `Entry<T>` of the
source. -/
structure Entry (α : Type) where
  v : α
  g : Nat
  delta : Nat
deriving DecidableEq

/-- The CKMS summary state.  Mirrors the `CKMS<T>` struct: `n` insertions
performed, configured `error`, compression schedule `insert_threshold`,
insertion counter `inserts` (kept modulo the threshold), the ordered
sample list, the most recent input and the running sum. -/
structure CKMS (α : Type) where
  n : Nat
  error : ℚ
  insert_threshold : Nat
  inserts : Nat
  samples : List (Entry α)
  last_in : Option α
  sum : Option α

/-- The allowance function `invariant` of the source:
`max(1, floor(2 * error * r))`, written exactly as the Rust code writes it
(`if 1 > i { 1 } else { i }`); a negative floor truncates to `0` just as
Rust's saturating `as usize` cast does. -/
def CKMS.invariant {α : Type} (c : CKMS α) (r : ℚ) : Nat :=
  let i := (⌊2 * c.error * r⌋).toNat
  if 1 > i then 1 else i

/-- The body of the `compress` loop.  The imperative loop of the source
keeps an index `i`, a counter `r` (incremented once per iteration) and an
upper bound `s_mx`; it stops when `i == s_mx`.  Functionally: `cur` is
`samples[i]`, the list argument is the suffix after `i`, and the loop stops
when that suffix is empty. -/
def compressLoop {α : Type} (c : CKMS α) : Nat → Entry α → List (Entry α) → List (Entry α)
  | _, cur, [] => [cur]
  | r, cur, nxt :: rest =>
    if cur.g + nxt.g + nxt.delta ≤ c.invariant (r : ℚ) then
      compressLoop c (r + 1) ⟨nxt.v, nxt.g + cur.g, nxt.delta⟩ rest
    else
      cur :: compressLoop c (r + 1) nxt rest

/-- The `compress` pass of the source: a no-op on fewer than 3 samples,
otherwise the left-to-right merge loop started with `i = 0`, `r = 1`. -/
def CKMS.compress {α : Type} (c : CKMS α) : CKMS α :=
  if c.samples.length < 3 then c
  else
    match c.samples with
    | [] => c
    | x :: xs => { c with samples := compressLoop c 1 x xs }

/-- The scan of `priv_insert`: walk the samples while they compare
strictly less than `v`, counting the insertion index (first component) and
accumulating the gaps of the passed samples (second component).  The
source breaks out of the loop on `Equal`, `Greater` or `None`; on a
linear order that is exactly `¬ (smpl.v < v)`. -/
def scanSamples {α : Type} [LinearOrder α] (v : α) : List (Entry α) → Nat × Nat
  | [] => (0, 0)
  | e :: rest =>
    if e.v < v then
      let p := scanSamples v rest
      (p.1 + 1, p.2 + e.g)
    else (0, 0)

/-- `priv_insert` of the source: empty list gets the first entry and an
early return (note: `inserts` is not touched on that path); otherwise the
new entry is placed at the scanned index with `delta = 0` at either end
and `invariant(r) - 1` in the interior, `n` and `inserts` are bumped and
compression runs when the counter wraps to `0`. -/
def CKMS.priv_insert {α : Type} [LinearOrder α] (c : CKMS α) (v : α) : CKMS α :=
  let s := c.samples.length
  if s = 0 then
    { c with samples := List.insertIdx 0 ⟨v, 1, 0⟩ c.samples, n := c.n + 1 }
  else
    let idx := (scanSamples v c.samples).1
    let r := (scanSamples v c.samples).2
    let delta := if idx = 0 ∨ idx = s then 0 else c.invariant (r : ℚ) - 1
    let c1 := { c with
      samples := List.insertIdx idx ⟨v, 1, delta⟩ c.samples
      n := c.n + 1
      inserts := (c.inserts + 1) % c.insert_threshold }
    if c1.inserts = 0 then c1.compress else c1

/-- Public `insert` of the source: fold the value into `sum`
(`map_or(Some(v), |s| Some(s.add(v)))`), record it as `last_in`, then run
the positioned insertion. -/
def CKMS.insert {α : Type} [LinearOrder α] [Add α] (c : CKMS α) (v : α) : CKMS α :=
  let c1 := { c with
    sum := match c.sum with
      | none => some v
      | some s => some (s + v)
    last_in := some v }
  c1.priv_insert v

/-- `CKMS::new` of the source: clamp the error into `(0,1)`
(`<= 0` becomes `1e-8`, `>= 1` becomes `0.99`), compute
`1/(2*error)` clamped below by `1`, truncate it to an integer threshold,
and start with the empty state. -/
def CKMS.new {α : Type} (error : ℚ) : CKMS α :=
  let error := if error ≤ 0 then 1 / 100000000 else if 1 ≤ error then 99 / 100 else error
  let insert_threshold : ℚ := 1 / (2 * error)
  let insert_threshold := if insert_threshold < 1 then 1 else insert_threshold
  { n := 0
    error := error
    insert_threshold := (⌊insert_threshold⌋).toNat
    inserts := 0
    samples := []
    last_in := none
    sum := none }

/-- `count` of the source: the total number of insertions performed. -/
def CKMS.count {α : Type} (c : CKMS α) : Nat := c.n

/-- `last` of the source. -/
def CKMS.last {α : Type} (c : CKMS α) : Option α := c.last_in

/-- The rank walk of `query`: `prev` is `samples[i-1]`, the list argument
holds `samples[i..]`, `r` is the cumulative gap strictly before `i`.
Returns `none` when the walk runs off the end (the source then falls back
to the last sample). -/
def queryLoop {α : Type} (rhs : ℚ) : Entry α → Nat → List (Entry α) → Option (Nat × α)
  | _, _, [] => none
  | prev, r, cur :: rest =>
    let r1 := r + prev.g
    if ((r1 + cur.g + cur.delta : Nat) : ℚ) > rhs then some (r1, prev.v)
    else queryLoop rhs cur r1 rest

/-- `query` of the source: `none` on an empty summary, otherwise the rank
walk with threshold `n*q + invariant(n*q)/2`, falling back to
`(samples.len(), last sample's value)`. -/
def CKMS.query {α : Type} (c : CKMS α) (q : ℚ) : Option (Nat × α) :=
  match c.samples with
  | [] => none
  | first :: rest =>
    let nphi := q * (c.n : ℚ)
    let rhs := nphi + ((c.invariant nphi : Nat) : ℚ) / 2
    match queryLoop rhs first 0 rest with
    | some out => some out
    | none => some (c.samples.length, ((first :: rest).getLast (List.cons_ne_nil first rest)).v)

/-- The `AddAssign` merge of the source: take `rhs.last_in`, combine the
sums with the absent-value rules, then reinsert every retained sample
value of `rhs` through `priv_insert`. -/
def CKMS.absorb {α : Type} [LinearOrder α] [Add α] (c : CKMS α) (rhs : CKMS α) : CKMS α :=
  let c1 := { c with
    last_in := rhs.last_in
    sum := match c.sum, rhs.sum with
      | none, none => none
      | none, some y => some y
      | some x, none => some x
      | some x, some y => some (x + y) }
  rhs.samples.foldl (fun acc smpl => acc.priv_insert smpl.v) c1

/-- A whole stream of public inserts, oldest first. -/
def insertAll {α : Type} [LinearOrder α] [Add α] (c : CKMS α) (vs : List α) : CKMS α :=
  vs.foldl CKMS.insert c

/-- Sum of the gaps of a sample list. -/
def sumG {α : Type} (l : List (Entry α)) : Nat := (l.map Entry.g).sum

/-- Checker for the rank-error invariant, positions `1` onward: `r` is the
cumulative gap strictly before the inspected entry. -/
def rankErrAux {α : Type} (c : CKMS α) : Nat → List (Entry α) → Bool
  | _, [] => true
  | r, e :: rest => decide (e.g + e.delta ≤ c.invariant (r : ℚ)) && rankErrAux c (r + e.g) rest

/-- The rank-error invariant of the spec (and of the source's own
`f_invariant_test`): every entry at index `i ≥ 1` satisfies
`g + delta ≤ invariant (sum of the gaps before it)`. -/
def rankErrHolds {α : Type} (c : CKMS α) : Bool :=
  match c.samples with
  | [] => true
  | e0 :: rest => rankErrAux c e0.g rest

/-- States reachable through the public interface: construction, `insert`
and the `+=` merge. -/
inductive Reachable {α : Type} [LinearOrder α] [Add α] : CKMS α → Prop
  | new (e : ℚ) : Reachable (CKMS.new e)
  | insert {c : CKMS α} (h : Reachable c) (v : α) : Reachable (c.insert v)
  | absorb {c d : CKMS α} (hc : Reachable c) (hd : Reachable d) : Reachable (c.absorb d)

/-! ### A natural-number mirror of the operations

Every configured error in the concrete scenarios has the form `1/(2*k)`
for a positive integer `k` (`1/2`, `1/4`, `1/10`, `1/1000`).  For such an
error the allowance `invariant` applied to an integer rank equals
`max 1 (r / k)` over `ℕ`; the mirror below replaces exactly that one
computation so that closed runs reduce inside the kernel, and the
simulation theorems prove the mirror equal to the model. -/

/-- Mirror of `CKMS.invariant` at error `1/(2*k)` on integer ranks. -/
def nInvariant (k r : Nat) : Nat :=
  let i := r / k
  if 1 > i then 1 else i

/-- Mirror of `compressLoop`. -/
def nCompressLoop {α : Type} (k : Nat) : Nat → Entry α → List (Entry α) → List (Entry α)
  | _, cur, [] => [cur]
  | r, cur, nxt :: rest =>
    if cur.g + nxt.g + nxt.delta ≤ nInvariant k r then
      nCompressLoop k (r + 1) ⟨nxt.v, nxt.g + cur.g, nxt.delta⟩ rest
    else
      cur :: nCompressLoop k (r + 1) nxt rest

/-- Mirror of `CKMS.compress`. -/
def nCompress {α : Type} (k : Nat) (c : CKMS α) : CKMS α :=
  if c.samples.length < 3 then c
  else
    match c.samples with
    | [] => c
    | x :: xs => { c with samples := nCompressLoop k 1 x xs }

/-- Mirror of `CKMS.priv_insert`. -/
def nPrivInsert {α : Type} [LinearOrder α] (k : Nat) (c : CKMS α) (v : α) : CKMS α :=
  let s := c.samples.length
  if s = 0 then
    { c with samples := List.insertIdx 0 ⟨v, 1, 0⟩ c.samples, n := c.n + 1 }
  else
    let idx := (scanSamples v c.samples).1
    let r := (scanSamples v c.samples).2
    let delta := if idx = 0 ∨ idx = s then 0 else nInvariant k r - 1
    let c1 := { c with
      samples := List.insertIdx idx ⟨v, 1, delta⟩ c.samples
      n := c.n + 1
      inserts := (c.inserts + 1) % c.insert_threshold }
    if c1.inserts = 0 then nCompress k c1 else c1

/-- Mirror of `CKMS.insert`. -/
def nInsert {α : Type} [LinearOrder α] [Add α] (k : Nat) (c : CKMS α) (v : α) : CKMS α :=
  let c1 := { c with
    sum := match c.sum with
      | none => some v
      | some s => some (s + v)
    last_in := some v }
  nPrivInsert k c1 v

/-- Mirror of `insertAll`. -/
def nInsertAll {α : Type} [LinearOrder α] [Add α] (k : Nat) (c : CKMS α) (vs : List α) : CKMS α :=
  vs.foldl (nInsert k) c

/-- Mirror of `rankErrAux`. -/
def nRankErrAux {α : Type} (k : Nat) : Nat → List (Entry α) → Bool
  | _, [] => true
  | r, e :: rest => decide (e.g + e.delta ≤ nInvariant k r) && nRankErrAux k (r + e.g) rest

/-- Mirror of `rankErrHolds`. -/
def nRankErrHolds {α : Type} (k : Nat) (c : CKMS α) : Bool :=
  match c.samples with
  | [] => true
  | e0 :: rest => nRankErrAux k e0.g rest

/-- At error `1/(2*k)` the allowance on an integer rank is the
natural-number computation `max 1 (r / k)`. -/
theorem CKMS.invariant_natCast {α : Type} (c : CKMS α) (k : Nat) (hk : 0 < k)
    (he : c.error = 1 / (2 * (k : ℚ))) (r : Nat) :
    c.invariant (r : ℚ) = nInvariant k r := by
  unfold CKMS.invariant nInvariant
  have hkq : ((k : ℚ)) ≠ 0 := Nat.cast_ne_zero.mpr hk.ne'
  have h2 : 2 * c.error * (r : ℚ) = (r : ℚ) / (k : ℚ) := by
    rw [he]; field_simp; ring
  rw [h2, Int.floor_toNat, Nat.floor_div_nat, Nat.floor_natCast]

theorem compressLoop_eq {α : Type} (c : CKMS α) (k : Nat) (hk : 0 < k)
    (he : c.error = 1 / (2 * (k : ℚ))) :
    ∀ (l : List (Entry α)) (r : Nat) (cur : Entry α),
      compressLoop c r cur l = nCompressLoop k r cur l := by
  intro l
  induction l with
  | nil => intro r cur; rfl
  | cons nxt rest ih =>
    intro r cur
    rw [compressLoop, nCompressLoop, c.invariant_natCast k hk he]
    split
    · exact ih (r + 1) _
    · rw [ih (r + 1) nxt]

theorem compress_eq {α : Type} (c : CKMS α) (k : Nat) (hk : 0 < k)
    (he : c.error = 1 / (2 * (k : ℚ))) :
    c.compress = nCompress k c := by
  unfold CKMS.compress nCompress
  split
  · rfl
  · cases hs : c.samples with
    | nil => rfl
    | cons x xs => simp only [compressLoop_eq c k hk he]

theorem privInsert_eq {α : Type} [LinearOrder α] (c : CKMS α) (k : Nat) (hk : 0 < k)
    (he : c.error = 1 / (2 * (k : ℚ))) (v : α) :
    c.priv_insert v = nPrivInsert k c v := by
  unfold CKMS.priv_insert nPrivInsert
  simp only [c.invariant_natCast k hk he]
  by_cases h0 : c.samples.length = 0
  · simp only [h0, if_pos rfl, ite_true]
  · simp only [h0, if_false, ite_false]
    split
    · exact compress_eq _ k hk he
    · rfl

theorem insert_eq {α : Type} [LinearOrder α] [Add α] (c : CKMS α) (k : Nat) (hk : 0 < k)
    (he : c.error = 1 / (2 * (k : ℚ))) (v : α) :
    c.insert v = nInsert k c v := by
  unfold CKMS.insert nInsert
  exact privInsert_eq _ k hk (by exact he) v

/-! ### Field-preservation lemmas -/

theorem CKMS.error_compress {α : Type} (c : CKMS α) : c.compress.error = c.error := by
  unfold CKMS.compress
  split
  · rfl
  · cases c.samples <;> rfl

theorem CKMS.n_compress {α : Type} (c : CKMS α) : c.compress.n = c.n := by
  unfold CKMS.compress
  split
  · rfl
  · cases c.samples <;> rfl

theorem CKMS.sum_compress {α : Type} (c : CKMS α) : c.compress.sum = c.sum := by
  unfold CKMS.compress
  split
  · rfl
  · cases c.samples <;> rfl

theorem CKMS.last_compress {α : Type} (c : CKMS α) : c.compress.last_in = c.last_in := by
  unfold CKMS.compress
  split
  · rfl
  · cases c.samples <;> rfl

theorem CKMS.error_priv {α : Type} [LinearOrder α] (c : CKMS α) (v : α) :
    (c.priv_insert v).error = c.error := by
  unfold CKMS.priv_insert
  by_cases h0 : c.samples.length = 0
  · simp only [h0, if_pos rfl, ite_true]
  · simp only [h0, if_false, ite_false]
    split
    · rw [CKMS.error_compress]
    · rfl

theorem CKMS.n_priv {α : Type} [LinearOrder α] (c : CKMS α) (v : α) :
    (c.priv_insert v).n = c.n + 1 := by
  unfold CKMS.priv_insert
  by_cases h0 : c.samples.length = 0
  · simp only [h0, if_pos rfl, ite_true]
  · simp only [h0, if_false, ite_false]
    split
    · rw [CKMS.n_compress]
    · rfl

theorem CKMS.sum_priv {α : Type} [LinearOrder α] (c : CKMS α) (v : α) :
    (c.priv_insert v).sum = c.sum := by
  unfold CKMS.priv_insert
  by_cases h0 : c.samples.length = 0
  · simp only [h0, if_pos rfl, ite_true]
  · simp only [h0, if_false, ite_false]
    split
    · rw [CKMS.sum_compress]
    · rfl

theorem CKMS.last_priv {α : Type} [LinearOrder α] (c : CKMS α) (v : α) :
    (c.priv_insert v).last_in = c.last_in := by
  unfold CKMS.priv_insert
  by_cases h0 : c.samples.length = 0
  · simp only [h0, if_pos rfl, ite_true]
  · simp only [h0, if_false, ite_false]
    split
    · rw [CKMS.last_compress]
    · rfl

theorem CKMS.error_insert {α : Type} [LinearOrder α] [Add α] (c : CKMS α) (v : α) :
    (c.insert v).error = c.error := by
  unfold CKMS.insert
  rw [CKMS.error_priv]

theorem CKMS.n_insert {α : Type} [LinearOrder α] [Add α] (c : CKMS α) (v : α) :
    (c.insert v).n = c.n + 1 := by
  unfold CKMS.insert
  rw [CKMS.n_priv]

/-! ### Simulation for whole runs -/

theorem insertAll_eq {α : Type} [LinearOrder α] [Add α] (k : Nat) (hk : 0 < k) :
    ∀ (vs : List α) (c : CKMS α), c.error = 1 / (2 * (k : ℚ)) →
      insertAll c vs = nInsertAll k c vs := by
  intro vs
  induction vs with
  | nil => intro c he; rfl
  | cons v rest ih =>
    intro c he
    show insertAll (c.insert v) rest = nInsertAll k (nInsert k c v) rest
    rw [← insert_eq c k hk he v]
    exact ih _ (by rw [CKMS.error_insert]; exact he)

theorem rankErrAux_eq {α : Type} (c : CKMS α) (k : Nat) (hk : 0 < k)
    (he : c.error = 1 / (2 * (k : ℚ))) :
    ∀ (l : List (Entry α)) (r : Nat), rankErrAux c r l = nRankErrAux k r l := by
  intro l
  induction l with
  | nil => intro r; rfl
  | cons e rest ih =>
    intro r
    rw [rankErrAux, nRankErrAux, c.invariant_natCast k hk he, ih]

theorem rankErrHolds_eq {α : Type} (c : CKMS α) (k : Nat) (hk : 0 < k)
    (he : c.error = 1 / (2 * (k : ℚ))) :
    rankErrHolds c = nRankErrHolds k c := by
  unfold rankErrHolds nRankErrHolds
  cases c.samples with
  | nil => rfl
  | cons e0 rest => exact rankErrAux_eq c k hk he rest e0.g

/-! ### Characterizing construction at errors of the form `1/(2*k)` -/

theorem new_at_halfk {α : Type} (k : Nat) (hk : 1 ≤ k) :
    (CKMS.new (1 / (2 * (k : ℚ))) : CKMS α) =
      ⟨0, 1 / (2 * (k : ℚ)), k, 0, [], none, none⟩ := by
  have hkq : (1 : ℚ) ≤ (k : ℚ) := by exact_mod_cast hk
  have hkpos : (0 : ℚ) < (k : ℚ) := lt_of_lt_of_le one_pos hkq
  have he0 : ¬ ((1 / (2 * (k : ℚ))) ≤ 0) := not_le.mpr (by positivity)
  have he1 : ¬ ((1 : ℚ) ≤ 1 / (2 * (k : ℚ))) := by
    rw [not_le, div_lt_one (by positivity)]
    linarith
  have hinv : (1 : ℚ) / (2 * (1 / (2 * (k : ℚ)))) = (k : ℚ) := by
    field_simp
  simp only [CKMS.new, if_neg he0, if_neg he1, hinv, if_neg (not_lt.mpr hkq),
    Int.floor_natCast, Int.toNat_natCast]

theorem new_half : (CKMS.new (1 / 2) : CKMS Nat) = ⟨0, 1 / 2, 1, 0, [], none, none⟩ := by
  have h := @new_at_halfk Nat 1 (le_refl 1)
  rw [(by norm_num : (1 : ℚ) / (2 * ((1 : Nat) : ℚ)) = 1 / 2)] at h
  exact h

theorem new_quarter : (CKMS.new (1 / 4) : CKMS Nat) = ⟨0, 1 / 4, 2, 0, [], none, none⟩ := by
  have h := @new_at_halfk Nat 2 (by norm_num)
  rw [(by norm_num : (1 : ℚ) / (2 * ((2 : Nat) : ℚ)) = 1 / 4)] at h
  exact h

theorem new_tenth : (CKMS.new (1 / 10) : CKMS Nat) = ⟨0, 1 / 10, 5, 0, [], none, none⟩ := by
  have h := @new_at_halfk Nat 5 (by norm_num)
  rw [(by norm_num : (1 : ℚ) / (2 * ((5 : Nat) : ℚ)) = 1 / 10)] at h
  exact h

/-! ### Small structural lemmas about the operations -/

theorem scanSamples_fst_le {α : Type} [LinearOrder α] (v : α) :
    ∀ l : List (Entry α), (scanSamples v l).1 ≤ l.length := by
  intro l
  induction l with
  | nil => exact Nat.le_refl 0
  | cons e rest ih =>
    rw [scanSamples]
    split
    · exact Nat.succ_le_succ ih
    · exact Nat.zero_le _

theorem insertIdx_ne_nil {α : Type} (l : List α) (i : Nat) (e : α) (h : l ≠ []) :
    List.insertIdx i e l ≠ [] := by
  cases l with
  | nil => exact absurd rfl h
  | cons x xs =>
    cases i with
    | zero => simp [List.insertIdx_zero]
    | succ j => simp [List.insertIdx_succ_cons]

theorem compressLoop_ne_nil {α : Type} (c : CKMS α) :
    ∀ (l : List (Entry α)) (r : Nat) (cur : Entry α), compressLoop c r cur l ≠ [] := by
  intro l
  induction l with
  | nil => intro r cur; simp [compressLoop]
  | cons nxt rest ih =>
    intro r cur
    rw [compressLoop]
    split
    · exact ih _ _
    · simp

theorem CKMS.compress_samples_ne_nil {α : Type} (c : CKMS α) (h : c.samples ≠ []) :
    c.compress.samples ≠ [] := by
  unfold CKMS.compress
  split
  · exact h
  · cases hs : c.samples with
    | nil => exact absurd hs h
    | cons x xs => exact compressLoop_ne_nil c xs 1 x

theorem CKMS.priv_samples_ne_nil {α : Type} [LinearOrder α] (c : CKMS α) (v : α) :
    (c.priv_insert v).samples ≠ [] := by
  unfold CKMS.priv_insert
  by_cases h0 : c.samples.length = 0
  · simp only [h0, if_pos rfl, ite_true]
    simp
  · simp only [h0, if_false, ite_false]
    have hne : c.samples ≠ [] := fun hnil => h0 (by rw [hnil]; rfl)
    split
    · exact CKMS.compress_samples_ne_nil _ (insertIdx_ne_nil _ _ _ hne)
    · exact insertIdx_ne_nil _ _ _ hne

theorem CKMS.insert_samples_ne_nil {α : Type} [LinearOrder α] [Add α] (c : CKMS α) (v : α) :
    (c.insert v).samples ≠ [] := by
  unfold CKMS.insert
  exact CKMS.priv_samples_ne_nil _ v

theorem insertAll_samples_ne_nil {α : Type} [LinearOrder α] [Add α] :
    ∀ (vs : List α) (c : CKMS α), vs ≠ [] → (insertAll c vs).samples ≠ [] := by
  intro vs
  induction vs with
  | nil => intro c h; exact absurd rfl h
  | cons v rest ih =>
    intro c _
    show (insertAll (c.insert v) rest).samples ≠ []
    cases hr : rest with
    | nil => exact CKMS.insert_samples_ne_nil c v
    | cons y ys =>
      have : rest ≠ [] := by rw [hr]; simp
      rw [← hr]
      exact ih (c.insert v) this

theorem CKMS.query_eq_none_iff {α : Type} (c : CKMS α) (q : ℚ) :
    c.query q = none ↔ c.samples = [] := by
  unfold CKMS.query
  cases hs : c.samples with
  | nil => simp
  | cons first rest =>
    simp only
    cases hq : queryLoop (q * (c.n : ℚ) + ((c.invariant (q * (c.n : ℚ)) : Nat) : ℚ) / 2) first 0 rest with
    | none => simp [hq]
    | some out => simp [hq]

/-! ### Counting lemmas -/

theorem insertAll_n {α : Type} [LinearOrder α] [Add α] :
    ∀ (vs : List α) (c : CKMS α), (insertAll c vs).n = c.n + vs.length := by
  intro vs
  induction vs with
  | nil => intro c; rfl
  | cons v rest ih =>
    intro c
    show (insertAll (c.insert v) rest).n = c.n + (rest.length + 1)
    rw [ih, CKMS.n_insert]
    omega

theorem foldl_priv_n {α : Type} [LinearOrder α] :
    ∀ (l : List (Entry α)) (c : CKMS α),
      (l.foldl (fun acc smpl => acc.priv_insert smpl.v) c).n = c.n + l.length := by
  intro l
  induction l with
  | nil => intro c; rfl
  | cons e rest ih =>
    intro c
    show (rest.foldl (fun acc smpl => acc.priv_insert smpl.v) (c.priv_insert e.v)).n
        = c.n + (rest.length + 1)
    rw [ih, CKMS.n_priv]
    omega

theorem foldl_priv_sum {α : Type} [LinearOrder α] :
    ∀ (l : List (Entry α)) (c : CKMS α),
      (l.foldl (fun acc smpl => acc.priv_insert smpl.v) c).sum = c.sum := by
  intro l
  induction l with
  | nil => intro c; rfl
  | cons e rest ih =>
    intro c
    show (rest.foldl (fun acc smpl => acc.priv_insert smpl.v) (c.priv_insert e.v)).sum = c.sum
    rw [ih, CKMS.sum_priv]

theorem foldl_priv_last {α : Type} [LinearOrder α] :
    ∀ (l : List (Entry α)) (c : CKMS α),
      (l.foldl (fun acc smpl => acc.priv_insert smpl.v) c).last_in = c.last_in := by
  intro l
  induction l with
  | nil => intro c; rfl
  | cons e rest ih =>
    intro c
    show (rest.foldl (fun acc smpl => acc.priv_insert smpl.v) (c.priv_insert e.v)).last_in
        = c.last_in
    rw [ih, CKMS.last_priv]

/-! ### Gap-sum lemmas -/

theorem sumG_cons {α : Type} (e : Entry α) (l : List (Entry α)) :
    sumG (e :: l) = e.g + sumG l := by
  simp [sumG]

theorem sumG_compressLoop {α : Type} (c : CKMS α) :
    ∀ (l : List (Entry α)) (r : Nat) (cur : Entry α),
      sumG (compressLoop c r cur l) = cur.g + sumG l := by
  intro l
  induction l with
  | nil => intro r cur; simp [compressLoop, sumG]
  | cons nxt rest ih =>
    intro r cur
    rw [compressLoop]
    split
    · rw [ih, sumG_cons]
      simp only
      omega
    · rw [sumG_cons, ih, sumG_cons]

theorem CKMS.sumG_compress {α : Type} (c : CKMS α) :
    sumG c.compress.samples = sumG c.samples := by
  unfold CKMS.compress
  split
  · rfl
  · cases hs : c.samples with
    | nil =>
      show sumG c.samples = sumG []
      rw [hs]
    | cons x xs =>
      show sumG (compressLoop c 1 x xs) = sumG (x :: xs)
      rw [sumG_compressLoop, sumG_cons]

theorem sumG_insertIdx {α : Type} (e : Entry α) :
    ∀ (i : Nat) (l : List (Entry α)), i ≤ l.length →
      sumG (List.insertIdx i e l) = sumG l + e.g := by
  intro i
  induction i with
  | zero =>
    intro l _
    rw [List.insertIdx_zero, sumG_cons]
    omega
  | succ j ih =>
    intro l hl
    cases l with
    | nil => exact absurd hl (by simp)
    | cons x xs =>
      rw [List.insertIdx_succ_cons, sumG_cons, sumG_cons, ih xs (by simpa using hl)]
      omega

theorem CKMS.sumG_priv {α : Type} [LinearOrder α] (c : CKMS α) (v : α) :
    sumG (c.priv_insert v).samples = sumG c.samples + 1 := by
  unfold CKMS.priv_insert
  by_cases h0 : c.samples.length = 0
  · simp only [h0, if_pos rfl, ite_true]
    have : c.samples = [] := List.length_eq_zero.mp h0
    simp [this, sumG]
  · simp only [h0, if_false, ite_false]
    have hle : (scanSamples v c.samples).1 ≤ c.samples.length := scanSamples_fst_le v c.samples
    split
    · rw [CKMS.sumG_compress]
      exact sumG_insertIdx _ _ _ hle
    · exact sumG_insertIdx _ _ _ hle

theorem CKMS.sumG_insert {α : Type} [LinearOrder α] [Add α] (c : CKMS α) (v : α) :
    sumG (c.insert v).samples = sumG c.samples + 1 := by
  unfold CKMS.insert
  exact CKMS.sumG_priv _ v

theorem foldl_priv_sumG {α : Type} [LinearOrder α] :
    ∀ (l : List (Entry α)) (c : CKMS α),
      sumG (l.foldl (fun acc smpl => acc.priv_insert smpl.v) c).samples
        = sumG c.samples + l.length := by
  intro l
  induction l with
  | nil => intro c; rfl
  | cons e rest ih =>
    intro c
    show sumG (rest.foldl (fun acc smpl => acc.priv_insert smpl.v) (c.priv_insert e.v)).samples
        = sumG c.samples + (rest.length + 1)
    rw [ih, CKMS.sumG_priv]
    omega

/-! ### Ordering-invariant lemmas -/

/-- The order relation on entries induced by their values. -/
def entryLE {α : Type} [LinearOrder α] (a b : Entry α) : Prop := a.v ≤ b.v

theorem pairwise_insert_scan {α : Type} [LinearOrder α] (v : α) (d : Nat) :
    ∀ l : List (Entry α), List.Pairwise entryLE l →
      List.Pairwise entryLE (List.insertIdx (scanSamples v l).1 ⟨v, 1, d⟩ l) := by
  intro l
  induction l with
  | nil =>
    intro _
    simp [scanSamples, List.insertIdx_zero]
  | cons e rest ih =>
    intro hp
    rw [scanSamples]
    split
    · rename_i hlt
      simp only
      rw [List.insertIdx_succ_cons]
      have hp1 : List.Pairwise entryLE rest := hp.of_cons
      refine List.Pairwise.cons ?_ (ih hp1)
      intro x hx
      rcases (List.mem_insertIdx (scanSamples_fst_le v rest)).mp hx with hxe | hxl
      · rw [hxe]
        exact le_of_lt hlt
      · exact (List.pairwise_cons.mp hp).1 x hxl
    · rename_i hnlt
      simp only
      rw [List.insertIdx_zero]
      refine List.Pairwise.cons ?_ hp
      intro x hx
      have hve : entryLE ⟨v, 1, d⟩ e := le_of_not_lt hnlt
      rcases List.mem_cons.mp hx with hxe | hxl
      · rw [hxe]; exact hve
      · exact le_trans hve ((List.pairwise_cons.mp hp).1 x hxl)

theorem compressLoop_map_sublist {α : Type} (c : CKMS α) :
    ∀ (l : List (Entry α)) (r : Nat) (cur : Entry α),
      ((compressLoop c r cur l).map Entry.v).Sublist ((cur :: l).map Entry.v) := by
  intro l
  induction l with
  | nil => intro r cur; simp [compressLoop]
  | cons nxt rest ih =>
    intro r cur
    rw [compressLoop]
    split
    · exact (ih (r + 1) ⟨nxt.v, nxt.g + cur.g, nxt.delta⟩).cons _
    · simp only [List.map_cons]
      exact (ih (r + 1) nxt).cons₂ _

theorem pairwise_of_map_sublist {α : Type} [LinearOrder α] {l1 l2 : List (Entry α)}
    (hs : (l1.map Entry.v).Sublist (l2.map Entry.v)) (hp : List.Pairwise entryLE l2) :
    List.Pairwise entryLE l1 := by
  have h2 : List.Pairwise (fun a b : α => a ≤ b) (l2.map Entry.v) :=
    (@List.pairwise_map (Entry α) α Entry.v (fun a b => a ≤ b) l2).mpr hp
  have h1 : List.Pairwise (fun a b : α => a ≤ b) (l1.map Entry.v) := h2.sublist hs
  exact (@List.pairwise_map (Entry α) α Entry.v (fun a b => a ≤ b) l1).mp h1

theorem CKMS.pairwise_compress {α : Type} [LinearOrder α] (c : CKMS α)
    (hp : List.Pairwise entryLE c.samples) : List.Pairwise entryLE c.compress.samples := by
  unfold CKMS.compress
  split
  · exact hp
  · cases hs : c.samples with
    | nil =>
      show List.Pairwise entryLE c.samples
      exact hp
    | cons x xs =>
      show List.Pairwise entryLE (compressLoop c 1 x xs)
      rw [hs] at hp
      exact pairwise_of_map_sublist (compressLoop_map_sublist c xs 1 x) hp

theorem CKMS.pairwise_priv {α : Type} [LinearOrder α] (c : CKMS α) (v : α)
    (hp : List.Pairwise entryLE c.samples) :
    List.Pairwise entryLE (c.priv_insert v).samples := by
  unfold CKMS.priv_insert
  by_cases h0 : c.samples.length = 0
  · simp only [h0, if_pos rfl, ite_true]
    have : c.samples = [] := List.length_eq_zero.mp h0
    simp [this, List.insertIdx_zero]
  · simp only [h0, if_false, ite_false]
    split
    · exact CKMS.pairwise_compress _ (pairwise_insert_scan v _ c.samples hp)
    · exact pairwise_insert_scan v _ c.samples hp

theorem CKMS.pairwise_insert {α : Type} [LinearOrder α] [Add α] (c : CKMS α) (v : α)
    (hp : List.Pairwise entryLE c.samples) :
    List.Pairwise entryLE (c.insert v).samples := by
  unfold CKMS.insert
  exact CKMS.pairwise_priv _ v hp

theorem insertAll_pairwise {α : Type} [LinearOrder α] [Add α] :
    ∀ (vs : List α) (c : CKMS α), List.Pairwise entryLE c.samples →
      List.Pairwise entryLE (insertAll c vs).samples := by
  intro vs
  induction vs with
  | nil => intro c hp; exact hp
  | cons v rest ih =>
    intro c hp
    show List.Pairwise entryLE (insertAll (c.insert v) rest).samples
    exact ih _ (CKMS.pairwise_insert c v hp)

/-! ### Claim theorems: invariants and aggregates -/

/-- C2: after any finite sequence of public inserts on a fresh summary,
the retained samples are non-decreasing in `v` at every adjacent pair. -/
theorem claim_C2 {α : Type} [LinearOrder α] [Add α] (e : ℚ) (vs : List α) :
    List.Chain' (fun a b : α => a ≤ b) ((insertAll (CKMS.new e) vs).samples.map Entry.v) := by
  have hp : List.Pairwise entryLE (insertAll (CKMS.new e) vs).samples :=
    insertAll_pairwise vs _ List.Pairwise.nil
  have hm : List.Pairwise (fun a b : α => a ≤ b)
      ((insertAll (CKMS.new e) vs).samples.map Entry.v) :=
    (@List.pairwise_map (Entry α) α Entry.v (fun a b => a ≤ b) _).mpr hp
  exact List.chain'_iff_pairwise.mpr hm

/-- C4: after `k` public inserts on a fresh summary, `count` returns exactly
`k`; compression never changes `n`. -/
theorem claim_C4 {α : Type} [LinearOrder α] [Add α] (e : ℚ) (vs : List α) :
    (insertAll (CKMS.new e) vs).count = vs.length := by
  unfold CKMS.count
  rw [insertAll_n]
  show 0 + vs.length = vs.length
  omega

theorem CKMS.absorb_last {α : Type} [LinearOrder α] [Add α] (C D : CKMS α) :
    (C.absorb D).last = D.last_in := by
  unfold CKMS.last CKMS.absorb
  rw [foldl_priv_last]

theorem CKMS.absorb_sum {α : Type} [LinearOrder α] [Add α] (C D : CKMS α) :
    (C.absorb D).sum = (match C.sum, D.sum with
      | none, none => none
      | none, some y => some y
      | some x, none => some x
      | some x, some y => some (x + y)) := by
  unfold CKMS.absorb
  rw [foldl_priv_sum]

/-- C5: the merge takes the absorbed summary's `last_in`, combines the sums
with the absent-value rules, and the reinsertion pass changes neither; on
the concrete scenario (error `0.001`, insert `1` into `A` and `2` into `B`,
absorb `B` into `A`) the sum is `3` and the last value `2`. -/
theorem claim_C5 {α : Type} [LinearOrder α] [Add α] (A B : CKMS α) :
    ((A.absorb B).last = B.last_in ∧
      (A.absorb B).sum = (match A.sum, B.sum with
        | none, none => none
        | none, some y => some y
        | some x, none => some x
        | some x, some y => some (x + y))) ∧
    (((CKMS.new (1 / 1000) : CKMS Int).insert 1).absorb
        ((CKMS.new (1 / 1000) : CKMS Int).insert 2)).sum = some 3 ∧
    (((CKMS.new (1 / 1000) : CKMS Int).insert 1).absorb
        ((CKMS.new (1 / 1000) : CKMS Int).insert 2)).last = some 2 := by
  have hsum1 : ((CKMS.new (1 / 1000) : CKMS Int).insert 1).sum = some 1 := by
    unfold CKMS.insert
    rw [CKMS.sum_priv]
    rfl
  have hsum2 : ((CKMS.new (1 / 1000) : CKMS Int).insert 2).sum = some 2 := by
    unfold CKMS.insert
    rw [CKMS.sum_priv]
    rfl
  have hlast2 : ((CKMS.new (1 / 1000) : CKMS Int).insert 2).last_in = some 2 := by
    unfold CKMS.insert
    rw [CKMS.last_priv]
  refine ⟨⟨CKMS.absorb_last A B, CKMS.absorb_sum A B⟩, ?_, ?_⟩
  · rw [CKMS.absorb_sum, hsum1, hsum2]
    rfl
  · rw [CKMS.absorb_last, hlast2]

/-- C6: absorbing `B` into `A` raises the count by the number of samples
retained in `B`, not by `B.count`. -/
theorem claim_C6 {α : Type} [LinearOrder α] [Add α] (A B : CKMS α) :
    (A.absorb B).count = A.count + B.samples.length := by
  unfold CKMS.count CKMS.absorb
  rw [foldl_priv_n]

/-- C7: a query returns `none` exactly when nothing has been inserted, for
every quantile argument, in or out of `[0,1]`. -/
theorem claim_C7 {α : Type} [LinearOrder α] [Add α] (e : ℚ) (vs : List α) (q : ℚ) :
    (insertAll (CKMS.new e) vs).query q = none ↔ vs = [] := by
  rw [CKMS.query_eq_none_iff]
  constructor
  · intro h
    by_contra hne
    exact insertAll_samples_ne_nil vs _ hne h
  · intro h
    rw [h]
    rfl

/-- C10: the gaps of the retained samples always sum to `n` in every state
reachable through the public interface. -/
theorem claim_C10 {α : Type} [LinearOrder α] [Add α] (c : CKMS α) (h : Reachable c) :
    sumG c.samples = c.n := by
  induction h with
  | new e => rfl
  | insert hr v ih =>
    rw [CKMS.sumG_insert, CKMS.n_insert, ih]
  | absorb hc hd ihc ihd =>
    show sumG (CKMS.absorb _ _).samples = (CKMS.absorb _ _).n
    unfold CKMS.absorb
    rw [foldl_priv_sumG, foldl_priv_n]
    rename_i c1 d1
    show sumG c1.samples + d1.samples.length = c1.n + d1.samples.length
    rw [ihc]

/-- Witness for C10 at a concrete reachable state. -/
theorem claim_C10_witness :
    sumG ((CKMS.new (1 / 2) : CKMS Int).insert 0).samples
      = ((CKMS.new (1 / 2) : CKMS Int).insert 0).n :=
  claim_C10 _ (Reachable.insert (Reachable.new (1 / 2)) 0)

/-- C9: construction never fails, clamps the error (`≤ 0` to `1e-8`, `≥ 1`
to `0.99`, otherwise verbatim), stores
`insert_threshold = max 1 ⌊1/(2*error)⌋`, and starts from the empty
state. -/
theorem claim_C9 (e : ℚ) :
    (CKMS.new e : CKMS Int).error
        = (if e ≤ 0 then 1 / 100000000 else if 1 ≤ e then 99 / 100 else e) ∧
    (CKMS.new e : CKMS Int).insert_threshold
        = max 1 (⌊1 / (2 * (CKMS.new e : CKMS Int).error)⌋).toNat ∧
    (CKMS.new e : CKMS Int).n = 0 ∧
    (CKMS.new e : CKMS Int).inserts = 0 ∧
    (CKMS.new e : CKMS Int).samples = [] ∧
    (CKMS.new e : CKMS Int).sum = none ∧
    (CKMS.new e : CKMS Int).last_in = none := by
  have herr : (0 : ℚ) < (if e ≤ 0 then 1 / 100000000 else if 1 ≤ e then 99 / 100 else e) := by
    split_ifs with h1 h2
    · norm_num
    · norm_num
    · linarith [lt_of_not_le h1]
  refine ⟨rfl, ?_, rfl, rfl, rfl, rfl, rfl⟩
  show (⌊if (1 / (2 * (if e ≤ 0 then (1 : ℚ) / 100000000 else if 1 ≤ e then 99 / 100 else e))) < 1
      then (1 : ℚ)
      else 1 / (2 * (if e ≤ 0 then (1 : ℚ) / 100000000 else if 1 ≤ e then 99 / 100 else e))⌋).toNat
    = max 1 (⌊1 / (2 * (if e ≤ 0 then (1 : ℚ) / 100000000 else if 1 ≤ e then 99 / 100 else e))⌋).toNat
  set err := (if e ≤ 0 then (1 : ℚ) / 100000000 else if 1 ≤ e then 99 / 100 else e) with hdef
  have hx : (0 : ℚ) < 1 / (2 * err) := by positivity
  by_cases hlt : (1 / (2 * err) : ℚ) < 1
  · rw [if_pos hlt]
    have hfloor : ⌊(1 / (2 * err) : ℚ)⌋ = 0 := by
      rw [Int.floor_eq_zero_iff]
      constructor
      · exact le_of_lt hx
      · exact hlt
    rw [hfloor]
    norm_num
  · rw [if_neg hlt]
    have hge : (1 : ℚ) ≤ 1 / (2 * err) := le_of_not_lt hlt
    have hfloor : (1 : ℤ) ≤ ⌊(1 / (2 * err) : ℚ)⌋ := by
      have := Int.le_floor.mpr (by exact_mod_cast hge)
      simpa using this
    have : 1 ≤ (⌊(1 / (2 * err) : ℚ)⌋).toNat := by omega
    omega

/-! ### A compact evaluation mirror

For closed runs over `ℕ` we mirror the three behaviour-relevant fields
(`n`, `inserts`, `samples`) in a record without the rational error field,
with the comparisons written through `Nat.ble`/`Nat.blt`/`Nat.beq` and the
recursions through the primitive recursors, which the kernel reduces far
faster than the generic definitions.  Everything is proved equal to the
mirror above. -/

/-- The behaviour-relevant projection of a `CKMS ℕ` state. -/
structure RState where
  n : Nat
  inserts : Nat
  samples : List (Entry Nat)
deriving DecidableEq

/-- Projection of a full state to its behaviour-relevant fields. -/
def CKMS.toR (c : CKMS Nat) : RState := RState.mk c.n c.inserts c.samples

/-- Kernel-friendly form of `nInvariant`. -/
def rInvariant (k r : Nat) : Nat :=
  let i := r / k
  if i.ble 0 then 1 else i

/-- Kernel-friendly form of `nCompressLoop`. -/
def rCompressLoop (k : Nat) (l : List (Entry Nat)) : Nat → Entry Nat → List (Entry Nat) :=
  l.rec (fun _ cur => [cur])
    (fun nxt _ ih r cur =>
      if (cur.g + nxt.g + nxt.delta).ble (rInvariant k r) then
        ih (r + 1) (Entry.mk nxt.v (nxt.g + cur.g) nxt.delta)
      else
        cur :: ih (r + 1) nxt)

/-- Kernel-friendly form of `nCompress`. -/
def rCompress (k : Nat) (st : RState) : RState :=
  if st.samples.length.blt 3 then st
  else
    match st.samples with
    | [] => st
    | x :: xs => RState.mk st.n st.inserts (rCompressLoop k xs 1 x)

/-- Kernel-friendly form of `scanSamples` at `ℕ`. -/
def rScan (v : Nat) (l : List (Entry Nat)) : Nat × Nat :=
  l.rec (0, 0)
    (fun e _ ih => if e.v.blt v then (ih.1 + 1, ih.2 + e.g) else (0, 0))

/-- Kernel-friendly form of `nPrivInsert`. -/
def rPrivInsert (k thr : Nat) (st : RState) (v : Nat) : RState :=
  let s := st.samples.length
  if s.beq 0 then
    RState.mk (st.n + 1) st.inserts (List.insertIdx 0 (Entry.mk v 1 0) st.samples)
  else
    let idx := (rScan v st.samples).1
    let r := (rScan v st.samples).2
    let delta := if idx.beq 0 || idx.beq s then 0 else rInvariant k r - 1
    let st1 := RState.mk (st.n + 1) ((st.inserts + 1) % thr)
      (List.insertIdx idx (Entry.mk v 1 delta) st.samples)
    if st1.inserts.beq 0 then rCompress k st1 else st1

/-- Kernel-friendly form of `nInsertAll` on the projected state. -/
def rInsertAll (k thr : Nat) (st : RState) (vs : List Nat) : RState :=
  vs.foldl (rPrivInsert k thr) st

theorem rInvariant_eq (k r : Nat) : rInvariant k r = nInvariant k r := by
  unfold rInvariant nInvariant
  simp only [Nat.ble_eq]
  exact if_congr (by omega) rfl rfl

theorem rScan_eq (v : Nat) : ∀ l : List (Entry Nat), rScan v l = scanSamples v l := by
  intro l
  induction l with
  | nil => rfl
  | cons e rest ih =>
    show (if e.v.blt v then ((rScan v rest).1 + 1, (rScan v rest).2 + e.g) else (0, 0))
        = scanSamples v (e :: rest)
    rw [scanSamples]
    simp only [Nat.blt_eq]
    split
    · rw [ih]
    · rfl

theorem rCompressLoop_eq (k : Nat) :
    ∀ (l : List (Entry Nat)) (r : Nat) (cur : Entry Nat),
      rCompressLoop k l r cur = nCompressLoop k r cur l := by
  intro l
  induction l with
  | nil => intro r cur; rfl
  | cons nxt rest ih =>
    intro r cur
    show (if (cur.g + nxt.g + nxt.delta).ble (rInvariant k r) then
          rCompressLoop k rest (r + 1) (Entry.mk nxt.v (nxt.g + cur.g) nxt.delta)
        else cur :: rCompressLoop k rest (r + 1) nxt)
        = nCompressLoop k r cur (nxt :: rest)
    rw [nCompressLoop]
    simp only [Nat.ble_eq, rInvariant_eq]
    split
    · rw [ih]
    · rw [ih]

theorem toR_nCompress (k : Nat) (c : CKMS Nat) :
    (nCompress k c).toR = rCompress k c.toR := by
  unfold nCompress rCompress
  simp only [Nat.blt_eq]
  have hs : (CKMS.toR c).samples = c.samples := rfl
  rw [hs]
  split
  · rfl
  · cases hcs : c.samples with
    | nil => rfl
    | cons x xs =>
      show CKMS.toR { c with samples := nCompressLoop k 1 x xs }
          = RState.mk c.toR.n c.toR.inserts (rCompressLoop k xs 1 x)
      rw [rCompressLoop_eq]
      rfl

theorem nCompress_thr (k : Nat) (c : CKMS Nat) :
    (nCompress k c).insert_threshold = c.insert_threshold := by
  unfold nCompress
  split
  · rfl
  · cases c.samples <;> rfl

theorem toR_nPriv (k : Nat) (c : CKMS Nat) (v : Nat) :
    (nPrivInsert k c v).toR = rPrivInsert k c.insert_threshold c.toR v := by
  unfold nPrivInsert rPrivInsert
  have hs : (CKMS.toR c).samples = c.samples := rfl
  have hn : (CKMS.toR c).n = c.n := rfl
  have hi : (CKMS.toR c).inserts = c.inserts := rfl
  simp only [hs, hn, hi, Nat.beq_eq, Bool.or_eq_true, rScan_eq, rInvariant_eq]
  split
  · rfl
  · split
    · exact toR_nCompress k _
    · rfl

theorem nPriv_thr (k : Nat) (c : CKMS Nat) (v : Nat) :
    (nPrivInsert k c v).insert_threshold = c.insert_threshold := by
  unfold nPrivInsert
  by_cases h0 : c.samples.length = 0
  · simp only [h0, if_pos rfl, ite_true]
  · simp only [h0, if_false, ite_false]
    split
    · rw [nCompress_thr]
    · rfl

theorem toR_nInsert (k : Nat) (c : CKMS Nat) (v : Nat) :
    (nInsert k c v).toR = rPrivInsert k c.insert_threshold c.toR v := by
  unfold nInsert
  exact toR_nPriv k _ v

theorem nInsert_thr (k : Nat) (c : CKMS Nat) (v : Nat) :
    (nInsert k c v).insert_threshold = c.insert_threshold := by
  unfold nInsert
  exact nPriv_thr k _ v

theorem toR_nInsertAll (k : Nat) :
    ∀ (vs : List Nat) (c : CKMS Nat),
      (nInsertAll k c vs).toR = rInsertAll k c.insert_threshold c.toR vs := by
  intro vs
  induction vs with
  | nil => intro c; rfl
  | cons v rest ih =>
    intro c
    show (nInsertAll k (nInsert k c v) rest).toR
        = rInsertAll k c.insert_threshold (rPrivInsert k c.insert_threshold c.toR v) rest
    rw [ih (nInsert k c v), nInsert_thr, toR_nInsert]

/-! ### Batched evaluation of monotone insert windows

On the concrete compression scenario the inserted stream is strictly
increasing, so every positioned insertion appends at the right end with
`delta = 0` and compression fires exactly every five inserts.  The
following lemmas let a whole five-insert window be evaluated as a single
append followed by one compression pass. -/

theorem rScan_fst_full (v : Nat) :
    ∀ l : List (Entry Nat), (∀ e ∈ l, e.v < v) → (rScan v l).1 = l.length := by
  intro l
  induction l with
  | nil => intro _; rfl
  | cons e rest ih =>
    intro h
    show (if e.v.blt v then ((rScan v rest).1 + 1, (rScan v rest).2 + e.g) else (0, 0)).1
        = rest.length + 1
    have he : e.v < v := h e (List.mem_cons_self e rest)
    rw [if_pos (by simpa [Nat.blt_eq] using he)]
    show (rScan v rest).1 + 1 = rest.length + 1
    rw [ih (fun x hx => h x (List.mem_cons_of_mem e hx))]

theorem rPriv_append (k thr : Nat) (st : RState) (v : Nat) (hne : st.samples ≠ [])
    (hlt : ∀ e ∈ st.samples, e.v < v) :
    rPrivInsert k thr st v =
      (if ((st.inserts + 1) % thr).beq 0 then
        rCompress k (RState.mk (st.n + 1) ((st.inserts + 1) % thr)
          (st.samples ++ [Entry.mk v 1 0]))
      else
        RState.mk (st.n + 1) ((st.inserts + 1) % thr) (st.samples ++ [Entry.mk v 1 0])) := by
  unfold rPrivInsert
  have hlen : st.samples.length ≠ 0 := fun h => hne (List.length_eq_zero.mp h)
  have hbeq : st.samples.length.beq 0 = false := by
    cases h : st.samples.length.beq 0
    · rfl
    · exact absurd (Nat.eq_of_beq_eq_true h) hlen
  have hidx : (rScan v st.samples).1 = st.samples.length := rScan_fst_full v st.samples hlt
  dsimp only
  rw [hbeq, hidx]
  simp only [Nat.beq_refl, Bool.or_true, Bool.false_eq_true, if_false, if_pos rfl, if_true]
  rw [List.insertIdx_length_self]

theorem rCompressLoop_ne_nil_r (k : Nat) :
    ∀ (l : List (Entry Nat)) (r : Nat) (cur : Entry Nat), rCompressLoop k l r cur ≠ [] := by
  intro l
  induction l with
  | nil => intro r cur; simp [rCompressLoop]
  | cons nxt rest ih =>
    intro r cur
    show (if (cur.g + nxt.g + nxt.delta).ble (rInvariant k r) then
        rCompressLoop k rest (r + 1) (Entry.mk nxt.v (nxt.g + cur.g) nxt.delta)
      else cur :: rCompressLoop k rest (r + 1) nxt) ≠ []
    split
    · exact ih _ _
    · simp

theorem rCompress_ne_nil (k : Nat) (st : RState) (h : st.samples ≠ []) :
    (rCompress k st).samples ≠ [] := by
  unfold rCompress
  split
  · exact h
  · cases hs : st.samples with
    | nil => exact absurd hs h
    | cons x xs => exact rCompressLoop_ne_nil_r k xs 1 x

theorem rCompress_inserts (k : Nat) (st : RState) :
    (rCompress k st).inserts = st.inserts := by
  unfold rCompress
  split
  · rfl
  · cases st.samples <;> rfl

theorem rCompress_n (k : Nat) (st : RState) : (rCompress k st).n = st.n := by
  unfold rCompress
  split
  · rfl
  · cases st.samples <;> rfl

theorem rCompressLoop_v_mem (k : Nat) :
    ∀ (l : List (Entry Nat)) (r : Nat) (cur : Entry Nat) (x : Entry Nat),
      x ∈ rCompressLoop k l r cur → x.v ∈ (cur :: l).map Entry.v := by
  intro l
  induction l with
  | nil =>
    intro r cur x hx
    simp only [rCompressLoop, List.rec] at hx
    simp [List.eq_of_mem_singleton hx]
  | cons nxt rest ih =>
    intro r cur x hx
    have hx2 : x ∈ (if (cur.g + nxt.g + nxt.delta).ble (rInvariant k r) then
        rCompressLoop k rest (r + 1) (Entry.mk nxt.v (nxt.g + cur.g) nxt.delta)
      else cur :: rCompressLoop k rest (r + 1) nxt) := hx
    by_cases hc : ((cur.g + nxt.g + nxt.delta).ble (rInvariant k r) : Bool) = true
    · rw [if_pos hc] at hx2
      have := ih (r + 1) (Entry.mk nxt.v (nxt.g + cur.g) nxt.delta) x hx2
      simp only [List.map_cons, List.mem_cons] at this ⊢
      tauto
    · rw [if_neg hc] at hx2
      rcases List.mem_cons.mp hx2 with h1 | h2
      · simp [h1]
      · have := ih (r + 1) nxt x h2
        simp only [List.map_cons, List.mem_cons] at this ⊢
        tauto

theorem rCompress_v_bound (k : Nat) (st : RState) (w : Nat)
    (h : ∀ e ∈ st.samples, e.v < w) :
    ∀ e ∈ (rCompress k st).samples, e.v < w := by
  unfold rCompress
  split
  · exact h
  · cases hs : st.samples with
    | nil => intro e he; exact h e he
    | cons x xs =>
      intro e he
      have hv := rCompressLoop_v_mem k xs 1 x e he
      rcases List.mem_map.mp hv with ⟨y, hy, hyv⟩
      rw [← hyv]
      exact h y (hs ▸ hy)

theorem mem_append_bound (l : List (Entry Nat)) (w x : Nat)
    (hl : ∀ y ∈ l, y.v < w) (hwx : w < x) :
    ∀ y ∈ l ++ [Entry.mk w 1 0], y.v < x := by
  intro y hy
  rcases List.mem_append.mp hy with h1 | h2
  · exact lt_trans (hl y h1) hwx
  · rw [List.eq_of_mem_singleton h2]
    exact hwx

theorem rPriv_append_at (k thr : Nat) (st : RState) (v j : Nat) (hj : st.inserts = j)
    (hne : st.samples ≠ []) (hlt : ∀ e ∈ st.samples, e.v < v) :
    rPrivInsert k thr st v =
      (if ((j + 1) % thr).beq 0 then
        rCompress k (RState.mk (st.n + 1) ((j + 1) % thr) (st.samples ++ [Entry.mk v 1 0]))
      else
        RState.mk (st.n + 1) ((j + 1) % thr) (st.samples ++ [Entry.mk v 1 0])) := by
  rw [rPriv_append k thr st v hne hlt, hj]

set_option maxHeartbeats 2000000 in
theorem rFive (st : RState) (a b c d e : Nat)
    (h0 : st.inserts = 0) (hne : st.samples ≠ [])
    (hlt : ∀ x ∈ st.samples, x.v < a)
    (hab : a < b) (hbc : b < c) (hcd : c < d) (hde : d < e) :
    rInsertAll 5 5 st [a, b, c, d, e]
      = rCompress 5 (RState.mk (st.n + 5) 0 (st.samples ++
          [Entry.mk a 1 0, Entry.mk b 1 0, Entry.mk c 1 0, Entry.mk d 1 0, Entry.mk e 1 0])) := by
  have s1 : rPrivInsert 5 5 st a
      = RState.mk (st.n + 1) 1 (st.samples ++ [Entry.mk a 1 0]) := by
    rw [rPriv_append_at 5 5 st a 0 h0 hne hlt]
    exact rfl
  have hne1 : (RState.mk (st.n + 1) 1 (st.samples ++ [Entry.mk a 1 0])).samples ≠ [] := by
    simp
  have hlt1 := mem_append_bound st.samples a b hlt hab
  have s2 : rPrivInsert 5 5 (RState.mk (st.n + 1) 1 (st.samples ++ [Entry.mk a 1 0])) b
      = RState.mk (st.n + 1 + 1) 2 (st.samples ++ [Entry.mk a 1 0] ++ [Entry.mk b 1 0]) := by
    rw [rPriv_append_at 5 5 _ b 1 rfl hne1 hlt1]
    exact rfl
  have hne2 : (st.samples ++ [Entry.mk a 1 0] ++ [Entry.mk b 1 0]) ≠ [] := by simp
  have hlt2 := mem_append_bound (st.samples ++ [Entry.mk a 1 0]) b c hlt1 hbc
  have s3 : rPrivInsert 5 5
        (RState.mk (st.n + 1 + 1) 2 (st.samples ++ [Entry.mk a 1 0] ++ [Entry.mk b 1 0])) c
      = RState.mk (st.n + 1 + 1 + 1) 3
          (st.samples ++ [Entry.mk a 1 0] ++ [Entry.mk b 1 0] ++ [Entry.mk c 1 0]) := by
    rw [rPriv_append_at 5 5 _ c 2 rfl hne2 hlt2]
    exact rfl
  have hne3 : (st.samples ++ [Entry.mk a 1 0] ++ [Entry.mk b 1 0] ++ [Entry.mk c 1 0]) ≠ [] := by
    simp
  have hlt3 := mem_append_bound (st.samples ++ [Entry.mk a 1 0] ++ [Entry.mk b 1 0]) c d hlt2 hcd
  have s4 : rPrivInsert 5 5
        (RState.mk (st.n + 1 + 1 + 1) 3
          (st.samples ++ [Entry.mk a 1 0] ++ [Entry.mk b 1 0] ++ [Entry.mk c 1 0])) d
      = RState.mk (st.n + 1 + 1 + 1 + 1) 4
          (st.samples ++ [Entry.mk a 1 0] ++ [Entry.mk b 1 0] ++ [Entry.mk c 1 0]
            ++ [Entry.mk d 1 0]) := by
    rw [rPriv_append_at 5 5 _ d 3 rfl hne3 hlt3]
    exact rfl
  have hne4 : (st.samples ++ [Entry.mk a 1 0] ++ [Entry.mk b 1 0] ++ [Entry.mk c 1 0]
      ++ [Entry.mk d 1 0]) ≠ [] := by simp
  have hlt4 := mem_append_bound
    (st.samples ++ [Entry.mk a 1 0] ++ [Entry.mk b 1 0] ++ [Entry.mk c 1 0]) d e hlt3 hde
  have s5 : rPrivInsert 5 5
        (RState.mk (st.n + 1 + 1 + 1 + 1) 4
          (st.samples ++ [Entry.mk a 1 0] ++ [Entry.mk b 1 0] ++ [Entry.mk c 1 0]
            ++ [Entry.mk d 1 0])) e
      = rCompress 5 (RState.mk (st.n + 1 + 1 + 1 + 1 + 1) 0
          (st.samples ++ [Entry.mk a 1 0] ++ [Entry.mk b 1 0] ++ [Entry.mk c 1 0]
            ++ [Entry.mk d 1 0] ++ [Entry.mk e 1 0])) := by
    rw [rPriv_append_at 5 5 _ e 4 rfl hne4 hlt4]
    exact rfl
  show rPrivInsert 5 5 (rPrivInsert 5 5 (rPrivInsert 5 5 (rPrivInsert 5 5
      (rPrivInsert 5 5 st a) b) c) d) e = _
  rw [s1, s2, s3, s4, s5]
  have hn : st.n + 1 + 1 + 1 + 1 + 1 = st.n + 5 := by omega
  rw [hn]
  simp [List.append_assoc]

/-- The five consecutive values appended by one compression window. -/
def block5 (v : Nat) : List (Entry Nat) :=
  [Entry.mk v 1 0, Entry.mk (v + 1) 1 0, Entry.mk (v + 2) 1 0,
    Entry.mk (v + 3) 1 0, Entry.mk (v + 4) 1 0]

/-- One full window: append five increasing values, then compress. -/
def wStep (st : RState) (v : Nat) : RState :=
  rCompress 5 (RState.mk (st.n + 5) 0 (st.samples ++ block5 v))

/-- Iterated windows starting at value `v`. -/
def wRun (cnt : Nat) : Nat → RState → RState :=
  cnt.rec (fun _ s => s) (fun _ ih w s => ih (w + 5) (wStep s w))

theorem range'_five (v : Nat) : List.range' v 5 = [v, v + 1, v + 2, v + 3, v + 4] := rfl

theorem wRun_correct :
    ∀ (cnt v : Nat) (st : RState), st.inserts = 0 → st.samples ≠ [] →
      (∀ x ∈ st.samples, x.v < v) →
      rInsertAll 5 5 st (List.range' v (5 * cnt)) = wRun cnt v st := by
  intro cnt
  induction cnt with
  | zero => intro v st _ _ _; rfl
  | succ cnt ih =>
    intro v st h0 hne hlt
    have h55 : 5 * (cnt + 1) = 5 * cnt + 5 := by ring
    rw [h55, ← List.range'_append_1 v 5 (5 * cnt)]
    have hfold : rInsertAll 5 5 st (List.range' v 5 ++ List.range' (v + 5) (5 * cnt))
        = rInsertAll 5 5 (rInsertAll 5 5 st (List.range' v 5)) (List.range' (v + 5) (5 * cnt)) := by
      unfold rInsertAll
      rw [List.foldl_append]
    rw [hfold, range'_five,
      rFive st v (v + 1) (v + 2) (v + 3) (v + 4) h0 hne hlt
        (by omega) (by omega) (by omega) (by omega)]
    show rInsertAll 5 5 (wStep st v) (List.range' (v + 5) (5 * cnt)) = wRun cnt (v + 5) (wStep st v)
    apply ih
    · unfold wStep
      rw [rCompress_inserts]
    · unfold wStep
      apply rCompress_ne_nil
      simp [block5]
    · unfold wStep
      apply rCompress_v_bound
      intro x hx
      rcases List.mem_append.mp hx with h1 | h2
      · exact lt_trans (hlt x h1) (by omega)
      · simp only [block5, List.mem_cons, List.mem_singleton, List.not_mem_nil,
          or_false] at h2
        rcases h2 with h | h | h | h | h <;> (rw [h]; dsimp only; omega)

theorem wRun_add :
    ∀ (a b v : Nat) (st : RState), wRun (a + b) v st = wRun b (v + 5 * a) (wRun a v st) := by
  intro a
  induction a with
  | zero =>
    intro b v st
    show wRun (0 + b) v st = wRun b (v + 5 * 0) st
    rw [Nat.zero_add]
    have h : v + 5 * 0 = v := by omega
    rw [h]
  | succ a ih =>
    intro b v st
    have h1 : a + 1 + b = (a + b) + 1 := by omega
    rw [h1]
    show wRun (a + b) (v + 5) (wStep st v) = wRun b (v + 5 * (a + 1)) (wRun a (v + 5) (wStep st v))
    rw [ih b (v + 5) (wStep st v)]
    have h2 : v + 5 + 5 * a = v + 5 * (a + 1) := by omega
    rw [h2]

theorem insertAll_error {α : Type} [LinearOrder α] [Add α] :
    ∀ (vs : List α) (c : CKMS α), (insertAll c vs).error = c.error := by
  intro vs
  induction vs with
  | nil => intro c; rfl
  | cons v rest ih =>
    intro c
    show (insertAll (c.insert v) rest).error = c.error
    rw [ih, CKMS.error_insert]

theorem rInsertAll_append (k thr : Nat) (st : RState) (l1 l2 : List Nat) :
    rInsertAll k thr st (l1 ++ l2) = rInsertAll k thr (rInsertAll k thr st l1) l2 := by
  unfold rInsertAll
  rw [List.foldl_append]

theorem wRun_chunk (a b v w : Nat) (st st2 : RState) (hw : v + 5 * a = w)
    (h : wRun a v st = st2) : wRun (a + b) v st = wRun b w st2 := by
  rw [wRun_add, h, hw]

theorem CKMS.toR_n_eq (c : CKMS Nat) : c.toR.n = c.n := rfl

theorem CKMS.toR_samples_eq (c : CKMS Nat) : c.toR.samples = c.samples := rfl

theorem CKMS.count_toR (c : CKMS Nat) : c.count = c.toR.n := rfl
/-! ### Evaluated milestones of the compression scenario (error `0.1`,
inserts `1..9999`) -/

set_option maxRecDepth 10000

theorem c8_seg0 :
    rInsertAll 5 5 (RState.mk 0 0 []) (List.range' 1 6) = RState.mk 6 0 [Entry.mk 1 1 0, Entry.mk 2 1 0, Entry.mk 3 1 0, Entry.mk 4 1 0, Entry.mk 5 1 0, Entry.mk 6 1 0] := by
  decide!

theorem c8_w1 :
    wRun 250 7 (RState.mk 6 0 [Entry.mk 1 1 0, Entry.mk 2 1 0, Entry.mk 3 1 0, Entry.mk 4 1 0, Entry.mk 5 1 0, Entry.mk 6 1 0]) =
      RState.mk 1256 0 [Entry.mk 1 1 0, Entry.mk 2 1 0, Entry.mk 3 1 0, Entry.mk 4 1 0, Entry.mk 5 1 0, Entry.mk 6 1 0, Entry.mk 7 1 0, Entry.mk 8 1 0, Entry.mk 9 1 0, Entry.mk 11 2 0, Entry.mk 13 2 0, Entry.mk 15 2 0, Entry.mk 17 2 0, Entry.mk 20 3 0, Entry.mk 23 3 0, Entry.mk 26 3 0, Entry.mk 29 3 0, Entry.mk 32 3 0, Entry.mk 36 4 0, Entry.mk 40 4 0, Entry.mk 44 4 0, Entry.mk 48 4 0, Entry.mk 52 4 0, Entry.mk 56 4 0, Entry.mk 61 5 0, Entry.mk 66 5 0, Entry.mk 71 5 0, Entry.mk 76 5 0, Entry.mk 81 5 0, Entry.mk 87 6 0, Entry.mk 93 6 0, Entry.mk 100 7 0, Entry.mk 106 6 0, Entry.mk 113 7 0, Entry.mk 120 7 0, Entry.mk 127 7 0, Entry.mk 135 8 0, Entry.mk 142 7 0, Entry.mk 150 8 0, Entry.mk 158 8 0, Entry.mk 166 8 0, Entry.mk 175 9 0, Entry.mk 184 9 0, Entry.mk 193 9 0, Entry.mk 202 9 0, Entry.mk 211 9 0, Entry.mk 221 10 0, Entry.mk 231 10 0, Entry.mk 241 10 0, Entry.mk 251 10 0, Entry.mk 261 10 0, Entry.mk 271 10 0, Entry.mk 281 10 0, Entry.mk 291 10 0, Entry.mk 302 11 0, Entry.mk 313 11 0, Entry.mk 325 12 0, Entry.mk 336 11 0, Entry.mk 348 12 0, Entry.mk 360 12 0, Entry.mk 372 12 0, Entry.mk 385 13 0, Entry.mk 397 12 0, Entry.mk 410 13 0, Entry.mk 423 13 0, Entry.mk 436 13 0, Entry.mk 450 14 0, Entry.mk 464 14 0, Entry.mk 478 14 0, Entry.mk 492 14 0, Entry.mk 506 14 0, Entry.mk 521 15 0, Entry.mk 536 15 0, Entry.mk 551 15 0, Entry.mk 566 15 0, Entry.mk 581 15 0, Entry.mk 596 15 0, Entry.mk 611 15 0, Entry.mk 626 15 0, Entry.mk 642 16 0, Entry.mk 658 16 0, Entry.mk 675 17 0, Entry.mk 691 16 0, Entry.mk 708 17 0, Entry.mk 725 17 0, Entry.mk 742 17 0, Entry.mk 760 18 0, Entry.mk 777 17 0, Entry.mk 795 18 0, Entry.mk 813 18 0, Entry.mk 831 18 0, Entry.mk 850 19 0, Entry.mk 869 19 0, Entry.mk 888 19 0, Entry.mk 907 19 0, Entry.mk 926 19 0, Entry.mk 946 20 0, Entry.mk 966 20 0, Entry.mk 986 20 0, Entry.mk 1006 20 0, Entry.mk 1026 20 0, Entry.mk 1046 20 0, Entry.mk 1066 20 0, Entry.mk 1086 20 0, Entry.mk 1107 21 0, Entry.mk 1128 21 0, Entry.mk 1150 22 0, Entry.mk 1171 21 0, Entry.mk 1193 22 0, Entry.mk 1215 22 0, Entry.mk 1237 22 0, Entry.mk 1256 19 0] := by
  decide!

theorem c8_w2 :
    wRun 250 1257 (RState.mk 1256 0 [Entry.mk 1 1 0, Entry.mk 2 1 0, Entry.mk 3 1 0, Entry.mk 4 1 0, Entry.mk 5 1 0, Entry.mk 6 1 0, Entry.mk 7 1 0, Entry.mk 8 1 0, Entry.mk 9 1 0, Entry.mk 11 2 0, Entry.mk 13 2 0, Entry.mk 15 2 0, Entry.mk 17 2 0, Entry.mk 20 3 0, Entry.mk 23 3 0, Entry.mk 26 3 0, Entry.mk 29 3 0, Entry.mk 32 3 0, Entry.mk 36 4 0, Entry.mk 40 4 0, Entry.mk 44 4 0, Entry.mk 48 4 0, Entry.mk 52 4 0, Entry.mk 56 4 0, Entry.mk 61 5 0, Entry.mk 66 5 0, Entry.mk 71 5 0, Entry.mk 76 5 0, Entry.mk 81 5 0, Entry.mk 87 6 0, Entry.mk 93 6 0, Entry.mk 100 7 0, Entry.mk 106 6 0, Entry.mk 113 7 0, Entry.mk 120 7 0, Entry.mk 127 7 0, Entry.mk 135 8 0, Entry.mk 142 7 0, Entry.mk 150 8 0, Entry.mk 158 8 0, Entry.mk 166 8 0, Entry.mk 175 9 0, Entry.mk 184 9 0, Entry.mk 193 9 0, Entry.mk 202 9 0, Entry.mk 211 9 0, Entry.mk 221 10 0, Entry.mk 231 10 0, Entry.mk 241 10 0, Entry.mk 251 10 0, Entry.mk 261 10 0, Entry.mk 271 10 0, Entry.mk 281 10 0, Entry.mk 291 10 0, Entry.mk 302 11 0, Entry.mk 313 11 0, Entry.mk 325 12 0, Entry.mk 336 11 0, Entry.mk 348 12 0, Entry.mk 360 12 0, Entry.mk 372 12 0, Entry.mk 385 13 0, Entry.mk 397 12 0, Entry.mk 410 13 0, Entry.mk 423 13 0, Entry.mk 436 13 0, Entry.mk 450 14 0, Entry.mk 464 14 0, Entry.mk 478 14 0, Entry.mk 492 14 0, Entry.mk 506 14 0, Entry.mk 521 15 0, Entry.mk 536 15 0, Entry.mk 551 15 0, Entry.mk 566 15 0, Entry.mk 581 15 0, Entry.mk 596 15 0, Entry.mk 611 15 0, Entry.mk 626 15 0, Entry.mk 642 16 0, Entry.mk 658 16 0, Entry.mk 675 17 0, Entry.mk 691 16 0, Entry.mk 708 17 0, Entry.mk 725 17 0, Entry.mk 742 17 0, Entry.mk 760 18 0, Entry.mk 777 17 0, Entry.mk 795 18 0, Entry.mk 813 18 0, Entry.mk 831 18 0, Entry.mk 850 19 0, Entry.mk 869 19 0, Entry.mk 888 19 0, Entry.mk 907 19 0, Entry.mk 926 19 0, Entry.mk 946 20 0, Entry.mk 966 20 0, Entry.mk 986 20 0, Entry.mk 1006 20 0, Entry.mk 1026 20 0, Entry.mk 1046 20 0, Entry.mk 1066 20 0, Entry.mk 1086 20 0, Entry.mk 1107 21 0, Entry.mk 1128 21 0, Entry.mk 1150 22 0, Entry.mk 1171 21 0, Entry.mk 1193 22 0, Entry.mk 1215 22 0, Entry.mk 1237 22 0, Entry.mk 1256 19 0]) =
      RState.mk 2506 0 [Entry.mk 1 1 0, Entry.mk 2 1 0, Entry.mk 3 1 0, Entry.mk 4 1 0, Entry.mk 5 1 0, Entry.mk 6 1 0, Entry.mk 7 1 0, Entry.mk 8 1 0, Entry.mk 9 1 0, Entry.mk 11 2 0, Entry.mk 13 2 0, Entry.mk 15 2 0, Entry.mk 17 2 0, Entry.mk 20 3 0, Entry.mk 23 3 0, Entry.mk 26 3 0, Entry.mk 29 3 0, Entry.mk 32 3 0, Entry.mk 36 4 0, Entry.mk 40 4 0, Entry.mk 44 4 0, Entry.mk 48 4 0, Entry.mk 52 4 0, Entry.mk 56 4 0, Entry.mk 61 5 0, Entry.mk 66 5 0, Entry.mk 71 5 0, Entry.mk 76 5 0, Entry.mk 81 5 0, Entry.mk 87 6 0, Entry.mk 93 6 0, Entry.mk 100 7 0, Entry.mk 106 6 0, Entry.mk 113 7 0, Entry.mk 120 7 0, Entry.mk 127 7 0, Entry.mk 135 8 0, Entry.mk 142 7 0, Entry.mk 150 8 0, Entry.mk 158 8 0, Entry.mk 166 8 0, Entry.mk 175 9 0, Entry.mk 184 9 0, Entry.mk 193 9 0, Entry.mk 202 9 0, Entry.mk 211 9 0, Entry.mk 221 10 0, Entry.mk 231 10 0, Entry.mk 241 10 0, Entry.mk 251 10 0, Entry.mk 261 10 0, Entry.mk 271 10 0, Entry.mk 281 10 0, Entry.mk 291 10 0, Entry.mk 302 11 0, Entry.mk 313 11 0, Entry.mk 325 12 0, Entry.mk 336 11 0, Entry.mk 348 12 0, Entry.mk 360 12 0, Entry.mk 372 12 0, Entry.mk 385 13 0, Entry.mk 397 12 0, Entry.mk 410 13 0, Entry.mk 423 13 0, Entry.mk 436 13 0, Entry.mk 450 14 0, Entry.mk 464 14 0, Entry.mk 478 14 0, Entry.mk 492 14 0, Entry.mk 506 14 0, Entry.mk 521 15 0, Entry.mk 536 15 0, Entry.mk 551 15 0, Entry.mk 566 15 0, Entry.mk 581 15 0, Entry.mk 596 15 0, Entry.mk 611 15 0, Entry.mk 626 15 0, Entry.mk 642 16 0, Entry.mk 658 16 0, Entry.mk 675 17 0, Entry.mk 691 16 0, Entry.mk 708 17 0, Entry.mk 725 17 0, Entry.mk 742 17 0, Entry.mk 760 18 0, Entry.mk 777 17 0, Entry.mk 795 18 0, Entry.mk 813 18 0, Entry.mk 831 18 0, Entry.mk 850 19 0, Entry.mk 869 19 0, Entry.mk 888 19 0, Entry.mk 907 19 0, Entry.mk 926 19 0, Entry.mk 946 20 0, Entry.mk 966 20 0, Entry.mk 986 20 0, Entry.mk 1006 20 0, Entry.mk 1026 20 0, Entry.mk 1046 20 0, Entry.mk 1066 20 0, Entry.mk 1086 20 0, Entry.mk 1107 21 0, Entry.mk 1128 21 0, Entry.mk 1150 22 0, Entry.mk 1171 21 0, Entry.mk 1193 22 0, Entry.mk 1215 22 0, Entry.mk 1237 22 0, Entry.mk 1260 23 0, Entry.mk 1282 22 0, Entry.mk 1305 23 0, Entry.mk 1328 23 0, Entry.mk 1351 23 0, Entry.mk 1375 24 0, Entry.mk 1399 24 0, Entry.mk 1423 24 0, Entry.mk 1447 24 0, Entry.mk 1471 24 0, Entry.mk 1496 25 0, Entry.mk 1521 25 0, Entry.mk 1546 25 0, Entry.mk 1571 25 0, Entry.mk 1596 25 0, Entry.mk 1621 25 0, Entry.mk 1646 25 0, Entry.mk 1671 25 0, Entry.mk 1697 26 0, Entry.mk 1723 26 0, Entry.mk 1750 27 0, Entry.mk 1776 26 0, Entry.mk 1803 27 0, Entry.mk 1830 27 0, Entry.mk 1857 27 0, Entry.mk 1885 28 0, Entry.mk 1912 27 0, Entry.mk 1940 28 0, Entry.mk 1968 28 0, Entry.mk 1996 28 0, Entry.mk 2025 29 0, Entry.mk 2054 29 0, Entry.mk 2083 29 0, Entry.mk 2112 29 0, Entry.mk 2141 29 0, Entry.mk 2171 30 0, Entry.mk 2201 30 0, Entry.mk 2231 30 0, Entry.mk 2261 30 0, Entry.mk 2291 30 0, Entry.mk 2321 30 0, Entry.mk 2351 30 0, Entry.mk 2381 30 0, Entry.mk 2412 31 0, Entry.mk 2443 31 0, Entry.mk 2475 32 0, Entry.mk 2506 31 0] := by
  decide!

theorem c8_w3 :
    wRun 250 2507 (RState.mk 2506 0 [Entry.mk 1 1 0, Entry.mk 2 1 0, Entry.mk 3 1 0, Entry.mk 4 1 0, Entry.mk 5 1 0, Entry.mk 6 1 0, Entry.mk 7 1 0, Entry.mk 8 1 0, Entry.mk 9 1 0, Entry.mk 11 2 0, Entry.mk 13 2 0, Entry.mk 15 2 0, Entry.mk 17 2 0, Entry.mk 20 3 0, Entry.mk 23 3 0, Entry.mk 26 3 0, Entry.mk 29 3 0, Entry.mk 32 3 0, Entry.mk 36 4 0, Entry.mk 40 4 0, Entry.mk 44 4 0, Entry.mk 48 4 0, Entry.mk 52 4 0, Entry.mk 56 4 0, Entry.mk 61 5 0, Entry.mk 66 5 0, Entry.mk 71 5 0, Entry.mk 76 5 0, Entry.mk 81 5 0, Entry.mk 87 6 0, Entry.mk 93 6 0, Entry.mk 100 7 0, Entry.mk 106 6 0, Entry.mk 113 7 0, Entry.mk 120 7 0, Entry.mk 127 7 0, Entry.mk 135 8 0, Entry.mk 142 7 0, Entry.mk 150 8 0, Entry.mk 158 8 0, Entry.mk 166 8 0, Entry.mk 175 9 0, Entry.mk 184 9 0, Entry.mk 193 9 0, Entry.mk 202 9 0, Entry.mk 211 9 0, Entry.mk 221 10 0, Entry.mk 231 10 0, Entry.mk 241 10 0, Entry.mk 251 10 0, Entry.mk 261 10 0, Entry.mk 271 10 0, Entry.mk 281 10 0, Entry.mk 291 10 0, Entry.mk 302 11 0, Entry.mk 313 11 0, Entry.mk 325 12 0, Entry.mk 336 11 0, Entry.mk 348 12 0, Entry.mk 360 12 0, Entry.mk 372 12 0, Entry.mk 385 13 0, Entry.mk 397 12 0, Entry.mk 410 13 0, Entry.mk 423 13 0, Entry.mk 436 13 0, Entry.mk 450 14 0, Entry.mk 464 14 0, Entry.mk 478 14 0, Entry.mk 492 14 0, Entry.mk 506 14 0, Entry.mk 521 15 0, Entry.mk 536 15 0, Entry.mk 551 15 0, Entry.mk 566 15 0, Entry.mk 581 15 0, Entry.mk 596 15 0, Entry.mk 611 15 0, Entry.mk 626 15 0, Entry.mk 642 16 0, Entry.mk 658 16 0, Entry.mk 675 17 0, Entry.mk 691 16 0, Entry.mk 708 17 0, Entry.mk 725 17 0, Entry.mk 742 17 0, Entry.mk 760 18 0, Entry.mk 777 17 0, Entry.mk 795 18 0, Entry.mk 813 18 0, Entry.mk 831 18 0, Entry.mk 850 19 0, Entry.mk 869 19 0, Entry.mk 888 19 0, Entry.mk 907 19 0, Entry.mk 926 19 0, Entry.mk 946 20 0, Entry.mk 966 20 0, Entry.mk 986 20 0, Entry.mk 1006 20 0, Entry.mk 1026 20 0, Entry.mk 1046 20 0, Entry.mk 1066 20 0, Entry.mk 1086 20 0, Entry.mk 1107 21 0, Entry.mk 1128 21 0, Entry.mk 1150 22 0, Entry.mk 1171 21 0, Entry.mk 1193 22 0, Entry.mk 1215 22 0, Entry.mk 1237 22 0, Entry.mk 1260 23 0, Entry.mk 1282 22 0, Entry.mk 1305 23 0, Entry.mk 1328 23 0, Entry.mk 1351 23 0, Entry.mk 1375 24 0, Entry.mk 1399 24 0, Entry.mk 1423 24 0, Entry.mk 1447 24 0, Entry.mk 1471 24 0, Entry.mk 1496 25 0, Entry.mk 1521 25 0, Entry.mk 1546 25 0, Entry.mk 1571 25 0, Entry.mk 1596 25 0, Entry.mk 1621 25 0, Entry.mk 1646 25 0, Entry.mk 1671 25 0, Entry.mk 1697 26 0, Entry.mk 1723 26 0, Entry.mk 1750 27 0, Entry.mk 1776 26 0, Entry.mk 1803 27 0, Entry.mk 1830 27 0, Entry.mk 1857 27 0, Entry.mk 1885 28 0, Entry.mk 1912 27 0, Entry.mk 1940 28 0, Entry.mk 1968 28 0, Entry.mk 1996 28 0, Entry.mk 2025 29 0, Entry.mk 2054 29 0, Entry.mk 2083 29 0, Entry.mk 2112 29 0, Entry.mk 2141 29 0, Entry.mk 2171 30 0, Entry.mk 2201 30 0, Entry.mk 2231 30 0, Entry.mk 2261 30 0, Entry.mk 2291 30 0, Entry.mk 2321 30 0, Entry.mk 2351 30 0, Entry.mk 2381 30 0, Entry.mk 2412 31 0, Entry.mk 2443 31 0, Entry.mk 2475 32 0, Entry.mk 2506 31 0]) =
      RState.mk 3756 0 [Entry.mk 1 1 0, Entry.mk 2 1 0, Entry.mk 3 1 0, Entry.mk 4 1 0, Entry.mk 5 1 0, Entry.mk 6 1 0, Entry.mk 7 1 0, Entry.mk 8 1 0, Entry.mk 9 1 0, Entry.mk 11 2 0, Entry.mk 13 2 0, Entry.mk 15 2 0, Entry.mk 17 2 0, Entry.mk 20 3 0, Entry.mk 23 3 0, Entry.mk 26 3 0, Entry.mk 29 3 0, Entry.mk 32 3 0, Entry.mk 36 4 0, Entry.mk 40 4 0, Entry.mk 44 4 0, Entry.mk 48 4 0, Entry.mk 52 4 0, Entry.mk 56 4 0, Entry.mk 61 5 0, Entry.mk 66 5 0, Entry.mk 71 5 0, Entry.mk 76 5 0, Entry.mk 81 5 0, Entry.mk 87 6 0, Entry.mk 93 6 0, Entry.mk 100 7 0, Entry.mk 106 6 0, Entry.mk 113 7 0, Entry.mk 120 7 0, Entry.mk 127 7 0, Entry.mk 135 8 0, Entry.mk 142 7 0, Entry.mk 150 8 0, Entry.mk 158 8 0, Entry.mk 166 8 0, Entry.mk 175 9 0, Entry.mk 184 9 0, Entry.mk 193 9 0, Entry.mk 202 9 0, Entry.mk 211 9 0, Entry.mk 221 10 0, Entry.mk 231 10 0, Entry.mk 241 10 0, Entry.mk 251 10 0, Entry.mk 261 10 0, Entry.mk 271 10 0, Entry.mk 281 10 0, Entry.mk 291 10 0, Entry.mk 302 11 0, Entry.mk 313 11 0, Entry.mk 325 12 0, Entry.mk 336 11 0, Entry.mk 348 12 0, Entry.mk 360 12 0, Entry.mk 372 12 0, Entry.mk 385 13 0, Entry.mk 397 12 0, Entry.mk 410 13 0, Entry.mk 423 13 0, Entry.mk 436 13 0, Entry.mk 450 14 0, Entry.mk 464 14 0, Entry.mk 478 14 0, Entry.mk 492 14 0, Entry.mk 506 14 0, Entry.mk 521 15 0, Entry.mk 536 15 0, Entry.mk 551 15 0, Entry.mk 566 15 0, Entry.mk 581 15 0, Entry.mk 596 15 0, Entry.mk 611 15 0, Entry.mk 626 15 0, Entry.mk 642 16 0, Entry.mk 658 16 0, Entry.mk 675 17 0, Entry.mk 691 16 0, Entry.mk 708 17 0, Entry.mk 725 17 0, Entry.mk 742 17 0, Entry.mk 760 18 0, Entry.mk 777 17 0, Entry.mk 795 18 0, Entry.mk 813 18 0, Entry.mk 831 18 0, Entry.mk 850 19 0, Entry.mk 869 19 0, Entry.mk 888 19 0, Entry.mk 907 19 0, Entry.mk 926 19 0, Entry.mk 946 20 0, Entry.mk 966 20 0, Entry.mk 986 20 0, Entry.mk 1006 20 0, Entry.mk 1026 20 0, Entry.mk 1046 20 0, Entry.mk 1066 20 0, Entry.mk 1086 20 0, Entry.mk 1107 21 0, Entry.mk 1128 21 0, Entry.mk 1150 22 0, Entry.mk 1171 21 0, Entry.mk 1193 22 0, Entry.mk 1215 22 0, Entry.mk 1237 22 0, Entry.mk 1260 23 0, Entry.mk 1282 22 0, Entry.mk 1305 23 0, Entry.mk 1328 23 0, Entry.mk 1351 23 0, Entry.mk 1375 24 0, Entry.mk 1399 24 0, Entry.mk 1423 24 0, Entry.mk 1447 24 0, Entry.mk 1471 24 0, Entry.mk 1496 25 0, Entry.mk 1521 25 0, Entry.mk 1546 25 0, Entry.mk 1571 25 0, Entry.mk 1596 25 0, Entry.mk 1621 25 0, Entry.mk 1646 25 0, Entry.mk 1671 25 0, Entry.mk 1697 26 0, Entry.mk 1723 26 0, Entry.mk 1750 27 0, Entry.mk 1776 26 0, Entry.mk 1803 27 0, Entry.mk 1830 27 0, Entry.mk 1857 27 0, Entry.mk 1885 28 0, Entry.mk 1912 27 0, Entry.mk 1940 28 0, Entry.mk 1968 28 0, Entry.mk 1996 28 0, Entry.mk 2025 29 0, Entry.mk 2054 29 0, Entry.mk 2083 29 0, Entry.mk 2112 29 0, Entry.mk 2141 29 0, Entry.mk 2171 30 0, Entry.mk 2201 30 0, Entry.mk 2231 30 0, Entry.mk 2261 30 0, Entry.mk 2291 30 0, Entry.mk 2321 30 0, Entry.mk 2351 30 0, Entry.mk 2381 30 0, Entry.mk 2412 31 0, Entry.mk 2443 31 0, Entry.mk 2475 32 0, Entry.mk 2506 31 0, Entry.mk 2538 32 0, Entry.mk 2570 32 0, Entry.mk 2602 32 0, Entry.mk 2635 33 0, Entry.mk 2667 32 0, Entry.mk 2700 33 0, Entry.mk 2733 33 0, Entry.mk 2766 33 0, Entry.mk 2800 34 0, Entry.mk 2834 34 0, Entry.mk 2868 34 0, Entry.mk 2902 34 0, Entry.mk 2936 34 0, Entry.mk 2971 35 0, Entry.mk 3006 35 0, Entry.mk 3041 35 0, Entry.mk 3076 35 0, Entry.mk 3111 35 0, Entry.mk 3146 35 0, Entry.mk 3181 35 0, Entry.mk 3216 35 0, Entry.mk 3252 36 0, Entry.mk 3288 36 0, Entry.mk 3325 37 0, Entry.mk 3361 36 0, Entry.mk 3398 37 0, Entry.mk 3435 37 0, Entry.mk 3472 37 0, Entry.mk 3510 38 0, Entry.mk 3547 37 0, Entry.mk 3585 38 0, Entry.mk 3623 38 0, Entry.mk 3661 38 0, Entry.mk 3700 39 0, Entry.mk 3739 39 0, Entry.mk 3756 17 0] := by
  decide!

theorem c8_w4 :
    wRun 250 3757 (RState.mk 3756 0 [Entry.mk 1 1 0, Entry.mk 2 1 0, Entry.mk 3 1 0, Entry.mk 4 1 0, Entry.mk 5 1 0, Entry.mk 6 1 0, Entry.mk 7 1 0, Entry.mk 8 1 0, Entry.mk 9 1 0, Entry.mk 11 2 0, Entry.mk 13 2 0, Entry.mk 15 2 0, Entry.mk 17 2 0, Entry.mk 20 3 0, Entry.mk 23 3 0, Entry.mk 26 3 0, Entry.mk 29 3 0, Entry.mk 32 3 0, Entry.mk 36 4 0, Entry.mk 40 4 0, Entry.mk 44 4 0, Entry.mk 48 4 0, Entry.mk 52 4 0, Entry.mk 56 4 0, Entry.mk 61 5 0, Entry.mk 66 5 0, Entry.mk 71 5 0, Entry.mk 76 5 0, Entry.mk 81 5 0, Entry.mk 87 6 0, Entry.mk 93 6 0, Entry.mk 100 7 0, Entry.mk 106 6 0, Entry.mk 113 7 0, Entry.mk 120 7 0, Entry.mk 127 7 0, Entry.mk 135 8 0, Entry.mk 142 7 0, Entry.mk 150 8 0, Entry.mk 158 8 0, Entry.mk 166 8 0, Entry.mk 175 9 0, Entry.mk 184 9 0, Entry.mk 193 9 0, Entry.mk 202 9 0, Entry.mk 211 9 0, Entry.mk 221 10 0, Entry.mk 231 10 0, Entry.mk 241 10 0, Entry.mk 251 10 0, Entry.mk 261 10 0, Entry.mk 271 10 0, Entry.mk 281 10 0, Entry.mk 291 10 0, Entry.mk 302 11 0, Entry.mk 313 11 0, Entry.mk 325 12 0, Entry.mk 336 11 0, Entry.mk 348 12 0, Entry.mk 360 12 0, Entry.mk 372 12 0, Entry.mk 385 13 0, Entry.mk 397 12 0, Entry.mk 410 13 0, Entry.mk 423 13 0, Entry.mk 436 13 0, Entry.mk 450 14 0, Entry.mk 464 14 0, Entry.mk 478 14 0, Entry.mk 492 14 0, Entry.mk 506 14 0, Entry.mk 521 15 0, Entry.mk 536 15 0, Entry.mk 551 15 0, Entry.mk 566 15 0, Entry.mk 581 15 0, Entry.mk 596 15 0, Entry.mk 611 15 0, Entry.mk 626 15 0, Entry.mk 642 16 0, Entry.mk 658 16 0, Entry.mk 675 17 0, Entry.mk 691 16 0, Entry.mk 708 17 0, Entry.mk 725 17 0, Entry.mk 742 17 0, Entry.mk 760 18 0, Entry.mk 777 17 0, Entry.mk 795 18 0, Entry.mk 813 18 0, Entry.mk 831 18 0, Entry.mk 850 19 0, Entry.mk 869 19 0, Entry.mk 888 19 0, Entry.mk 907 19 0, Entry.mk 926 19 0, Entry.mk 946 20 0, Entry.mk 966 20 0, Entry.mk 986 20 0, Entry.mk 1006 20 0, Entry.mk 1026 20 0, Entry.mk 1046 20 0, Entry.mk 1066 20 0, Entry.mk 1086 20 0, Entry.mk 1107 21 0, Entry.mk 1128 21 0, Entry.mk 1150 22 0, Entry.mk 1171 21 0, Entry.mk 1193 22 0, Entry.mk 1215 22 0, Entry.mk 1237 22 0, Entry.mk 1260 23 0, Entry.mk 1282 22 0, Entry.mk 1305 23 0, Entry.mk 1328 23 0, Entry.mk 1351 23 0, Entry.mk 1375 24 0, Entry.mk 1399 24 0, Entry.mk 1423 24 0, Entry.mk 1447 24 0, Entry.mk 1471 24 0, Entry.mk 1496 25 0, Entry.mk 1521 25 0, Entry.mk 1546 25 0, Entry.mk 1571 25 0, Entry.mk 1596 25 0, Entry.mk 1621 25 0, Entry.mk 1646 25 0, Entry.mk 1671 25 0, Entry.mk 1697 26 0, Entry.mk 1723 26 0, Entry.mk 1750 27 0, Entry.mk 1776 26 0, Entry.mk 1803 27 0, Entry.mk 1830 27 0, Entry.mk 1857 27 0, Entry.mk 1885 28 0, Entry.mk 1912 27 0, Entry.mk 1940 28 0, Entry.mk 1968 28 0, Entry.mk 1996 28 0, Entry.mk 2025 29 0, Entry.mk 2054 29 0, Entry.mk 2083 29 0, Entry.mk 2112 29 0, Entry.mk 2141 29 0, Entry.mk 2171 30 0, Entry.mk 2201 30 0, Entry.mk 2231 30 0, Entry.mk 2261 30 0, Entry.mk 2291 30 0, Entry.mk 2321 30 0, Entry.mk 2351 30 0, Entry.mk 2381 30 0, Entry.mk 2412 31 0, Entry.mk 2443 31 0, Entry.mk 2475 32 0, Entry.mk 2506 31 0, Entry.mk 2538 32 0, Entry.mk 2570 32 0, Entry.mk 2602 32 0, Entry.mk 2635 33 0, Entry.mk 2667 32 0, Entry.mk 2700 33 0, Entry.mk 2733 33 0, Entry.mk 2766 33 0, Entry.mk 2800 34 0, Entry.mk 2834 34 0, Entry.mk 2868 34 0, Entry.mk 2902 34 0, Entry.mk 2936 34 0, Entry.mk 2971 35 0, Entry.mk 3006 35 0, Entry.mk 3041 35 0, Entry.mk 3076 35 0, Entry.mk 3111 35 0, Entry.mk 3146 35 0, Entry.mk 3181 35 0, Entry.mk 3216 35 0, Entry.mk 3252 36 0, Entry.mk 3288 36 0, Entry.mk 3325 37 0, Entry.mk 3361 36 0, Entry.mk 3398 37 0, Entry.mk 3435 37 0, Entry.mk 3472 37 0, Entry.mk 3510 38 0, Entry.mk 3547 37 0, Entry.mk 3585 38 0, Entry.mk 3623 38 0, Entry.mk 3661 38 0, Entry.mk 3700 39 0, Entry.mk 3739 39 0, Entry.mk 3756 17 0]) =
      RState.mk 5006 0 [Entry.mk 1 1 0, Entry.mk 2 1 0, Entry.mk 3 1 0, Entry.mk 4 1 0, Entry.mk 5 1 0, Entry.mk 6 1 0, Entry.mk 7 1 0, Entry.mk 8 1 0, Entry.mk 9 1 0, Entry.mk 11 2 0, Entry.mk 13 2 0, Entry.mk 15 2 0, Entry.mk 17 2 0, Entry.mk 20 3 0, Entry.mk 23 3 0, Entry.mk 26 3 0, Entry.mk 29 3 0, Entry.mk 32 3 0, Entry.mk 36 4 0, Entry.mk 40 4 0, Entry.mk 44 4 0, Entry.mk 48 4 0, Entry.mk 52 4 0, Entry.mk 56 4 0, Entry.mk 61 5 0, Entry.mk 66 5 0, Entry.mk 71 5 0, Entry.mk 76 5 0, Entry.mk 81 5 0, Entry.mk 87 6 0, Entry.mk 93 6 0, Entry.mk 100 7 0, Entry.mk 106 6 0, Entry.mk 113 7 0, Entry.mk 120 7 0, Entry.mk 127 7 0, Entry.mk 135 8 0, Entry.mk 142 7 0, Entry.mk 150 8 0, Entry.mk 158 8 0, Entry.mk 166 8 0, Entry.mk 175 9 0, Entry.mk 184 9 0, Entry.mk 193 9 0, Entry.mk 202 9 0, Entry.mk 211 9 0, Entry.mk 221 10 0, Entry.mk 231 10 0, Entry.mk 241 10 0, Entry.mk 251 10 0, Entry.mk 261 10 0, Entry.mk 271 10 0, Entry.mk 281 10 0, Entry.mk 291 10 0, Entry.mk 302 11 0, Entry.mk 313 11 0, Entry.mk 325 12 0, Entry.mk 336 11 0, Entry.mk 348 12 0, Entry.mk 360 12 0, Entry.mk 372 12 0, Entry.mk 385 13 0, Entry.mk 397 12 0, Entry.mk 410 13 0, Entry.mk 423 13 0, Entry.mk 436 13 0, Entry.mk 450 14 0, Entry.mk 464 14 0, Entry.mk 478 14 0, Entry.mk 492 14 0, Entry.mk 506 14 0, Entry.mk 521 15 0, Entry.mk 536 15 0, Entry.mk 551 15 0, Entry.mk 566 15 0, Entry.mk 581 15 0, Entry.mk 596 15 0, Entry.mk 611 15 0, Entry.mk 626 15 0, Entry.mk 642 16 0, Entry.mk 658 16 0, Entry.mk 675 17 0, Entry.mk 691 16 0, Entry.mk 708 17 0, Entry.mk 725 17 0, Entry.mk 742 17 0, Entry.mk 760 18 0, Entry.mk 777 17 0, Entry.mk 795 18 0, Entry.mk 813 18 0, Entry.mk 831 18 0, Entry.mk 850 19 0, Entry.mk 869 19 0, Entry.mk 888 19 0, Entry.mk 907 19 0, Entry.mk 926 19 0, Entry.mk 946 20 0, Entry.mk 966 20 0, Entry.mk 986 20 0, Entry.mk 1006 20 0, Entry.mk 1026 20 0, Entry.mk 1046 20 0, Entry.mk 1066 20 0, Entry.mk 1086 20 0, Entry.mk 1107 21 0, Entry.mk 1128 21 0, Entry.mk 1150 22 0, Entry.mk 1171 21 0, Entry.mk 1193 22 0, Entry.mk 1215 22 0, Entry.mk 1237 22 0, Entry.mk 1260 23 0, Entry.mk 1282 22 0, Entry.mk 1305 23 0, Entry.mk 1328 23 0, Entry.mk 1351 23 0, Entry.mk 1375 24 0, Entry.mk 1399 24 0, Entry.mk 1423 24 0, Entry.mk 1447 24 0, Entry.mk 1471 24 0, Entry.mk 1496 25 0, Entry.mk 1521 25 0, Entry.mk 1546 25 0, Entry.mk 1571 25 0, Entry.mk 1596 25 0, Entry.mk 1621 25 0, Entry.mk 1646 25 0, Entry.mk 1671 25 0, Entry.mk 1697 26 0, Entry.mk 1723 26 0, Entry.mk 1750 27 0, Entry.mk 1776 26 0, Entry.mk 1803 27 0, Entry.mk 1830 27 0, Entry.mk 1857 27 0, Entry.mk 1885 28 0, Entry.mk 1912 27 0, Entry.mk 1940 28 0, Entry.mk 1968 28 0, Entry.mk 1996 28 0, Entry.mk 2025 29 0, Entry.mk 2054 29 0, Entry.mk 2083 29 0, Entry.mk 2112 29 0, Entry.mk 2141 29 0, Entry.mk 2171 30 0, Entry.mk 2201 30 0, Entry.mk 2231 30 0, Entry.mk 2261 30 0, Entry.mk 2291 30 0, Entry.mk 2321 30 0, Entry.mk 2351 30 0, Entry.mk 2381 30 0, Entry.mk 2412 31 0, Entry.mk 2443 31 0, Entry.mk 2475 32 0, Entry.mk 2506 31 0, Entry.mk 2538 32 0, Entry.mk 2570 32 0, Entry.mk 2602 32 0, Entry.mk 2635 33 0, Entry.mk 2667 32 0, Entry.mk 2700 33 0, Entry.mk 2733 33 0, Entry.mk 2766 33 0, Entry.mk 2800 34 0, Entry.mk 2834 34 0, Entry.mk 2868 34 0, Entry.mk 2902 34 0, Entry.mk 2936 34 0, Entry.mk 2971 35 0, Entry.mk 3006 35 0, Entry.mk 3041 35 0, Entry.mk 3076 35 0, Entry.mk 3111 35 0, Entry.mk 3146 35 0, Entry.mk 3181 35 0, Entry.mk 3216 35 0, Entry.mk 3252 36 0, Entry.mk 3288 36 0, Entry.mk 3325 37 0, Entry.mk 3361 36 0, Entry.mk 3398 37 0, Entry.mk 3435 37 0, Entry.mk 3472 37 0, Entry.mk 3510 38 0, Entry.mk 3547 37 0, Entry.mk 3585 38 0, Entry.mk 3623 38 0, Entry.mk 3661 38 0, Entry.mk 3700 39 0, Entry.mk 3739 39 0, Entry.mk 3778 39 0, Entry.mk 3817 39 0, Entry.mk 3856 39 0, Entry.mk 3896 40 0, Entry.mk 3936 40 0, Entry.mk 3976 40 0, Entry.mk 4016 40 0, Entry.mk 4056 40 0, Entry.mk 4096 40 0, Entry.mk 4136 40 0, Entry.mk 4176 40 0, Entry.mk 4217 41 0, Entry.mk 4258 41 0, Entry.mk 4300 42 0, Entry.mk 4341 41 0, Entry.mk 4383 42 0, Entry.mk 4425 42 0, Entry.mk 4467 42 0, Entry.mk 4510 43 0, Entry.mk 4552 42 0, Entry.mk 4595 43 0, Entry.mk 4638 43 0, Entry.mk 4681 43 0, Entry.mk 4725 44 0, Entry.mk 4769 44 0, Entry.mk 4813 44 0, Entry.mk 4857 44 0, Entry.mk 4901 44 0, Entry.mk 4946 45 0, Entry.mk 4991 45 0, Entry.mk 5006 15 0] := by
  decide!

theorem c8_w5 :
    wRun 250 5007 (RState.mk 5006 0 [Entry.mk 1 1 0, Entry.mk 2 1 0, Entry.mk 3 1 0, Entry.mk 4 1 0, Entry.mk 5 1 0, Entry.mk 6 1 0, Entry.mk 7 1 0, Entry.mk 8 1 0, Entry.mk 9 1 0, Entry.mk 11 2 0, Entry.mk 13 2 0, Entry.mk 15 2 0, Entry.mk 17 2 0, Entry.mk 20 3 0, Entry.mk 23 3 0, Entry.mk 26 3 0, Entry.mk 29 3 0, Entry.mk 32 3 0, Entry.mk 36 4 0, Entry.mk 40 4 0, Entry.mk 44 4 0, Entry.mk 48 4 0, Entry.mk 52 4 0, Entry.mk 56 4 0, Entry.mk 61 5 0, Entry.mk 66 5 0, Entry.mk 71 5 0, Entry.mk 76 5 0, Entry.mk 81 5 0, Entry.mk 87 6 0, Entry.mk 93 6 0, Entry.mk 100 7 0, Entry.mk 106 6 0, Entry.mk 113 7 0, Entry.mk 120 7 0, Entry.mk 127 7 0, Entry.mk 135 8 0, Entry.mk 142 7 0, Entry.mk 150 8 0, Entry.mk 158 8 0, Entry.mk 166 8 0, Entry.mk 175 9 0, Entry.mk 184 9 0, Entry.mk 193 9 0, Entry.mk 202 9 0, Entry.mk 211 9 0, Entry.mk 221 10 0, Entry.mk 231 10 0, Entry.mk 241 10 0, Entry.mk 251 10 0, Entry.mk 261 10 0, Entry.mk 271 10 0, Entry.mk 281 10 0, Entry.mk 291 10 0, Entry.mk 302 11 0, Entry.mk 313 11 0, Entry.mk 325 12 0, Entry.mk 336 11 0, Entry.mk 348 12 0, Entry.mk 360 12 0, Entry.mk 372 12 0, Entry.mk 385 13 0, Entry.mk 397 12 0, Entry.mk 410 13 0, Entry.mk 423 13 0, Entry.mk 436 13 0, Entry.mk 450 14 0, Entry.mk 464 14 0, Entry.mk 478 14 0, Entry.mk 492 14 0, Entry.mk 506 14 0, Entry.mk 521 15 0, Entry.mk 536 15 0, Entry.mk 551 15 0, Entry.mk 566 15 0, Entry.mk 581 15 0, Entry.mk 596 15 0, Entry.mk 611 15 0, Entry.mk 626 15 0, Entry.mk 642 16 0, Entry.mk 658 16 0, Entry.mk 675 17 0, Entry.mk 691 16 0, Entry.mk 708 17 0, Entry.mk 725 17 0, Entry.mk 742 17 0, Entry.mk 760 18 0, Entry.mk 777 17 0, Entry.mk 795 18 0, Entry.mk 813 18 0, Entry.mk 831 18 0, Entry.mk 850 19 0, Entry.mk 869 19 0, Entry.mk 888 19 0, Entry.mk 907 19 0, Entry.mk 926 19 0, Entry.mk 946 20 0, Entry.mk 966 20 0, Entry.mk 986 20 0, Entry.mk 1006 20 0, Entry.mk 1026 20 0, Entry.mk 1046 20 0, Entry.mk 1066 20 0, Entry.mk 1086 20 0, Entry.mk 1107 21 0, Entry.mk 1128 21 0, Entry.mk 1150 22 0, Entry.mk 1171 21 0, Entry.mk 1193 22 0, Entry.mk 1215 22 0, Entry.mk 1237 22 0, Entry.mk 1260 23 0, Entry.mk 1282 22 0, Entry.mk 1305 23 0, Entry.mk 1328 23 0, Entry.mk 1351 23 0, Entry.mk 1375 24 0, Entry.mk 1399 24 0, Entry.mk 1423 24 0, Entry.mk 1447 24 0, Entry.mk 1471 24 0, Entry.mk 1496 25 0, Entry.mk 1521 25 0, Entry.mk 1546 25 0, Entry.mk 1571 25 0, Entry.mk 1596 25 0, Entry.mk 1621 25 0, Entry.mk 1646 25 0, Entry.mk 1671 25 0, Entry.mk 1697 26 0, Entry.mk 1723 26 0, Entry.mk 1750 27 0, Entry.mk 1776 26 0, Entry.mk 1803 27 0, Entry.mk 1830 27 0, Entry.mk 1857 27 0, Entry.mk 1885 28 0, Entry.mk 1912 27 0, Entry.mk 1940 28 0, Entry.mk 1968 28 0, Entry.mk 1996 28 0, Entry.mk 2025 29 0, Entry.mk 2054 29 0, Entry.mk 2083 29 0, Entry.mk 2112 29 0, Entry.mk 2141 29 0, Entry.mk 2171 30 0, Entry.mk 2201 30 0, Entry.mk 2231 30 0, Entry.mk 2261 30 0, Entry.mk 2291 30 0, Entry.mk 2321 30 0, Entry.mk 2351 30 0, Entry.mk 2381 30 0, Entry.mk 2412 31 0, Entry.mk 2443 31 0, Entry.mk 2475 32 0, Entry.mk 2506 31 0, Entry.mk 2538 32 0, Entry.mk 2570 32 0, Entry.mk 2602 32 0, Entry.mk 2635 33 0, Entry.mk 2667 32 0, Entry.mk 2700 33 0, Entry.mk 2733 33 0, Entry.mk 2766 33 0, Entry.mk 2800 34 0, Entry.mk 2834 34 0, Entry.mk 2868 34 0, Entry.mk 2902 34 0, Entry.mk 2936 34 0, Entry.mk 2971 35 0, Entry.mk 3006 35 0, Entry.mk 3041 35 0, Entry.mk 3076 35 0, Entry.mk 3111 35 0, Entry.mk 3146 35 0, Entry.mk 3181 35 0, Entry.mk 3216 35 0, Entry.mk 3252 36 0, Entry.mk 3288 36 0, Entry.mk 3325 37 0, Entry.mk 3361 36 0, Entry.mk 3398 37 0, Entry.mk 3435 37 0, Entry.mk 3472 37 0, Entry.mk 3510 38 0, Entry.mk 3547 37 0, Entry.mk 3585 38 0, Entry.mk 3623 38 0, Entry.mk 3661 38 0, Entry.mk 3700 39 0, Entry.mk 3739 39 0, Entry.mk 3778 39 0, Entry.mk 3817 39 0, Entry.mk 3856 39 0, Entry.mk 3896 40 0, Entry.mk 3936 40 0, Entry.mk 3976 40 0, Entry.mk 4016 40 0, Entry.mk 4056 40 0, Entry.mk 4096 40 0, Entry.mk 4136 40 0, Entry.mk 4176 40 0, Entry.mk 4217 41 0, Entry.mk 4258 41 0, Entry.mk 4300 42 0, Entry.mk 4341 41 0, Entry.mk 4383 42 0, Entry.mk 4425 42 0, Entry.mk 4467 42 0, Entry.mk 4510 43 0, Entry.mk 4552 42 0, Entry.mk 4595 43 0, Entry.mk 4638 43 0, Entry.mk 4681 43 0, Entry.mk 4725 44 0, Entry.mk 4769 44 0, Entry.mk 4813 44 0, Entry.mk 4857 44 0, Entry.mk 4901 44 0, Entry.mk 4946 45 0, Entry.mk 4991 45 0, Entry.mk 5006 15 0]) =
      RState.mk 6256 0 [Entry.mk 1 1 0, Entry.mk 2 1 0, Entry.mk 3 1 0, Entry.mk 4 1 0, Entry.mk 5 1 0, Entry.mk 6 1 0, Entry.mk 7 1 0, Entry.mk 8 1 0, Entry.mk 9 1 0, Entry.mk 11 2 0, Entry.mk 13 2 0, Entry.mk 15 2 0, Entry.mk 17 2 0, Entry.mk 20 3 0, Entry.mk 23 3 0, Entry.mk 26 3 0, Entry.mk 29 3 0, Entry.mk 32 3 0, Entry.mk 36 4 0, Entry.mk 40 4 0, Entry.mk 44 4 0, Entry.mk 48 4 0, Entry.mk 52 4 0, Entry.mk 56 4 0, Entry.mk 61 5 0, Entry.mk 66 5 0, Entry.mk 71 5 0, Entry.mk 76 5 0, Entry.mk 81 5 0, Entry.mk 87 6 0, Entry.mk 93 6 0, Entry.mk 100 7 0, Entry.mk 106 6 0, Entry.mk 113 7 0, Entry.mk 120 7 0, Entry.mk 127 7 0, Entry.mk 135 8 0, Entry.mk 142 7 0, Entry.mk 150 8 0, Entry.mk 158 8 0, Entry.mk 166 8 0, Entry.mk 175 9 0, Entry.mk 184 9 0, Entry.mk 193 9 0, Entry.mk 202 9 0, Entry.mk 211 9 0, Entry.mk 221 10 0, Entry.mk 231 10 0, Entry.mk 241 10 0, Entry.mk 251 10 0, Entry.mk 261 10 0, Entry.mk 271 10 0, Entry.mk 281 10 0, Entry.mk 291 10 0, Entry.mk 302 11 0, Entry.mk 313 11 0, Entry.mk 325 12 0, Entry.mk 336 11 0, Entry.mk 348 12 0, Entry.mk 360 12 0, Entry.mk 372 12 0, Entry.mk 385 13 0, Entry.mk 397 12 0, Entry.mk 410 13 0, Entry.mk 423 13 0, Entry.mk 436 13 0, Entry.mk 450 14 0, Entry.mk 464 14 0, Entry.mk 478 14 0, Entry.mk 492 14 0, Entry.mk 506 14 0, Entry.mk 521 15 0, Entry.mk 536 15 0, Entry.mk 551 15 0, Entry.mk 566 15 0, Entry.mk 581 15 0, Entry.mk 596 15 0, Entry.mk 611 15 0, Entry.mk 626 15 0, Entry.mk 642 16 0, Entry.mk 658 16 0, Entry.mk 675 17 0, Entry.mk 691 16 0, Entry.mk 708 17 0, Entry.mk 725 17 0, Entry.mk 742 17 0, Entry.mk 760 18 0, Entry.mk 777 17 0, Entry.mk 795 18 0, Entry.mk 813 18 0, Entry.mk 831 18 0, Entry.mk 850 19 0, Entry.mk 869 19 0, Entry.mk 888 19 0, Entry.mk 907 19 0, Entry.mk 926 19 0, Entry.mk 946 20 0, Entry.mk 966 20 0, Entry.mk 986 20 0, Entry.mk 1006 20 0, Entry.mk 1026 20 0, Entry.mk 1046 20 0, Entry.mk 1066 20 0, Entry.mk 1086 20 0, Entry.mk 1107 21 0, Entry.mk 1128 21 0, Entry.mk 1150 22 0, Entry.mk 1171 21 0, Entry.mk 1193 22 0, Entry.mk 1215 22 0, Entry.mk 1237 22 0, Entry.mk 1260 23 0, Entry.mk 1282 22 0, Entry.mk 1305 23 0, Entry.mk 1328 23 0, Entry.mk 1351 23 0, Entry.mk 1375 24 0, Entry.mk 1399 24 0, Entry.mk 1423 24 0, Entry.mk 1447 24 0, Entry.mk 1471 24 0, Entry.mk 1496 25 0, Entry.mk 1521 25 0, Entry.mk 1546 25 0, Entry.mk 1571 25 0, Entry.mk 1596 25 0, Entry.mk 1621 25 0, Entry.mk 1646 25 0, Entry.mk 1671 25 0, Entry.mk 1697 26 0, Entry.mk 1723 26 0, Entry.mk 1750 27 0, Entry.mk 1776 26 0, Entry.mk 1803 27 0, Entry.mk 1830 27 0, Entry.mk 1857 27 0, Entry.mk 1885 28 0, Entry.mk 1912 27 0, Entry.mk 1940 28 0, Entry.mk 1968 28 0, Entry.mk 1996 28 0, Entry.mk 2025 29 0, Entry.mk 2054 29 0, Entry.mk 2083 29 0, Entry.mk 2112 29 0, Entry.mk 2141 29 0, Entry.mk 2171 30 0, Entry.mk 2201 30 0, Entry.mk 2231 30 0, Entry.mk 2261 30 0, Entry.mk 2291 30 0, Entry.mk 2321 30 0, Entry.mk 2351 30 0, Entry.mk 2381 30 0, Entry.mk 2412 31 0, Entry.mk 2443 31 0, Entry.mk 2475 32 0, Entry.mk 2506 31 0, Entry.mk 2538 32 0, Entry.mk 2570 32 0, Entry.mk 2602 32 0, Entry.mk 2635 33 0, Entry.mk 2667 32 0, Entry.mk 2700 33 0, Entry.mk 2733 33 0, Entry.mk 2766 33 0, Entry.mk 2800 34 0, Entry.mk 2834 34 0, Entry.mk 2868 34 0, Entry.mk 2902 34 0, Entry.mk 2936 34 0, Entry.mk 2971 35 0, Entry.mk 3006 35 0, Entry.mk 3041 35 0, Entry.mk 3076 35 0, Entry.mk 3111 35 0, Entry.mk 3146 35 0, Entry.mk 3181 35 0, Entry.mk 3216 35 0, Entry.mk 3252 36 0, Entry.mk 3288 36 0, Entry.mk 3325 37 0, Entry.mk 3361 36 0, Entry.mk 3398 37 0, Entry.mk 3435 37 0, Entry.mk 3472 37 0, Entry.mk 3510 38 0, Entry.mk 3547 37 0, Entry.mk 3585 38 0, Entry.mk 3623 38 0, Entry.mk 3661 38 0, Entry.mk 3700 39 0, Entry.mk 3739 39 0, Entry.mk 3778 39 0, Entry.mk 3817 39 0, Entry.mk 3856 39 0, Entry.mk 3896 40 0, Entry.mk 3936 40 0, Entry.mk 3976 40 0, Entry.mk 4016 40 0, Entry.mk 4056 40 0, Entry.mk 4096 40 0, Entry.mk 4136 40 0, Entry.mk 4176 40 0, Entry.mk 4217 41 0, Entry.mk 4258 41 0, Entry.mk 4300 42 0, Entry.mk 4341 41 0, Entry.mk 4383 42 0, Entry.mk 4425 42 0, Entry.mk 4467 42 0, Entry.mk 4510 43 0, Entry.mk 4552 42 0, Entry.mk 4595 43 0, Entry.mk 4638 43 0, Entry.mk 4681 43 0, Entry.mk 4725 44 0, Entry.mk 4769 44 0, Entry.mk 4813 44 0, Entry.mk 4857 44 0, Entry.mk 4901 44 0, Entry.mk 4946 45 0, Entry.mk 4991 45 0, Entry.mk 5036 45 0, Entry.mk 5081 45 0, Entry.mk 5126 45 0, Entry.mk 5171 45 0, Entry.mk 5216 45 0, Entry.mk 5261 45 0, Entry.mk 5307 46 0, Entry.mk 5353 46 0, Entry.mk 5400 47 0, Entry.mk 5446 46 0, Entry.mk 5493 47 0, Entry.mk 5540 47 0, Entry.mk 5587 47 0, Entry.mk 5635 48 0, Entry.mk 5682 47 0, Entry.mk 5730 48 0, Entry.mk 5778 48 0, Entry.mk 5826 48 0, Entry.mk 5875 49 0, Entry.mk 5924 49 0, Entry.mk 5973 49 0, Entry.mk 6022 49 0, Entry.mk 6071 49 0, Entry.mk 6121 50 0, Entry.mk 6171 50 0, Entry.mk 6221 50 0, Entry.mk 6256 35 0] := by
  decide!

theorem c8_w6 :
    wRun 250 6257 (RState.mk 6256 0 [Entry.mk 1 1 0, Entry.mk 2 1 0, Entry.mk 3 1 0, Entry.mk 4 1 0, Entry.mk 5 1 0, Entry.mk 6 1 0, Entry.mk 7 1 0, Entry.mk 8 1 0, Entry.mk 9 1 0, Entry.mk 11 2 0, Entry.mk 13 2 0, Entry.mk 15 2 0, Entry.mk 17 2 0, Entry.mk 20 3 0, Entry.mk 23 3 0, Entry.mk 26 3 0, Entry.mk 29 3 0, Entry.mk 32 3 0, Entry.mk 36 4 0, Entry.mk 40 4 0, Entry.mk 44 4 0, Entry.mk 48 4 0, Entry.mk 52 4 0, Entry.mk 56 4 0, Entry.mk 61 5 0, Entry.mk 66 5 0, Entry.mk 71 5 0, Entry.mk 76 5 0, Entry.mk 81 5 0, Entry.mk 87 6 0, Entry.mk 93 6 0, Entry.mk 100 7 0, Entry.mk 106 6 0, Entry.mk 113 7 0, Entry.mk 120 7 0, Entry.mk 127 7 0, Entry.mk 135 8 0, Entry.mk 142 7 0, Entry.mk 150 8 0, Entry.mk 158 8 0, Entry.mk 166 8 0, Entry.mk 175 9 0, Entry.mk 184 9 0, Entry.mk 193 9 0, Entry.mk 202 9 0, Entry.mk 211 9 0, Entry.mk 221 10 0, Entry.mk 231 10 0, Entry.mk 241 10 0, Entry.mk 251 10 0, Entry.mk 261 10 0, Entry.mk 271 10 0, Entry.mk 281 10 0, Entry.mk 291 10 0, Entry.mk 302 11 0, Entry.mk 313 11 0, Entry.mk 325 12 0, Entry.mk 336 11 0, Entry.mk 348 12 0, Entry.mk 360 12 0, Entry.mk 372 12 0, Entry.mk 385 13 0, Entry.mk 397 12 0, Entry.mk 410 13 0, Entry.mk 423 13 0, Entry.mk 436 13 0, Entry.mk 450 14 0, Entry.mk 464 14 0, Entry.mk 478 14 0, Entry.mk 492 14 0, Entry.mk 506 14 0, Entry.mk 521 15 0, Entry.mk 536 15 0, Entry.mk 551 15 0, Entry.mk 566 15 0, Entry.mk 581 15 0, Entry.mk 596 15 0, Entry.mk 611 15 0, Entry.mk 626 15 0, Entry.mk 642 16 0, Entry.mk 658 16 0, Entry.mk 675 17 0, Entry.mk 691 16 0, Entry.mk 708 17 0, Entry.mk 725 17 0, Entry.mk 742 17 0, Entry.mk 760 18 0, Entry.mk 777 17 0, Entry.mk 795 18 0, Entry.mk 813 18 0, Entry.mk 831 18 0, Entry.mk 850 19 0, Entry.mk 869 19 0, Entry.mk 888 19 0, Entry.mk 907 19 0, Entry.mk 926 19 0, Entry.mk 946 20 0, Entry.mk 966 20 0, Entry.mk 986 20 0, Entry.mk 1006 20 0, Entry.mk 1026 20 0, Entry.mk 1046 20 0, Entry.mk 1066 20 0, Entry.mk 1086 20 0, Entry.mk 1107 21 0, Entry.mk 1128 21 0, Entry.mk 1150 22 0, Entry.mk 1171 21 0, Entry.mk 1193 22 0, Entry.mk 1215 22 0, Entry.mk 1237 22 0, Entry.mk 1260 23 0, Entry.mk 1282 22 0, Entry.mk 1305 23 0, Entry.mk 1328 23 0, Entry.mk 1351 23 0, Entry.mk 1375 24 0, Entry.mk 1399 24 0, Entry.mk 1423 24 0, Entry.mk 1447 24 0, Entry.mk 1471 24 0, Entry.mk 1496 25 0, Entry.mk 1521 25 0, Entry.mk 1546 25 0, Entry.mk 1571 25 0, Entry.mk 1596 25 0, Entry.mk 1621 25 0, Entry.mk 1646 25 0, Entry.mk 1671 25 0, Entry.mk 1697 26 0, Entry.mk 1723 26 0, Entry.mk 1750 27 0, Entry.mk 1776 26 0, Entry.mk 1803 27 0, Entry.mk 1830 27 0, Entry.mk 1857 27 0, Entry.mk 1885 28 0, Entry.mk 1912 27 0, Entry.mk 1940 28 0, Entry.mk 1968 28 0, Entry.mk 1996 28 0, Entry.mk 2025 29 0, Entry.mk 2054 29 0, Entry.mk 2083 29 0, Entry.mk 2112 29 0, Entry.mk 2141 29 0, Entry.mk 2171 30 0, Entry.mk 2201 30 0, Entry.mk 2231 30 0, Entry.mk 2261 30 0, Entry.mk 2291 30 0, Entry.mk 2321 30 0, Entry.mk 2351 30 0, Entry.mk 2381 30 0, Entry.mk 2412 31 0, Entry.mk 2443 31 0, Entry.mk 2475 32 0, Entry.mk 2506 31 0, Entry.mk 2538 32 0, Entry.mk 2570 32 0, Entry.mk 2602 32 0, Entry.mk 2635 33 0, Entry.mk 2667 32 0, Entry.mk 2700 33 0, Entry.mk 2733 33 0, Entry.mk 2766 33 0, Entry.mk 2800 34 0, Entry.mk 2834 34 0, Entry.mk 2868 34 0, Entry.mk 2902 34 0, Entry.mk 2936 34 0, Entry.mk 2971 35 0, Entry.mk 3006 35 0, Entry.mk 3041 35 0, Entry.mk 3076 35 0, Entry.mk 3111 35 0, Entry.mk 3146 35 0, Entry.mk 3181 35 0, Entry.mk 3216 35 0, Entry.mk 3252 36 0, Entry.mk 3288 36 0, Entry.mk 3325 37 0, Entry.mk 3361 36 0, Entry.mk 3398 37 0, Entry.mk 3435 37 0, Entry.mk 3472 37 0, Entry.mk 3510 38 0, Entry.mk 3547 37 0, Entry.mk 3585 38 0, Entry.mk 3623 38 0, Entry.mk 3661 38 0, Entry.mk 3700 39 0, Entry.mk 3739 39 0, Entry.mk 3778 39 0, Entry.mk 3817 39 0, Entry.mk 3856 39 0, Entry.mk 3896 40 0, Entry.mk 3936 40 0, Entry.mk 3976 40 0, Entry.mk 4016 40 0, Entry.mk 4056 40 0, Entry.mk 4096 40 0, Entry.mk 4136 40 0, Entry.mk 4176 40 0, Entry.mk 4217 41 0, Entry.mk 4258 41 0, Entry.mk 4300 42 0, Entry.mk 4341 41 0, Entry.mk 4383 42 0, Entry.mk 4425 42 0, Entry.mk 4467 42 0, Entry.mk 4510 43 0, Entry.mk 4552 42 0, Entry.mk 4595 43 0, Entry.mk 4638 43 0, Entry.mk 4681 43 0, Entry.mk 4725 44 0, Entry.mk 4769 44 0, Entry.mk 4813 44 0, Entry.mk 4857 44 0, Entry.mk 4901 44 0, Entry.mk 4946 45 0, Entry.mk 4991 45 0, Entry.mk 5036 45 0, Entry.mk 5081 45 0, Entry.mk 5126 45 0, Entry.mk 5171 45 0, Entry.mk 5216 45 0, Entry.mk 5261 45 0, Entry.mk 5307 46 0, Entry.mk 5353 46 0, Entry.mk 5400 47 0, Entry.mk 5446 46 0, Entry.mk 5493 47 0, Entry.mk 5540 47 0, Entry.mk 5587 47 0, Entry.mk 5635 48 0, Entry.mk 5682 47 0, Entry.mk 5730 48 0, Entry.mk 5778 48 0, Entry.mk 5826 48 0, Entry.mk 5875 49 0, Entry.mk 5924 49 0, Entry.mk 5973 49 0, Entry.mk 6022 49 0, Entry.mk 6071 49 0, Entry.mk 6121 50 0, Entry.mk 6171 50 0, Entry.mk 6221 50 0, Entry.mk 6256 35 0]) =
      RState.mk 7506 0 [Entry.mk 1 1 0, Entry.mk 2 1 0, Entry.mk 3 1 0, Entry.mk 4 1 0, Entry.mk 5 1 0, Entry.mk 6 1 0, Entry.mk 7 1 0, Entry.mk 8 1 0, Entry.mk 9 1 0, Entry.mk 11 2 0, Entry.mk 13 2 0, Entry.mk 15 2 0, Entry.mk 17 2 0, Entry.mk 20 3 0, Entry.mk 23 3 0, Entry.mk 26 3 0, Entry.mk 29 3 0, Entry.mk 32 3 0, Entry.mk 36 4 0, Entry.mk 40 4 0, Entry.mk 44 4 0, Entry.mk 48 4 0, Entry.mk 52 4 0, Entry.mk 56 4 0, Entry.mk 61 5 0, Entry.mk 66 5 0, Entry.mk 71 5 0, Entry.mk 76 5 0, Entry.mk 81 5 0, Entry.mk 87 6 0, Entry.mk 93 6 0, Entry.mk 100 7 0, Entry.mk 106 6 0, Entry.mk 113 7 0, Entry.mk 120 7 0, Entry.mk 127 7 0, Entry.mk 135 8 0, Entry.mk 142 7 0, Entry.mk 150 8 0, Entry.mk 158 8 0, Entry.mk 166 8 0, Entry.mk 175 9 0, Entry.mk 184 9 0, Entry.mk 193 9 0, Entry.mk 202 9 0, Entry.mk 211 9 0, Entry.mk 221 10 0, Entry.mk 231 10 0, Entry.mk 241 10 0, Entry.mk 251 10 0, Entry.mk 261 10 0, Entry.mk 271 10 0, Entry.mk 281 10 0, Entry.mk 291 10 0, Entry.mk 302 11 0, Entry.mk 313 11 0, Entry.mk 325 12 0, Entry.mk 336 11 0, Entry.mk 348 12 0, Entry.mk 360 12 0, Entry.mk 372 12 0, Entry.mk 385 13 0, Entry.mk 397 12 0, Entry.mk 410 13 0, Entry.mk 423 13 0, Entry.mk 436 13 0, Entry.mk 450 14 0, Entry.mk 464 14 0, Entry.mk 478 14 0, Entry.mk 492 14 0, Entry.mk 506 14 0, Entry.mk 521 15 0, Entry.mk 536 15 0, Entry.mk 551 15 0, Entry.mk 566 15 0, Entry.mk 581 15 0, Entry.mk 596 15 0, Entry.mk 611 15 0, Entry.mk 626 15 0, Entry.mk 642 16 0, Entry.mk 658 16 0, Entry.mk 675 17 0, Entry.mk 691 16 0, Entry.mk 708 17 0, Entry.mk 725 17 0, Entry.mk 742 17 0, Entry.mk 760 18 0, Entry.mk 777 17 0, Entry.mk 795 18 0, Entry.mk 813 18 0, Entry.mk 831 18 0, Entry.mk 850 19 0, Entry.mk 869 19 0, Entry.mk 888 19 0, Entry.mk 907 19 0, Entry.mk 926 19 0, Entry.mk 946 20 0, Entry.mk 966 20 0, Entry.mk 986 20 0, Entry.mk 1006 20 0, Entry.mk 1026 20 0, Entry.mk 1046 20 0, Entry.mk 1066 20 0, Entry.mk 1086 20 0, Entry.mk 1107 21 0, Entry.mk 1128 21 0, Entry.mk 1150 22 0, Entry.mk 1171 21 0, Entry.mk 1193 22 0, Entry.mk 1215 22 0, Entry.mk 1237 22 0, Entry.mk 1260 23 0, Entry.mk 1282 22 0, Entry.mk 1305 23 0, Entry.mk 1328 23 0, Entry.mk 1351 23 0, Entry.mk 1375 24 0, Entry.mk 1399 24 0, Entry.mk 1423 24 0, Entry.mk 1447 24 0, Entry.mk 1471 24 0, Entry.mk 1496 25 0, Entry.mk 1521 25 0, Entry.mk 1546 25 0, Entry.mk 1571 25 0, Entry.mk 1596 25 0, Entry.mk 1621 25 0, Entry.mk 1646 25 0, Entry.mk 1671 25 0, Entry.mk 1697 26 0, Entry.mk 1723 26 0, Entry.mk 1750 27 0, Entry.mk 1776 26 0, Entry.mk 1803 27 0, Entry.mk 1830 27 0, Entry.mk 1857 27 0, Entry.mk 1885 28 0, Entry.mk 1912 27 0, Entry.mk 1940 28 0, Entry.mk 1968 28 0, Entry.mk 1996 28 0, Entry.mk 2025 29 0, Entry.mk 2054 29 0, Entry.mk 2083 29 0, Entry.mk 2112 29 0, Entry.mk 2141 29 0, Entry.mk 2171 30 0, Entry.mk 2201 30 0, Entry.mk 2231 30 0, Entry.mk 2261 30 0, Entry.mk 2291 30 0, Entry.mk 2321 30 0, Entry.mk 2351 30 0, Entry.mk 2381 30 0, Entry.mk 2412 31 0, Entry.mk 2443 31 0, Entry.mk 2475 32 0, Entry.mk 2506 31 0, Entry.mk 2538 32 0, Entry.mk 2570 32 0, Entry.mk 2602 32 0, Entry.mk 2635 33 0, Entry.mk 2667 32 0, Entry.mk 2700 33 0, Entry.mk 2733 33 0, Entry.mk 2766 33 0, Entry.mk 2800 34 0, Entry.mk 2834 34 0, Entry.mk 2868 34 0, Entry.mk 2902 34 0, Entry.mk 2936 34 0, Entry.mk 2971 35 0, Entry.mk 3006 35 0, Entry.mk 3041 35 0, Entry.mk 3076 35 0, Entry.mk 3111 35 0, Entry.mk 3146 35 0, Entry.mk 3181 35 0, Entry.mk 3216 35 0, Entry.mk 3252 36 0, Entry.mk 3288 36 0, Entry.mk 3325 37 0, Entry.mk 3361 36 0, Entry.mk 3398 37 0, Entry.mk 3435 37 0, Entry.mk 3472 37 0, Entry.mk 3510 38 0, Entry.mk 3547 37 0, Entry.mk 3585 38 0, Entry.mk 3623 38 0, Entry.mk 3661 38 0, Entry.mk 3700 39 0, Entry.mk 3739 39 0, Entry.mk 3778 39 0, Entry.mk 3817 39 0, Entry.mk 3856 39 0, Entry.mk 3896 40 0, Entry.mk 3936 40 0, Entry.mk 3976 40 0, Entry.mk 4016 40 0, Entry.mk 4056 40 0, Entry.mk 4096 40 0, Entry.mk 4136 40 0, Entry.mk 4176 40 0, Entry.mk 4217 41 0, Entry.mk 4258 41 0, Entry.mk 4300 42 0, Entry.mk 4341 41 0, Entry.mk 4383 42 0, Entry.mk 4425 42 0, Entry.mk 4467 42 0, Entry.mk 4510 43 0, Entry.mk 4552 42 0, Entry.mk 4595 43 0, Entry.mk 4638 43 0, Entry.mk 4681 43 0, Entry.mk 4725 44 0, Entry.mk 4769 44 0, Entry.mk 4813 44 0, Entry.mk 4857 44 0, Entry.mk 4901 44 0, Entry.mk 4946 45 0, Entry.mk 4991 45 0, Entry.mk 5036 45 0, Entry.mk 5081 45 0, Entry.mk 5126 45 0, Entry.mk 5171 45 0, Entry.mk 5216 45 0, Entry.mk 5261 45 0, Entry.mk 5307 46 0, Entry.mk 5353 46 0, Entry.mk 5400 47 0, Entry.mk 5446 46 0, Entry.mk 5493 47 0, Entry.mk 5540 47 0, Entry.mk 5587 47 0, Entry.mk 5635 48 0, Entry.mk 5682 47 0, Entry.mk 5730 48 0, Entry.mk 5778 48 0, Entry.mk 5826 48 0, Entry.mk 5875 49 0, Entry.mk 5924 49 0, Entry.mk 5973 49 0, Entry.mk 6022 49 0, Entry.mk 6071 49 0, Entry.mk 6121 50 0, Entry.mk 6171 50 0, Entry.mk 6221 50 0, Entry.mk 6271 50 0, Entry.mk 6321 50 0, Entry.mk 6371 50 0, Entry.mk 6421 50 0, Entry.mk 6471 50 0, Entry.mk 6522 51 0, Entry.mk 6573 51 0, Entry.mk 6625 52 0, Entry.mk 6676 51 0, Entry.mk 6728 52 0, Entry.mk 6780 52 0, Entry.mk 6832 52 0, Entry.mk 6885 53 0, Entry.mk 6937 52 0, Entry.mk 6990 53 0, Entry.mk 7043 53 0, Entry.mk 7096 53 0, Entry.mk 7150 54 0, Entry.mk 7204 54 0, Entry.mk 7258 54 0, Entry.mk 7312 54 0, Entry.mk 7366 54 0, Entry.mk 7421 55 0, Entry.mk 7476 55 0, Entry.mk 7506 30 0] := by
  decide!

theorem c8_w7 :
    wRun 250 7507 (RState.mk 7506 0 [Entry.mk 1 1 0, Entry.mk 2 1 0, Entry.mk 3 1 0, Entry.mk 4 1 0, Entry.mk 5 1 0, Entry.mk 6 1 0, Entry.mk 7 1 0, Entry.mk 8 1 0, Entry.mk 9 1 0, Entry.mk 11 2 0, Entry.mk 13 2 0, Entry.mk 15 2 0, Entry.mk 17 2 0, Entry.mk 20 3 0, Entry.mk 23 3 0, Entry.mk 26 3 0, Entry.mk 29 3 0, Entry.mk 32 3 0, Entry.mk 36 4 0, Entry.mk 40 4 0, Entry.mk 44 4 0, Entry.mk 48 4 0, Entry.mk 52 4 0, Entry.mk 56 4 0, Entry.mk 61 5 0, Entry.mk 66 5 0, Entry.mk 71 5 0, Entry.mk 76 5 0, Entry.mk 81 5 0, Entry.mk 87 6 0, Entry.mk 93 6 0, Entry.mk 100 7 0, Entry.mk 106 6 0, Entry.mk 113 7 0, Entry.mk 120 7 0, Entry.mk 127 7 0, Entry.mk 135 8 0, Entry.mk 142 7 0, Entry.mk 150 8 0, Entry.mk 158 8 0, Entry.mk 166 8 0, Entry.mk 175 9 0, Entry.mk 184 9 0, Entry.mk 193 9 0, Entry.mk 202 9 0, Entry.mk 211 9 0, Entry.mk 221 10 0, Entry.mk 231 10 0, Entry.mk 241 10 0, Entry.mk 251 10 0, Entry.mk 261 10 0, Entry.mk 271 10 0, Entry.mk 281 10 0, Entry.mk 291 10 0, Entry.mk 302 11 0, Entry.mk 313 11 0, Entry.mk 325 12 0, Entry.mk 336 11 0, Entry.mk 348 12 0, Entry.mk 360 12 0, Entry.mk 372 12 0, Entry.mk 385 13 0, Entry.mk 397 12 0, Entry.mk 410 13 0, Entry.mk 423 13 0, Entry.mk 436 13 0, Entry.mk 450 14 0, Entry.mk 464 14 0, Entry.mk 478 14 0, Entry.mk 492 14 0, Entry.mk 506 14 0, Entry.mk 521 15 0, Entry.mk 536 15 0, Entry.mk 551 15 0, Entry.mk 566 15 0, Entry.mk 581 15 0, Entry.mk 596 15 0, Entry.mk 611 15 0, Entry.mk 626 15 0, Entry.mk 642 16 0, Entry.mk 658 16 0, Entry.mk 675 17 0, Entry.mk 691 16 0, Entry.mk 708 17 0, Entry.mk 725 17 0, Entry.mk 742 17 0, Entry.mk 760 18 0, Entry.mk 777 17 0, Entry.mk 795 18 0, Entry.mk 813 18 0, Entry.mk 831 18 0, Entry.mk 850 19 0, Entry.mk 869 19 0, Entry.mk 888 19 0, Entry.mk 907 19 0, Entry.mk 926 19 0, Entry.mk 946 20 0, Entry.mk 966 20 0, Entry.mk 986 20 0, Entry.mk 1006 20 0, Entry.mk 1026 20 0, Entry.mk 1046 20 0, Entry.mk 1066 20 0, Entry.mk 1086 20 0, Entry.mk 1107 21 0, Entry.mk 1128 21 0, Entry.mk 1150 22 0, Entry.mk 1171 21 0, Entry.mk 1193 22 0, Entry.mk 1215 22 0, Entry.mk 1237 22 0, Entry.mk 1260 23 0, Entry.mk 1282 22 0, Entry.mk 1305 23 0, Entry.mk 1328 23 0, Entry.mk 1351 23 0, Entry.mk 1375 24 0, Entry.mk 1399 24 0, Entry.mk 1423 24 0, Entry.mk 1447 24 0, Entry.mk 1471 24 0, Entry.mk 1496 25 0, Entry.mk 1521 25 0, Entry.mk 1546 25 0, Entry.mk 1571 25 0, Entry.mk 1596 25 0, Entry.mk 1621 25 0, Entry.mk 1646 25 0, Entry.mk 1671 25 0, Entry.mk 1697 26 0, Entry.mk 1723 26 0, Entry.mk 1750 27 0, Entry.mk 1776 26 0, Entry.mk 1803 27 0, Entry.mk 1830 27 0, Entry.mk 1857 27 0, Entry.mk 1885 28 0, Entry.mk 1912 27 0, Entry.mk 1940 28 0, Entry.mk 1968 28 0, Entry.mk 1996 28 0, Entry.mk 2025 29 0, Entry.mk 2054 29 0, Entry.mk 2083 29 0, Entry.mk 2112 29 0, Entry.mk 2141 29 0, Entry.mk 2171 30 0, Entry.mk 2201 30 0, Entry.mk 2231 30 0, Entry.mk 2261 30 0, Entry.mk 2291 30 0, Entry.mk 2321 30 0, Entry.mk 2351 30 0, Entry.mk 2381 30 0, Entry.mk 2412 31 0, Entry.mk 2443 31 0, Entry.mk 2475 32 0, Entry.mk 2506 31 0, Entry.mk 2538 32 0, Entry.mk 2570 32 0, Entry.mk 2602 32 0, Entry.mk 2635 33 0, Entry.mk 2667 32 0, Entry.mk 2700 33 0, Entry.mk 2733 33 0, Entry.mk 2766 33 0, Entry.mk 2800 34 0, Entry.mk 2834 34 0, Entry.mk 2868 34 0, Entry.mk 2902 34 0, Entry.mk 2936 34 0, Entry.mk 2971 35 0, Entry.mk 3006 35 0, Entry.mk 3041 35 0, Entry.mk 3076 35 0, Entry.mk 3111 35 0, Entry.mk 3146 35 0, Entry.mk 3181 35 0, Entry.mk 3216 35 0, Entry.mk 3252 36 0, Entry.mk 3288 36 0, Entry.mk 3325 37 0, Entry.mk 3361 36 0, Entry.mk 3398 37 0, Entry.mk 3435 37 0, Entry.mk 3472 37 0, Entry.mk 3510 38 0, Entry.mk 3547 37 0, Entry.mk 3585 38 0, Entry.mk 3623 38 0, Entry.mk 3661 38 0, Entry.mk 3700 39 0, Entry.mk 3739 39 0, Entry.mk 3778 39 0, Entry.mk 3817 39 0, Entry.mk 3856 39 0, Entry.mk 3896 40 0, Entry.mk 3936 40 0, Entry.mk 3976 40 0, Entry.mk 4016 40 0, Entry.mk 4056 40 0, Entry.mk 4096 40 0, Entry.mk 4136 40 0, Entry.mk 4176 40 0, Entry.mk 4217 41 0, Entry.mk 4258 41 0, Entry.mk 4300 42 0, Entry.mk 4341 41 0, Entry.mk 4383 42 0, Entry.mk 4425 42 0, Entry.mk 4467 42 0, Entry.mk 4510 43 0, Entry.mk 4552 42 0, Entry.mk 4595 43 0, Entry.mk 4638 43 0, Entry.mk 4681 43 0, Entry.mk 4725 44 0, Entry.mk 4769 44 0, Entry.mk 4813 44 0, Entry.mk 4857 44 0, Entry.mk 4901 44 0, Entry.mk 4946 45 0, Entry.mk 4991 45 0, Entry.mk 5036 45 0, Entry.mk 5081 45 0, Entry.mk 5126 45 0, Entry.mk 5171 45 0, Entry.mk 5216 45 0, Entry.mk 5261 45 0, Entry.mk 5307 46 0, Entry.mk 5353 46 0, Entry.mk 5400 47 0, Entry.mk 5446 46 0, Entry.mk 5493 47 0, Entry.mk 5540 47 0, Entry.mk 5587 47 0, Entry.mk 5635 48 0, Entry.mk 5682 47 0, Entry.mk 5730 48 0, Entry.mk 5778 48 0, Entry.mk 5826 48 0, Entry.mk 5875 49 0, Entry.mk 5924 49 0, Entry.mk 5973 49 0, Entry.mk 6022 49 0, Entry.mk 6071 49 0, Entry.mk 6121 50 0, Entry.mk 6171 50 0, Entry.mk 6221 50 0, Entry.mk 6271 50 0, Entry.mk 6321 50 0, Entry.mk 6371 50 0, Entry.mk 6421 50 0, Entry.mk 6471 50 0, Entry.mk 6522 51 0, Entry.mk 6573 51 0, Entry.mk 6625 52 0, Entry.mk 6676 51 0, Entry.mk 6728 52 0, Entry.mk 6780 52 0, Entry.mk 6832 52 0, Entry.mk 6885 53 0, Entry.mk 6937 52 0, Entry.mk 6990 53 0, Entry.mk 7043 53 0, Entry.mk 7096 53 0, Entry.mk 7150 54 0, Entry.mk 7204 54 0, Entry.mk 7258 54 0, Entry.mk 7312 54 0, Entry.mk 7366 54 0, Entry.mk 7421 55 0, Entry.mk 7476 55 0, Entry.mk 7506 30 0]) =
      RState.mk 8756 0 [Entry.mk 1 1 0, Entry.mk 2 1 0, Entry.mk 3 1 0, Entry.mk 4 1 0, Entry.mk 5 1 0, Entry.mk 6 1 0, Entry.mk 7 1 0, Entry.mk 8 1 0, Entry.mk 9 1 0, Entry.mk 11 2 0, Entry.mk 13 2 0, Entry.mk 15 2 0, Entry.mk 17 2 0, Entry.mk 20 3 0, Entry.mk 23 3 0, Entry.mk 26 3 0, Entry.mk 29 3 0, Entry.mk 32 3 0, Entry.mk 36 4 0, Entry.mk 40 4 0, Entry.mk 44 4 0, Entry.mk 48 4 0, Entry.mk 52 4 0, Entry.mk 56 4 0, Entry.mk 61 5 0, Entry.mk 66 5 0, Entry.mk 71 5 0, Entry.mk 76 5 0, Entry.mk 81 5 0, Entry.mk 87 6 0, Entry.mk 93 6 0, Entry.mk 100 7 0, Entry.mk 106 6 0, Entry.mk 113 7 0, Entry.mk 120 7 0, Entry.mk 127 7 0, Entry.mk 135 8 0, Entry.mk 142 7 0, Entry.mk 150 8 0, Entry.mk 158 8 0, Entry.mk 166 8 0, Entry.mk 175 9 0, Entry.mk 184 9 0, Entry.mk 193 9 0, Entry.mk 202 9 0, Entry.mk 211 9 0, Entry.mk 221 10 0, Entry.mk 231 10 0, Entry.mk 241 10 0, Entry.mk 251 10 0, Entry.mk 261 10 0, Entry.mk 271 10 0, Entry.mk 281 10 0, Entry.mk 291 10 0, Entry.mk 302 11 0, Entry.mk 313 11 0, Entry.mk 325 12 0, Entry.mk 336 11 0, Entry.mk 348 12 0, Entry.mk 360 12 0, Entry.mk 372 12 0, Entry.mk 385 13 0, Entry.mk 397 12 0, Entry.mk 410 13 0, Entry.mk 423 13 0, Entry.mk 436 13 0, Entry.mk 450 14 0, Entry.mk 464 14 0, Entry.mk 478 14 0, Entry.mk 492 14 0, Entry.mk 506 14 0, Entry.mk 521 15 0, Entry.mk 536 15 0, Entry.mk 551 15 0, Entry.mk 566 15 0, Entry.mk 581 15 0, Entry.mk 596 15 0, Entry.mk 611 15 0, Entry.mk 626 15 0, Entry.mk 642 16 0, Entry.mk 658 16 0, Entry.mk 675 17 0, Entry.mk 691 16 0, Entry.mk 708 17 0, Entry.mk 725 17 0, Entry.mk 742 17 0, Entry.mk 760 18 0, Entry.mk 777 17 0, Entry.mk 795 18 0, Entry.mk 813 18 0, Entry.mk 831 18 0, Entry.mk 850 19 0, Entry.mk 869 19 0, Entry.mk 888 19 0, Entry.mk 907 19 0, Entry.mk 926 19 0, Entry.mk 946 20 0, Entry.mk 966 20 0, Entry.mk 986 20 0, Entry.mk 1006 20 0, Entry.mk 1026 20 0, Entry.mk 1046 20 0, Entry.mk 1066 20 0, Entry.mk 1086 20 0, Entry.mk 1107 21 0, Entry.mk 1128 21 0, Entry.mk 1150 22 0, Entry.mk 1171 21 0, Entry.mk 1193 22 0, Entry.mk 1215 22 0, Entry.mk 1237 22 0, Entry.mk 1260 23 0, Entry.mk 1282 22 0, Entry.mk 1305 23 0, Entry.mk 1328 23 0, Entry.mk 1351 23 0, Entry.mk 1375 24 0, Entry.mk 1399 24 0, Entry.mk 1423 24 0, Entry.mk 1447 24 0, Entry.mk 1471 24 0, Entry.mk 1496 25 0, Entry.mk 1521 25 0, Entry.mk 1546 25 0, Entry.mk 1571 25 0, Entry.mk 1596 25 0, Entry.mk 1621 25 0, Entry.mk 1646 25 0, Entry.mk 1671 25 0, Entry.mk 1697 26 0, Entry.mk 1723 26 0, Entry.mk 1750 27 0, Entry.mk 1776 26 0, Entry.mk 1803 27 0, Entry.mk 1830 27 0, Entry.mk 1857 27 0, Entry.mk 1885 28 0, Entry.mk 1912 27 0, Entry.mk 1940 28 0, Entry.mk 1968 28 0, Entry.mk 1996 28 0, Entry.mk 2025 29 0, Entry.mk 2054 29 0, Entry.mk 2083 29 0, Entry.mk 2112 29 0, Entry.mk 2141 29 0, Entry.mk 2171 30 0, Entry.mk 2201 30 0, Entry.mk 2231 30 0, Entry.mk 2261 30 0, Entry.mk 2291 30 0, Entry.mk 2321 30 0, Entry.mk 2351 30 0, Entry.mk 2381 30 0, Entry.mk 2412 31 0, Entry.mk 2443 31 0, Entry.mk 2475 32 0, Entry.mk 2506 31 0, Entry.mk 2538 32 0, Entry.mk 2570 32 0, Entry.mk 2602 32 0, Entry.mk 2635 33 0, Entry.mk 2667 32 0, Entry.mk 2700 33 0, Entry.mk 2733 33 0, Entry.mk 2766 33 0, Entry.mk 2800 34 0, Entry.mk 2834 34 0, Entry.mk 2868 34 0, Entry.mk 2902 34 0, Entry.mk 2936 34 0, Entry.mk 2971 35 0, Entry.mk 3006 35 0, Entry.mk 3041 35 0, Entry.mk 3076 35 0, Entry.mk 3111 35 0, Entry.mk 3146 35 0, Entry.mk 3181 35 0, Entry.mk 3216 35 0, Entry.mk 3252 36 0, Entry.mk 3288 36 0, Entry.mk 3325 37 0, Entry.mk 3361 36 0, Entry.mk 3398 37 0, Entry.mk 3435 37 0, Entry.mk 3472 37 0, Entry.mk 3510 38 0, Entry.mk 3547 37 0, Entry.mk 3585 38 0, Entry.mk 3623 38 0, Entry.mk 3661 38 0, Entry.mk 3700 39 0, Entry.mk 3739 39 0, Entry.mk 3778 39 0, Entry.mk 3817 39 0, Entry.mk 3856 39 0, Entry.mk 3896 40 0, Entry.mk 3936 40 0, Entry.mk 3976 40 0, Entry.mk 4016 40 0, Entry.mk 4056 40 0, Entry.mk 4096 40 0, Entry.mk 4136 40 0, Entry.mk 4176 40 0, Entry.mk 4217 41 0, Entry.mk 4258 41 0, Entry.mk 4300 42 0, Entry.mk 4341 41 0, Entry.mk 4383 42 0, Entry.mk 4425 42 0, Entry.mk 4467 42 0, Entry.mk 4510 43 0, Entry.mk 4552 42 0, Entry.mk 4595 43 0, Entry.mk 4638 43 0, Entry.mk 4681 43 0, Entry.mk 4725 44 0, Entry.mk 4769 44 0, Entry.mk 4813 44 0, Entry.mk 4857 44 0, Entry.mk 4901 44 0, Entry.mk 4946 45 0, Entry.mk 4991 45 0, Entry.mk 5036 45 0, Entry.mk 5081 45 0, Entry.mk 5126 45 0, Entry.mk 5171 45 0, Entry.mk 5216 45 0, Entry.mk 5261 45 0, Entry.mk 5307 46 0, Entry.mk 5353 46 0, Entry.mk 5400 47 0, Entry.mk 5446 46 0, Entry.mk 5493 47 0, Entry.mk 5540 47 0, Entry.mk 5587 47 0, Entry.mk 5635 48 0, Entry.mk 5682 47 0, Entry.mk 5730 48 0, Entry.mk 5778 48 0, Entry.mk 5826 48 0, Entry.mk 5875 49 0, Entry.mk 5924 49 0, Entry.mk 5973 49 0, Entry.mk 6022 49 0, Entry.mk 6071 49 0, Entry.mk 6121 50 0, Entry.mk 6171 50 0, Entry.mk 6221 50 0, Entry.mk 6271 50 0, Entry.mk 6321 50 0, Entry.mk 6371 50 0, Entry.mk 6421 50 0, Entry.mk 6471 50 0, Entry.mk 6522 51 0, Entry.mk 6573 51 0, Entry.mk 6625 52 0, Entry.mk 6676 51 0, Entry.mk 6728 52 0, Entry.mk 6780 52 0, Entry.mk 6832 52 0, Entry.mk 6885 53 0, Entry.mk 6937 52 0, Entry.mk 6990 53 0, Entry.mk 7043 53 0, Entry.mk 7096 53 0, Entry.mk 7150 54 0, Entry.mk 7204 54 0, Entry.mk 7258 54 0, Entry.mk 7312 54 0, Entry.mk 7366 54 0, Entry.mk 7421 55 0, Entry.mk 7476 55 0, Entry.mk 7531 55 0, Entry.mk 7586 55 0, Entry.mk 7641 55 0, Entry.mk 7696 55 0, Entry.mk 7751 55 0, Entry.mk 7806 55 0, Entry.mk 7862 56 0, Entry.mk 7918 56 0, Entry.mk 7975 57 0, Entry.mk 8031 56 0, Entry.mk 8088 57 0, Entry.mk 8145 57 0, Entry.mk 8202 57 0, Entry.mk 8260 58 0, Entry.mk 8317 57 0, Entry.mk 8375 58 0, Entry.mk 8433 58 0, Entry.mk 8491 58 0, Entry.mk 8550 59 0, Entry.mk 8609 59 0, Entry.mk 8668 59 0, Entry.mk 8727 59 0, Entry.mk 8756 29 0] := by
  decide!

theorem c8_w8 :
    wRun 248 8757 (RState.mk 8756 0 [Entry.mk 1 1 0, Entry.mk 2 1 0, Entry.mk 3 1 0, Entry.mk 4 1 0, Entry.mk 5 1 0, Entry.mk 6 1 0, Entry.mk 7 1 0, Entry.mk 8 1 0, Entry.mk 9 1 0, Entry.mk 11 2 0, Entry.mk 13 2 0, Entry.mk 15 2 0, Entry.mk 17 2 0, Entry.mk 20 3 0, Entry.mk 23 3 0, Entry.mk 26 3 0, Entry.mk 29 3 0, Entry.mk 32 3 0, Entry.mk 36 4 0, Entry.mk 40 4 0, Entry.mk 44 4 0, Entry.mk 48 4 0, Entry.mk 52 4 0, Entry.mk 56 4 0, Entry.mk 61 5 0, Entry.mk 66 5 0, Entry.mk 71 5 0, Entry.mk 76 5 0, Entry.mk 81 5 0, Entry.mk 87 6 0, Entry.mk 93 6 0, Entry.mk 100 7 0, Entry.mk 106 6 0, Entry.mk 113 7 0, Entry.mk 120 7 0, Entry.mk 127 7 0, Entry.mk 135 8 0, Entry.mk 142 7 0, Entry.mk 150 8 0, Entry.mk 158 8 0, Entry.mk 166 8 0, Entry.mk 175 9 0, Entry.mk 184 9 0, Entry.mk 193 9 0, Entry.mk 202 9 0, Entry.mk 211 9 0, Entry.mk 221 10 0, Entry.mk 231 10 0, Entry.mk 241 10 0, Entry.mk 251 10 0, Entry.mk 261 10 0, Entry.mk 271 10 0, Entry.mk 281 10 0, Entry.mk 291 10 0, Entry.mk 302 11 0, Entry.mk 313 11 0, Entry.mk 325 12 0, Entry.mk 336 11 0, Entry.mk 348 12 0, Entry.mk 360 12 0, Entry.mk 372 12 0, Entry.mk 385 13 0, Entry.mk 397 12 0, Entry.mk 410 13 0, Entry.mk 423 13 0, Entry.mk 436 13 0, Entry.mk 450 14 0, Entry.mk 464 14 0, Entry.mk 478 14 0, Entry.mk 492 14 0, Entry.mk 506 14 0, Entry.mk 521 15 0, Entry.mk 536 15 0, Entry.mk 551 15 0, Entry.mk 566 15 0, Entry.mk 581 15 0, Entry.mk 596 15 0, Entry.mk 611 15 0, Entry.mk 626 15 0, Entry.mk 642 16 0, Entry.mk 658 16 0, Entry.mk 675 17 0, Entry.mk 691 16 0, Entry.mk 708 17 0, Entry.mk 725 17 0, Entry.mk 742 17 0, Entry.mk 760 18 0, Entry.mk 777 17 0, Entry.mk 795 18 0, Entry.mk 813 18 0, Entry.mk 831 18 0, Entry.mk 850 19 0, Entry.mk 869 19 0, Entry.mk 888 19 0, Entry.mk 907 19 0, Entry.mk 926 19 0, Entry.mk 946 20 0, Entry.mk 966 20 0, Entry.mk 986 20 0, Entry.mk 1006 20 0, Entry.mk 1026 20 0, Entry.mk 1046 20 0, Entry.mk 1066 20 0, Entry.mk 1086 20 0, Entry.mk 1107 21 0, Entry.mk 1128 21 0, Entry.mk 1150 22 0, Entry.mk 1171 21 0, Entry.mk 1193 22 0, Entry.mk 1215 22 0, Entry.mk 1237 22 0, Entry.mk 1260 23 0, Entry.mk 1282 22 0, Entry.mk 1305 23 0, Entry.mk 1328 23 0, Entry.mk 1351 23 0, Entry.mk 1375 24 0, Entry.mk 1399 24 0, Entry.mk 1423 24 0, Entry.mk 1447 24 0, Entry.mk 1471 24 0, Entry.mk 1496 25 0, Entry.mk 1521 25 0, Entry.mk 1546 25 0, Entry.mk 1571 25 0, Entry.mk 1596 25 0, Entry.mk 1621 25 0, Entry.mk 1646 25 0, Entry.mk 1671 25 0, Entry.mk 1697 26 0, Entry.mk 1723 26 0, Entry.mk 1750 27 0, Entry.mk 1776 26 0, Entry.mk 1803 27 0, Entry.mk 1830 27 0, Entry.mk 1857 27 0, Entry.mk 1885 28 0, Entry.mk 1912 27 0, Entry.mk 1940 28 0, Entry.mk 1968 28 0, Entry.mk 1996 28 0, Entry.mk 2025 29 0, Entry.mk 2054 29 0, Entry.mk 2083 29 0, Entry.mk 2112 29 0, Entry.mk 2141 29 0, Entry.mk 2171 30 0, Entry.mk 2201 30 0, Entry.mk 2231 30 0, Entry.mk 2261 30 0, Entry.mk 2291 30 0, Entry.mk 2321 30 0, Entry.mk 2351 30 0, Entry.mk 2381 30 0, Entry.mk 2412 31 0, Entry.mk 2443 31 0, Entry.mk 2475 32 0, Entry.mk 2506 31 0, Entry.mk 2538 32 0, Entry.mk 2570 32 0, Entry.mk 2602 32 0, Entry.mk 2635 33 0, Entry.mk 2667 32 0, Entry.mk 2700 33 0, Entry.mk 2733 33 0, Entry.mk 2766 33 0, Entry.mk 2800 34 0, Entry.mk 2834 34 0, Entry.mk 2868 34 0, Entry.mk 2902 34 0, Entry.mk 2936 34 0, Entry.mk 2971 35 0, Entry.mk 3006 35 0, Entry.mk 3041 35 0, Entry.mk 3076 35 0, Entry.mk 3111 35 0, Entry.mk 3146 35 0, Entry.mk 3181 35 0, Entry.mk 3216 35 0, Entry.mk 3252 36 0, Entry.mk 3288 36 0, Entry.mk 3325 37 0, Entry.mk 3361 36 0, Entry.mk 3398 37 0, Entry.mk 3435 37 0, Entry.mk 3472 37 0, Entry.mk 3510 38 0, Entry.mk 3547 37 0, Entry.mk 3585 38 0, Entry.mk 3623 38 0, Entry.mk 3661 38 0, Entry.mk 3700 39 0, Entry.mk 3739 39 0, Entry.mk 3778 39 0, Entry.mk 3817 39 0, Entry.mk 3856 39 0, Entry.mk 3896 40 0, Entry.mk 3936 40 0, Entry.mk 3976 40 0, Entry.mk 4016 40 0, Entry.mk 4056 40 0, Entry.mk 4096 40 0, Entry.mk 4136 40 0, Entry.mk 4176 40 0, Entry.mk 4217 41 0, Entry.mk 4258 41 0, Entry.mk 4300 42 0, Entry.mk 4341 41 0, Entry.mk 4383 42 0, Entry.mk 4425 42 0, Entry.mk 4467 42 0, Entry.mk 4510 43 0, Entry.mk 4552 42 0, Entry.mk 4595 43 0, Entry.mk 4638 43 0, Entry.mk 4681 43 0, Entry.mk 4725 44 0, Entry.mk 4769 44 0, Entry.mk 4813 44 0, Entry.mk 4857 44 0, Entry.mk 4901 44 0, Entry.mk 4946 45 0, Entry.mk 4991 45 0, Entry.mk 5036 45 0, Entry.mk 5081 45 0, Entry.mk 5126 45 0, Entry.mk 5171 45 0, Entry.mk 5216 45 0, Entry.mk 5261 45 0, Entry.mk 5307 46 0, Entry.mk 5353 46 0, Entry.mk 5400 47 0, Entry.mk 5446 46 0, Entry.mk 5493 47 0, Entry.mk 5540 47 0, Entry.mk 5587 47 0, Entry.mk 5635 48 0, Entry.mk 5682 47 0, Entry.mk 5730 48 0, Entry.mk 5778 48 0, Entry.mk 5826 48 0, Entry.mk 5875 49 0, Entry.mk 5924 49 0, Entry.mk 5973 49 0, Entry.mk 6022 49 0, Entry.mk 6071 49 0, Entry.mk 6121 50 0, Entry.mk 6171 50 0, Entry.mk 6221 50 0, Entry.mk 6271 50 0, Entry.mk 6321 50 0, Entry.mk 6371 50 0, Entry.mk 6421 50 0, Entry.mk 6471 50 0, Entry.mk 6522 51 0, Entry.mk 6573 51 0, Entry.mk 6625 52 0, Entry.mk 6676 51 0, Entry.mk 6728 52 0, Entry.mk 6780 52 0, Entry.mk 6832 52 0, Entry.mk 6885 53 0, Entry.mk 6937 52 0, Entry.mk 6990 53 0, Entry.mk 7043 53 0, Entry.mk 7096 53 0, Entry.mk 7150 54 0, Entry.mk 7204 54 0, Entry.mk 7258 54 0, Entry.mk 7312 54 0, Entry.mk 7366 54 0, Entry.mk 7421 55 0, Entry.mk 7476 55 0, Entry.mk 7531 55 0, Entry.mk 7586 55 0, Entry.mk 7641 55 0, Entry.mk 7696 55 0, Entry.mk 7751 55 0, Entry.mk 7806 55 0, Entry.mk 7862 56 0, Entry.mk 7918 56 0, Entry.mk 7975 57 0, Entry.mk 8031 56 0, Entry.mk 8088 57 0, Entry.mk 8145 57 0, Entry.mk 8202 57 0, Entry.mk 8260 58 0, Entry.mk 8317 57 0, Entry.mk 8375 58 0, Entry.mk 8433 58 0, Entry.mk 8491 58 0, Entry.mk 8550 59 0, Entry.mk 8609 59 0, Entry.mk 8668 59 0, Entry.mk 8727 59 0, Entry.mk 8756 29 0]) =
      RState.mk 9996 0 [Entry.mk 1 1 0, Entry.mk 2 1 0, Entry.mk 3 1 0, Entry.mk 4 1 0, Entry.mk 5 1 0, Entry.mk 6 1 0, Entry.mk 7 1 0, Entry.mk 8 1 0, Entry.mk 9 1 0, Entry.mk 11 2 0, Entry.mk 13 2 0, Entry.mk 15 2 0, Entry.mk 17 2 0, Entry.mk 20 3 0, Entry.mk 23 3 0, Entry.mk 26 3 0, Entry.mk 29 3 0, Entry.mk 32 3 0, Entry.mk 36 4 0, Entry.mk 40 4 0, Entry.mk 44 4 0, Entry.mk 48 4 0, Entry.mk 52 4 0, Entry.mk 56 4 0, Entry.mk 61 5 0, Entry.mk 66 5 0, Entry.mk 71 5 0, Entry.mk 76 5 0, Entry.mk 81 5 0, Entry.mk 87 6 0, Entry.mk 93 6 0, Entry.mk 100 7 0, Entry.mk 106 6 0, Entry.mk 113 7 0, Entry.mk 120 7 0, Entry.mk 127 7 0, Entry.mk 135 8 0, Entry.mk 142 7 0, Entry.mk 150 8 0, Entry.mk 158 8 0, Entry.mk 166 8 0, Entry.mk 175 9 0, Entry.mk 184 9 0, Entry.mk 193 9 0, Entry.mk 202 9 0, Entry.mk 211 9 0, Entry.mk 221 10 0, Entry.mk 231 10 0, Entry.mk 241 10 0, Entry.mk 251 10 0, Entry.mk 261 10 0, Entry.mk 271 10 0, Entry.mk 281 10 0, Entry.mk 291 10 0, Entry.mk 302 11 0, Entry.mk 313 11 0, Entry.mk 325 12 0, Entry.mk 336 11 0, Entry.mk 348 12 0, Entry.mk 360 12 0, Entry.mk 372 12 0, Entry.mk 385 13 0, Entry.mk 397 12 0, Entry.mk 410 13 0, Entry.mk 423 13 0, Entry.mk 436 13 0, Entry.mk 450 14 0, Entry.mk 464 14 0, Entry.mk 478 14 0, Entry.mk 492 14 0, Entry.mk 506 14 0, Entry.mk 521 15 0, Entry.mk 536 15 0, Entry.mk 551 15 0, Entry.mk 566 15 0, Entry.mk 581 15 0, Entry.mk 596 15 0, Entry.mk 611 15 0, Entry.mk 626 15 0, Entry.mk 642 16 0, Entry.mk 658 16 0, Entry.mk 675 17 0, Entry.mk 691 16 0, Entry.mk 708 17 0, Entry.mk 725 17 0, Entry.mk 742 17 0, Entry.mk 760 18 0, Entry.mk 777 17 0, Entry.mk 795 18 0, Entry.mk 813 18 0, Entry.mk 831 18 0, Entry.mk 850 19 0, Entry.mk 869 19 0, Entry.mk 888 19 0, Entry.mk 907 19 0, Entry.mk 926 19 0, Entry.mk 946 20 0, Entry.mk 966 20 0, Entry.mk 986 20 0, Entry.mk 1006 20 0, Entry.mk 1026 20 0, Entry.mk 1046 20 0, Entry.mk 1066 20 0, Entry.mk 1086 20 0, Entry.mk 1107 21 0, Entry.mk 1128 21 0, Entry.mk 1150 22 0, Entry.mk 1171 21 0, Entry.mk 1193 22 0, Entry.mk 1215 22 0, Entry.mk 1237 22 0, Entry.mk 1260 23 0, Entry.mk 1282 22 0, Entry.mk 1305 23 0, Entry.mk 1328 23 0, Entry.mk 1351 23 0, Entry.mk 1375 24 0, Entry.mk 1399 24 0, Entry.mk 1423 24 0, Entry.mk 1447 24 0, Entry.mk 1471 24 0, Entry.mk 1496 25 0, Entry.mk 1521 25 0, Entry.mk 1546 25 0, Entry.mk 1571 25 0, Entry.mk 1596 25 0, Entry.mk 1621 25 0, Entry.mk 1646 25 0, Entry.mk 1671 25 0, Entry.mk 1697 26 0, Entry.mk 1723 26 0, Entry.mk 1750 27 0, Entry.mk 1776 26 0, Entry.mk 1803 27 0, Entry.mk 1830 27 0, Entry.mk 1857 27 0, Entry.mk 1885 28 0, Entry.mk 1912 27 0, Entry.mk 1940 28 0, Entry.mk 1968 28 0, Entry.mk 1996 28 0, Entry.mk 2025 29 0, Entry.mk 2054 29 0, Entry.mk 2083 29 0, Entry.mk 2112 29 0, Entry.mk 2141 29 0, Entry.mk 2171 30 0, Entry.mk 2201 30 0, Entry.mk 2231 30 0, Entry.mk 2261 30 0, Entry.mk 2291 30 0, Entry.mk 2321 30 0, Entry.mk 2351 30 0, Entry.mk 2381 30 0, Entry.mk 2412 31 0, Entry.mk 2443 31 0, Entry.mk 2475 32 0, Entry.mk 2506 31 0, Entry.mk 2538 32 0, Entry.mk 2570 32 0, Entry.mk 2602 32 0, Entry.mk 2635 33 0, Entry.mk 2667 32 0, Entry.mk 2700 33 0, Entry.mk 2733 33 0, Entry.mk 2766 33 0, Entry.mk 2800 34 0, Entry.mk 2834 34 0, Entry.mk 2868 34 0, Entry.mk 2902 34 0, Entry.mk 2936 34 0, Entry.mk 2971 35 0, Entry.mk 3006 35 0, Entry.mk 3041 35 0, Entry.mk 3076 35 0, Entry.mk 3111 35 0, Entry.mk 3146 35 0, Entry.mk 3181 35 0, Entry.mk 3216 35 0, Entry.mk 3252 36 0, Entry.mk 3288 36 0, Entry.mk 3325 37 0, Entry.mk 3361 36 0, Entry.mk 3398 37 0, Entry.mk 3435 37 0, Entry.mk 3472 37 0, Entry.mk 3510 38 0, Entry.mk 3547 37 0, Entry.mk 3585 38 0, Entry.mk 3623 38 0, Entry.mk 3661 38 0, Entry.mk 3700 39 0, Entry.mk 3739 39 0, Entry.mk 3778 39 0, Entry.mk 3817 39 0, Entry.mk 3856 39 0, Entry.mk 3896 40 0, Entry.mk 3936 40 0, Entry.mk 3976 40 0, Entry.mk 4016 40 0, Entry.mk 4056 40 0, Entry.mk 4096 40 0, Entry.mk 4136 40 0, Entry.mk 4176 40 0, Entry.mk 4217 41 0, Entry.mk 4258 41 0, Entry.mk 4300 42 0, Entry.mk 4341 41 0, Entry.mk 4383 42 0, Entry.mk 4425 42 0, Entry.mk 4467 42 0, Entry.mk 4510 43 0, Entry.mk 4552 42 0, Entry.mk 4595 43 0, Entry.mk 4638 43 0, Entry.mk 4681 43 0, Entry.mk 4725 44 0, Entry.mk 4769 44 0, Entry.mk 4813 44 0, Entry.mk 4857 44 0, Entry.mk 4901 44 0, Entry.mk 4946 45 0, Entry.mk 4991 45 0, Entry.mk 5036 45 0, Entry.mk 5081 45 0, Entry.mk 5126 45 0, Entry.mk 5171 45 0, Entry.mk 5216 45 0, Entry.mk 5261 45 0, Entry.mk 5307 46 0, Entry.mk 5353 46 0, Entry.mk 5400 47 0, Entry.mk 5446 46 0, Entry.mk 5493 47 0, Entry.mk 5540 47 0, Entry.mk 5587 47 0, Entry.mk 5635 48 0, Entry.mk 5682 47 0, Entry.mk 5730 48 0, Entry.mk 5778 48 0, Entry.mk 5826 48 0, Entry.mk 5875 49 0, Entry.mk 5924 49 0, Entry.mk 5973 49 0, Entry.mk 6022 49 0, Entry.mk 6071 49 0, Entry.mk 6121 50 0, Entry.mk 6171 50 0, Entry.mk 6221 50 0, Entry.mk 6271 50 0, Entry.mk 6321 50 0, Entry.mk 6371 50 0, Entry.mk 6421 50 0, Entry.mk 6471 50 0, Entry.mk 6522 51 0, Entry.mk 6573 51 0, Entry.mk 6625 52 0, Entry.mk 6676 51 0, Entry.mk 6728 52 0, Entry.mk 6780 52 0, Entry.mk 6832 52 0, Entry.mk 6885 53 0, Entry.mk 6937 52 0, Entry.mk 6990 53 0, Entry.mk 7043 53 0, Entry.mk 7096 53 0, Entry.mk 7150 54 0, Entry.mk 7204 54 0, Entry.mk 7258 54 0, Entry.mk 7312 54 0, Entry.mk 7366 54 0, Entry.mk 7421 55 0, Entry.mk 7476 55 0, Entry.mk 7531 55 0, Entry.mk 7586 55 0, Entry.mk 7641 55 0, Entry.mk 7696 55 0, Entry.mk 7751 55 0, Entry.mk 7806 55 0, Entry.mk 7862 56 0, Entry.mk 7918 56 0, Entry.mk 7975 57 0, Entry.mk 8031 56 0, Entry.mk 8088 57 0, Entry.mk 8145 57 0, Entry.mk 8202 57 0, Entry.mk 8260 58 0, Entry.mk 8317 57 0, Entry.mk 8375 58 0, Entry.mk 8433 58 0, Entry.mk 8491 58 0, Entry.mk 8550 59 0, Entry.mk 8609 59 0, Entry.mk 8668 59 0, Entry.mk 8727 59 0, Entry.mk 8786 59 0, Entry.mk 8846 60 0, Entry.mk 8906 60 0, Entry.mk 8966 60 0, Entry.mk 9026 60 0, Entry.mk 9086 60 0, Entry.mk 9146 60 0, Entry.mk 9206 60 0, Entry.mk 9266 60 0, Entry.mk 9327 61 0, Entry.mk 9388 61 0, Entry.mk 9450 62 0, Entry.mk 9511 61 0, Entry.mk 9573 62 0, Entry.mk 9635 62 0, Entry.mk 9697 62 0, Entry.mk 9760 63 0, Entry.mk 9822 62 0, Entry.mk 9885 63 0, Entry.mk 9948 63 0, Entry.mk 9996 48 0] := by
  decide!

theorem c8_seg9 :
    rInsertAll 5 5 (RState.mk 9996 0 [Entry.mk 1 1 0, Entry.mk 2 1 0, Entry.mk 3 1 0, Entry.mk 4 1 0, Entry.mk 5 1 0, Entry.mk 6 1 0, Entry.mk 7 1 0, Entry.mk 8 1 0, Entry.mk 9 1 0, Entry.mk 11 2 0, Entry.mk 13 2 0, Entry.mk 15 2 0, Entry.mk 17 2 0, Entry.mk 20 3 0, Entry.mk 23 3 0, Entry.mk 26 3 0, Entry.mk 29 3 0, Entry.mk 32 3 0, Entry.mk 36 4 0, Entry.mk 40 4 0, Entry.mk 44 4 0, Entry.mk 48 4 0, Entry.mk 52 4 0, Entry.mk 56 4 0, Entry.mk 61 5 0, Entry.mk 66 5 0, Entry.mk 71 5 0, Entry.mk 76 5 0, Entry.mk 81 5 0, Entry.mk 87 6 0, Entry.mk 93 6 0, Entry.mk 100 7 0, Entry.mk 106 6 0, Entry.mk 113 7 0, Entry.mk 120 7 0, Entry.mk 127 7 0, Entry.mk 135 8 0, Entry.mk 142 7 0, Entry.mk 150 8 0, Entry.mk 158 8 0, Entry.mk 166 8 0, Entry.mk 175 9 0, Entry.mk 184 9 0, Entry.mk 193 9 0, Entry.mk 202 9 0, Entry.mk 211 9 0, Entry.mk 221 10 0, Entry.mk 231 10 0, Entry.mk 241 10 0, Entry.mk 251 10 0, Entry.mk 261 10 0, Entry.mk 271 10 0, Entry.mk 281 10 0, Entry.mk 291 10 0, Entry.mk 302 11 0, Entry.mk 313 11 0, Entry.mk 325 12 0, Entry.mk 336 11 0, Entry.mk 348 12 0, Entry.mk 360 12 0, Entry.mk 372 12 0, Entry.mk 385 13 0, Entry.mk 397 12 0, Entry.mk 410 13 0, Entry.mk 423 13 0, Entry.mk 436 13 0, Entry.mk 450 14 0, Entry.mk 464 14 0, Entry.mk 478 14 0, Entry.mk 492 14 0, Entry.mk 506 14 0, Entry.mk 521 15 0, Entry.mk 536 15 0, Entry.mk 551 15 0, Entry.mk 566 15 0, Entry.mk 581 15 0, Entry.mk 596 15 0, Entry.mk 611 15 0, Entry.mk 626 15 0, Entry.mk 642 16 0, Entry.mk 658 16 0, Entry.mk 675 17 0, Entry.mk 691 16 0, Entry.mk 708 17 0, Entry.mk 725 17 0, Entry.mk 742 17 0, Entry.mk 760 18 0, Entry.mk 777 17 0, Entry.mk 795 18 0, Entry.mk 813 18 0, Entry.mk 831 18 0, Entry.mk 850 19 0, Entry.mk 869 19 0, Entry.mk 888 19 0, Entry.mk 907 19 0, Entry.mk 926 19 0, Entry.mk 946 20 0, Entry.mk 966 20 0, Entry.mk 986 20 0, Entry.mk 1006 20 0, Entry.mk 1026 20 0, Entry.mk 1046 20 0, Entry.mk 1066 20 0, Entry.mk 1086 20 0, Entry.mk 1107 21 0, Entry.mk 1128 21 0, Entry.mk 1150 22 0, Entry.mk 1171 21 0, Entry.mk 1193 22 0, Entry.mk 1215 22 0, Entry.mk 1237 22 0, Entry.mk 1260 23 0, Entry.mk 1282 22 0, Entry.mk 1305 23 0, Entry.mk 1328 23 0, Entry.mk 1351 23 0, Entry.mk 1375 24 0, Entry.mk 1399 24 0, Entry.mk 1423 24 0, Entry.mk 1447 24 0, Entry.mk 1471 24 0, Entry.mk 1496 25 0, Entry.mk 1521 25 0, Entry.mk 1546 25 0, Entry.mk 1571 25 0, Entry.mk 1596 25 0, Entry.mk 1621 25 0, Entry.mk 1646 25 0, Entry.mk 1671 25 0, Entry.mk 1697 26 0, Entry.mk 1723 26 0, Entry.mk 1750 27 0, Entry.mk 1776 26 0, Entry.mk 1803 27 0, Entry.mk 1830 27 0, Entry.mk 1857 27 0, Entry.mk 1885 28 0, Entry.mk 1912 27 0, Entry.mk 1940 28 0, Entry.mk 1968 28 0, Entry.mk 1996 28 0, Entry.mk 2025 29 0, Entry.mk 2054 29 0, Entry.mk 2083 29 0, Entry.mk 2112 29 0, Entry.mk 2141 29 0, Entry.mk 2171 30 0, Entry.mk 2201 30 0, Entry.mk 2231 30 0, Entry.mk 2261 30 0, Entry.mk 2291 30 0, Entry.mk 2321 30 0, Entry.mk 2351 30 0, Entry.mk 2381 30 0, Entry.mk 2412 31 0, Entry.mk 2443 31 0, Entry.mk 2475 32 0, Entry.mk 2506 31 0, Entry.mk 2538 32 0, Entry.mk 2570 32 0, Entry.mk 2602 32 0, Entry.mk 2635 33 0, Entry.mk 2667 32 0, Entry.mk 2700 33 0, Entry.mk 2733 33 0, Entry.mk 2766 33 0, Entry.mk 2800 34 0, Entry.mk 2834 34 0, Entry.mk 2868 34 0, Entry.mk 2902 34 0, Entry.mk 2936 34 0, Entry.mk 2971 35 0, Entry.mk 3006 35 0, Entry.mk 3041 35 0, Entry.mk 3076 35 0, Entry.mk 3111 35 0, Entry.mk 3146 35 0, Entry.mk 3181 35 0, Entry.mk 3216 35 0, Entry.mk 3252 36 0, Entry.mk 3288 36 0, Entry.mk 3325 37 0, Entry.mk 3361 36 0, Entry.mk 3398 37 0, Entry.mk 3435 37 0, Entry.mk 3472 37 0, Entry.mk 3510 38 0, Entry.mk 3547 37 0, Entry.mk 3585 38 0, Entry.mk 3623 38 0, Entry.mk 3661 38 0, Entry.mk 3700 39 0, Entry.mk 3739 39 0, Entry.mk 3778 39 0, Entry.mk 3817 39 0, Entry.mk 3856 39 0, Entry.mk 3896 40 0, Entry.mk 3936 40 0, Entry.mk 3976 40 0, Entry.mk 4016 40 0, Entry.mk 4056 40 0, Entry.mk 4096 40 0, Entry.mk 4136 40 0, Entry.mk 4176 40 0, Entry.mk 4217 41 0, Entry.mk 4258 41 0, Entry.mk 4300 42 0, Entry.mk 4341 41 0, Entry.mk 4383 42 0, Entry.mk 4425 42 0, Entry.mk 4467 42 0, Entry.mk 4510 43 0, Entry.mk 4552 42 0, Entry.mk 4595 43 0, Entry.mk 4638 43 0, Entry.mk 4681 43 0, Entry.mk 4725 44 0, Entry.mk 4769 44 0, Entry.mk 4813 44 0, Entry.mk 4857 44 0, Entry.mk 4901 44 0, Entry.mk 4946 45 0, Entry.mk 4991 45 0, Entry.mk 5036 45 0, Entry.mk 5081 45 0, Entry.mk 5126 45 0, Entry.mk 5171 45 0, Entry.mk 5216 45 0, Entry.mk 5261 45 0, Entry.mk 5307 46 0, Entry.mk 5353 46 0, Entry.mk 5400 47 0, Entry.mk 5446 46 0, Entry.mk 5493 47 0, Entry.mk 5540 47 0, Entry.mk 5587 47 0, Entry.mk 5635 48 0, Entry.mk 5682 47 0, Entry.mk 5730 48 0, Entry.mk 5778 48 0, Entry.mk 5826 48 0, Entry.mk 5875 49 0, Entry.mk 5924 49 0, Entry.mk 5973 49 0, Entry.mk 6022 49 0, Entry.mk 6071 49 0, Entry.mk 6121 50 0, Entry.mk 6171 50 0, Entry.mk 6221 50 0, Entry.mk 6271 50 0, Entry.mk 6321 50 0, Entry.mk 6371 50 0, Entry.mk 6421 50 0, Entry.mk 6471 50 0, Entry.mk 6522 51 0, Entry.mk 6573 51 0, Entry.mk 6625 52 0, Entry.mk 6676 51 0, Entry.mk 6728 52 0, Entry.mk 6780 52 0, Entry.mk 6832 52 0, Entry.mk 6885 53 0, Entry.mk 6937 52 0, Entry.mk 6990 53 0, Entry.mk 7043 53 0, Entry.mk 7096 53 0, Entry.mk 7150 54 0, Entry.mk 7204 54 0, Entry.mk 7258 54 0, Entry.mk 7312 54 0, Entry.mk 7366 54 0, Entry.mk 7421 55 0, Entry.mk 7476 55 0, Entry.mk 7531 55 0, Entry.mk 7586 55 0, Entry.mk 7641 55 0, Entry.mk 7696 55 0, Entry.mk 7751 55 0, Entry.mk 7806 55 0, Entry.mk 7862 56 0, Entry.mk 7918 56 0, Entry.mk 7975 57 0, Entry.mk 8031 56 0, Entry.mk 8088 57 0, Entry.mk 8145 57 0, Entry.mk 8202 57 0, Entry.mk 8260 58 0, Entry.mk 8317 57 0, Entry.mk 8375 58 0, Entry.mk 8433 58 0, Entry.mk 8491 58 0, Entry.mk 8550 59 0, Entry.mk 8609 59 0, Entry.mk 8668 59 0, Entry.mk 8727 59 0, Entry.mk 8786 59 0, Entry.mk 8846 60 0, Entry.mk 8906 60 0, Entry.mk 8966 60 0, Entry.mk 9026 60 0, Entry.mk 9086 60 0, Entry.mk 9146 60 0, Entry.mk 9206 60 0, Entry.mk 9266 60 0, Entry.mk 9327 61 0, Entry.mk 9388 61 0, Entry.mk 9450 62 0, Entry.mk 9511 61 0, Entry.mk 9573 62 0, Entry.mk 9635 62 0, Entry.mk 9697 62 0, Entry.mk 9760 63 0, Entry.mk 9822 62 0, Entry.mk 9885 63 0, Entry.mk 9948 63 0, Entry.mk 9996 48 0]) (List.range' 9997 3) =
      RState.mk 9999 3 [Entry.mk 1 1 0, Entry.mk 2 1 0, Entry.mk 3 1 0, Entry.mk 4 1 0, Entry.mk 5 1 0, Entry.mk 6 1 0, Entry.mk 7 1 0, Entry.mk 8 1 0, Entry.mk 9 1 0, Entry.mk 11 2 0, Entry.mk 13 2 0, Entry.mk 15 2 0, Entry.mk 17 2 0, Entry.mk 20 3 0, Entry.mk 23 3 0, Entry.mk 26 3 0, Entry.mk 29 3 0, Entry.mk 32 3 0, Entry.mk 36 4 0, Entry.mk 40 4 0, Entry.mk 44 4 0, Entry.mk 48 4 0, Entry.mk 52 4 0, Entry.mk 56 4 0, Entry.mk 61 5 0, Entry.mk 66 5 0, Entry.mk 71 5 0, Entry.mk 76 5 0, Entry.mk 81 5 0, Entry.mk 87 6 0, Entry.mk 93 6 0, Entry.mk 100 7 0, Entry.mk 106 6 0, Entry.mk 113 7 0, Entry.mk 120 7 0, Entry.mk 127 7 0, Entry.mk 135 8 0, Entry.mk 142 7 0, Entry.mk 150 8 0, Entry.mk 158 8 0, Entry.mk 166 8 0, Entry.mk 175 9 0, Entry.mk 184 9 0, Entry.mk 193 9 0, Entry.mk 202 9 0, Entry.mk 211 9 0, Entry.mk 221 10 0, Entry.mk 231 10 0, Entry.mk 241 10 0, Entry.mk 251 10 0, Entry.mk 261 10 0, Entry.mk 271 10 0, Entry.mk 281 10 0, Entry.mk 291 10 0, Entry.mk 302 11 0, Entry.mk 313 11 0, Entry.mk 325 12 0, Entry.mk 336 11 0, Entry.mk 348 12 0, Entry.mk 360 12 0, Entry.mk 372 12 0, Entry.mk 385 13 0, Entry.mk 397 12 0, Entry.mk 410 13 0, Entry.mk 423 13 0, Entry.mk 436 13 0, Entry.mk 450 14 0, Entry.mk 464 14 0, Entry.mk 478 14 0, Entry.mk 492 14 0, Entry.mk 506 14 0, Entry.mk 521 15 0, Entry.mk 536 15 0, Entry.mk 551 15 0, Entry.mk 566 15 0, Entry.mk 581 15 0, Entry.mk 596 15 0, Entry.mk 611 15 0, Entry.mk 626 15 0, Entry.mk 642 16 0, Entry.mk 658 16 0, Entry.mk 675 17 0, Entry.mk 691 16 0, Entry.mk 708 17 0, Entry.mk 725 17 0, Entry.mk 742 17 0, Entry.mk 760 18 0, Entry.mk 777 17 0, Entry.mk 795 18 0, Entry.mk 813 18 0, Entry.mk 831 18 0, Entry.mk 850 19 0, Entry.mk 869 19 0, Entry.mk 888 19 0, Entry.mk 907 19 0, Entry.mk 926 19 0, Entry.mk 946 20 0, Entry.mk 966 20 0, Entry.mk 986 20 0, Entry.mk 1006 20 0, Entry.mk 1026 20 0, Entry.mk 1046 20 0, Entry.mk 1066 20 0, Entry.mk 1086 20 0, Entry.mk 1107 21 0, Entry.mk 1128 21 0, Entry.mk 1150 22 0, Entry.mk 1171 21 0, Entry.mk 1193 22 0, Entry.mk 1215 22 0, Entry.mk 1237 22 0, Entry.mk 1260 23 0, Entry.mk 1282 22 0, Entry.mk 1305 23 0, Entry.mk 1328 23 0, Entry.mk 1351 23 0, Entry.mk 1375 24 0, Entry.mk 1399 24 0, Entry.mk 1423 24 0, Entry.mk 1447 24 0, Entry.mk 1471 24 0, Entry.mk 1496 25 0, Entry.mk 1521 25 0, Entry.mk 1546 25 0, Entry.mk 1571 25 0, Entry.mk 1596 25 0, Entry.mk 1621 25 0, Entry.mk 1646 25 0, Entry.mk 1671 25 0, Entry.mk 1697 26 0, Entry.mk 1723 26 0, Entry.mk 1750 27 0, Entry.mk 1776 26 0, Entry.mk 1803 27 0, Entry.mk 1830 27 0, Entry.mk 1857 27 0, Entry.mk 1885 28 0, Entry.mk 1912 27 0, Entry.mk 1940 28 0, Entry.mk 1968 28 0, Entry.mk 1996 28 0, Entry.mk 2025 29 0, Entry.mk 2054 29 0, Entry.mk 2083 29 0, Entry.mk 2112 29 0, Entry.mk 2141 29 0, Entry.mk 2171 30 0, Entry.mk 2201 30 0, Entry.mk 2231 30 0, Entry.mk 2261 30 0, Entry.mk 2291 30 0, Entry.mk 2321 30 0, Entry.mk 2351 30 0, Entry.mk 2381 30 0, Entry.mk 2412 31 0, Entry.mk 2443 31 0, Entry.mk 2475 32 0, Entry.mk 2506 31 0, Entry.mk 2538 32 0, Entry.mk 2570 32 0, Entry.mk 2602 32 0, Entry.mk 2635 33 0, Entry.mk 2667 32 0, Entry.mk 2700 33 0, Entry.mk 2733 33 0, Entry.mk 2766 33 0, Entry.mk 2800 34 0, Entry.mk 2834 34 0, Entry.mk 2868 34 0, Entry.mk 2902 34 0, Entry.mk 2936 34 0, Entry.mk 2971 35 0, Entry.mk 3006 35 0, Entry.mk 3041 35 0, Entry.mk 3076 35 0, Entry.mk 3111 35 0, Entry.mk 3146 35 0, Entry.mk 3181 35 0, Entry.mk 3216 35 0, Entry.mk 3252 36 0, Entry.mk 3288 36 0, Entry.mk 3325 37 0, Entry.mk 3361 36 0, Entry.mk 3398 37 0, Entry.mk 3435 37 0, Entry.mk 3472 37 0, Entry.mk 3510 38 0, Entry.mk 3547 37 0, Entry.mk 3585 38 0, Entry.mk 3623 38 0, Entry.mk 3661 38 0, Entry.mk 3700 39 0, Entry.mk 3739 39 0, Entry.mk 3778 39 0, Entry.mk 3817 39 0, Entry.mk 3856 39 0, Entry.mk 3896 40 0, Entry.mk 3936 40 0, Entry.mk 3976 40 0, Entry.mk 4016 40 0, Entry.mk 4056 40 0, Entry.mk 4096 40 0, Entry.mk 4136 40 0, Entry.mk 4176 40 0, Entry.mk 4217 41 0, Entry.mk 4258 41 0, Entry.mk 4300 42 0, Entry.mk 4341 41 0, Entry.mk 4383 42 0, Entry.mk 4425 42 0, Entry.mk 4467 42 0, Entry.mk 4510 43 0, Entry.mk 4552 42 0, Entry.mk 4595 43 0, Entry.mk 4638 43 0, Entry.mk 4681 43 0, Entry.mk 4725 44 0, Entry.mk 4769 44 0, Entry.mk 4813 44 0, Entry.mk 4857 44 0, Entry.mk 4901 44 0, Entry.mk 4946 45 0, Entry.mk 4991 45 0, Entry.mk 5036 45 0, Entry.mk 5081 45 0, Entry.mk 5126 45 0, Entry.mk 5171 45 0, Entry.mk 5216 45 0, Entry.mk 5261 45 0, Entry.mk 5307 46 0, Entry.mk 5353 46 0, Entry.mk 5400 47 0, Entry.mk 5446 46 0, Entry.mk 5493 47 0, Entry.mk 5540 47 0, Entry.mk 5587 47 0, Entry.mk 5635 48 0, Entry.mk 5682 47 0, Entry.mk 5730 48 0, Entry.mk 5778 48 0, Entry.mk 5826 48 0, Entry.mk 5875 49 0, Entry.mk 5924 49 0, Entry.mk 5973 49 0, Entry.mk 6022 49 0, Entry.mk 6071 49 0, Entry.mk 6121 50 0, Entry.mk 6171 50 0, Entry.mk 6221 50 0, Entry.mk 6271 50 0, Entry.mk 6321 50 0, Entry.mk 6371 50 0, Entry.mk 6421 50 0, Entry.mk 6471 50 0, Entry.mk 6522 51 0, Entry.mk 6573 51 0, Entry.mk 6625 52 0, Entry.mk 6676 51 0, Entry.mk 6728 52 0, Entry.mk 6780 52 0, Entry.mk 6832 52 0, Entry.mk 6885 53 0, Entry.mk 6937 52 0, Entry.mk 6990 53 0, Entry.mk 7043 53 0, Entry.mk 7096 53 0, Entry.mk 7150 54 0, Entry.mk 7204 54 0, Entry.mk 7258 54 0, Entry.mk 7312 54 0, Entry.mk 7366 54 0, Entry.mk 7421 55 0, Entry.mk 7476 55 0, Entry.mk 7531 55 0, Entry.mk 7586 55 0, Entry.mk 7641 55 0, Entry.mk 7696 55 0, Entry.mk 7751 55 0, Entry.mk 7806 55 0, Entry.mk 7862 56 0, Entry.mk 7918 56 0, Entry.mk 7975 57 0, Entry.mk 8031 56 0, Entry.mk 8088 57 0, Entry.mk 8145 57 0, Entry.mk 8202 57 0, Entry.mk 8260 58 0, Entry.mk 8317 57 0, Entry.mk 8375 58 0, Entry.mk 8433 58 0, Entry.mk 8491 58 0, Entry.mk 8550 59 0, Entry.mk 8609 59 0, Entry.mk 8668 59 0, Entry.mk 8727 59 0, Entry.mk 8786 59 0, Entry.mk 8846 60 0, Entry.mk 8906 60 0, Entry.mk 8966 60 0, Entry.mk 9026 60 0, Entry.mk 9086 60 0, Entry.mk 9146 60 0, Entry.mk 9206 60 0, Entry.mk 9266 60 0, Entry.mk 9327 61 0, Entry.mk 9388 61 0, Entry.mk 9450 62 0, Entry.mk 9511 61 0, Entry.mk 9573 62 0, Entry.mk 9635 62 0, Entry.mk 9697 62 0, Entry.mk 9760 63 0, Entry.mk 9822 62 0, Entry.mk 9885 63 0, Entry.mk 9948 63 0, Entry.mk 9996 48 0, Entry.mk 9997 1 0, Entry.mk 9998 1 0, Entry.mk 9999 1 0] := by
  decide!

theorem c8_fin :
    rCompress 5 (RState.mk 9999 3 [Entry.mk 1 1 0, Entry.mk 2 1 0, Entry.mk 3 1 0, Entry.mk 4 1 0, Entry.mk 5 1 0, Entry.mk 6 1 0, Entry.mk 7 1 0, Entry.mk 8 1 0, Entry.mk 9 1 0, Entry.mk 11 2 0, Entry.mk 13 2 0, Entry.mk 15 2 0, Entry.mk 17 2 0, Entry.mk 20 3 0, Entry.mk 23 3 0, Entry.mk 26 3 0, Entry.mk 29 3 0, Entry.mk 32 3 0, Entry.mk 36 4 0, Entry.mk 40 4 0, Entry.mk 44 4 0, Entry.mk 48 4 0, Entry.mk 52 4 0, Entry.mk 56 4 0, Entry.mk 61 5 0, Entry.mk 66 5 0, Entry.mk 71 5 0, Entry.mk 76 5 0, Entry.mk 81 5 0, Entry.mk 87 6 0, Entry.mk 93 6 0, Entry.mk 100 7 0, Entry.mk 106 6 0, Entry.mk 113 7 0, Entry.mk 120 7 0, Entry.mk 127 7 0, Entry.mk 135 8 0, Entry.mk 142 7 0, Entry.mk 150 8 0, Entry.mk 158 8 0, Entry.mk 166 8 0, Entry.mk 175 9 0, Entry.mk 184 9 0, Entry.mk 193 9 0, Entry.mk 202 9 0, Entry.mk 211 9 0, Entry.mk 221 10 0, Entry.mk 231 10 0, Entry.mk 241 10 0, Entry.mk 251 10 0, Entry.mk 261 10 0, Entry.mk 271 10 0, Entry.mk 281 10 0, Entry.mk 291 10 0, Entry.mk 302 11 0, Entry.mk 313 11 0, Entry.mk 325 12 0, Entry.mk 336 11 0, Entry.mk 348 12 0, Entry.mk 360 12 0, Entry.mk 372 12 0, Entry.mk 385 13 0, Entry.mk 397 12 0, Entry.mk 410 13 0, Entry.mk 423 13 0, Entry.mk 436 13 0, Entry.mk 450 14 0, Entry.mk 464 14 0, Entry.mk 478 14 0, Entry.mk 492 14 0, Entry.mk 506 14 0, Entry.mk 521 15 0, Entry.mk 536 15 0, Entry.mk 551 15 0, Entry.mk 566 15 0, Entry.mk 581 15 0, Entry.mk 596 15 0, Entry.mk 611 15 0, Entry.mk 626 15 0, Entry.mk 642 16 0, Entry.mk 658 16 0, Entry.mk 675 17 0, Entry.mk 691 16 0, Entry.mk 708 17 0, Entry.mk 725 17 0, Entry.mk 742 17 0, Entry.mk 760 18 0, Entry.mk 777 17 0, Entry.mk 795 18 0, Entry.mk 813 18 0, Entry.mk 831 18 0, Entry.mk 850 19 0, Entry.mk 869 19 0, Entry.mk 888 19 0, Entry.mk 907 19 0, Entry.mk 926 19 0, Entry.mk 946 20 0, Entry.mk 966 20 0, Entry.mk 986 20 0, Entry.mk 1006 20 0, Entry.mk 1026 20 0, Entry.mk 1046 20 0, Entry.mk 1066 20 0, Entry.mk 1086 20 0, Entry.mk 1107 21 0, Entry.mk 1128 21 0, Entry.mk 1150 22 0, Entry.mk 1171 21 0, Entry.mk 1193 22 0, Entry.mk 1215 22 0, Entry.mk 1237 22 0, Entry.mk 1260 23 0, Entry.mk 1282 22 0, Entry.mk 1305 23 0, Entry.mk 1328 23 0, Entry.mk 1351 23 0, Entry.mk 1375 24 0, Entry.mk 1399 24 0, Entry.mk 1423 24 0, Entry.mk 1447 24 0, Entry.mk 1471 24 0, Entry.mk 1496 25 0, Entry.mk 1521 25 0, Entry.mk 1546 25 0, Entry.mk 1571 25 0, Entry.mk 1596 25 0, Entry.mk 1621 25 0, Entry.mk 1646 25 0, Entry.mk 1671 25 0, Entry.mk 1697 26 0, Entry.mk 1723 26 0, Entry.mk 1750 27 0, Entry.mk 1776 26 0, Entry.mk 1803 27 0, Entry.mk 1830 27 0, Entry.mk 1857 27 0, Entry.mk 1885 28 0, Entry.mk 1912 27 0, Entry.mk 1940 28 0, Entry.mk 1968 28 0, Entry.mk 1996 28 0, Entry.mk 2025 29 0, Entry.mk 2054 29 0, Entry.mk 2083 29 0, Entry.mk 2112 29 0, Entry.mk 2141 29 0, Entry.mk 2171 30 0, Entry.mk 2201 30 0, Entry.mk 2231 30 0, Entry.mk 2261 30 0, Entry.mk 2291 30 0, Entry.mk 2321 30 0, Entry.mk 2351 30 0, Entry.mk 2381 30 0, Entry.mk 2412 31 0, Entry.mk 2443 31 0, Entry.mk 2475 32 0, Entry.mk 2506 31 0, Entry.mk 2538 32 0, Entry.mk 2570 32 0, Entry.mk 2602 32 0, Entry.mk 2635 33 0, Entry.mk 2667 32 0, Entry.mk 2700 33 0, Entry.mk 2733 33 0, Entry.mk 2766 33 0, Entry.mk 2800 34 0, Entry.mk 2834 34 0, Entry.mk 2868 34 0, Entry.mk 2902 34 0, Entry.mk 2936 34 0, Entry.mk 2971 35 0, Entry.mk 3006 35 0, Entry.mk 3041 35 0, Entry.mk 3076 35 0, Entry.mk 3111 35 0, Entry.mk 3146 35 0, Entry.mk 3181 35 0, Entry.mk 3216 35 0, Entry.mk 3252 36 0, Entry.mk 3288 36 0, Entry.mk 3325 37 0, Entry.mk 3361 36 0, Entry.mk 3398 37 0, Entry.mk 3435 37 0, Entry.mk 3472 37 0, Entry.mk 3510 38 0, Entry.mk 3547 37 0, Entry.mk 3585 38 0, Entry.mk 3623 38 0, Entry.mk 3661 38 0, Entry.mk 3700 39 0, Entry.mk 3739 39 0, Entry.mk 3778 39 0, Entry.mk 3817 39 0, Entry.mk 3856 39 0, Entry.mk 3896 40 0, Entry.mk 3936 40 0, Entry.mk 3976 40 0, Entry.mk 4016 40 0, Entry.mk 4056 40 0, Entry.mk 4096 40 0, Entry.mk 4136 40 0, Entry.mk 4176 40 0, Entry.mk 4217 41 0, Entry.mk 4258 41 0, Entry.mk 4300 42 0, Entry.mk 4341 41 0, Entry.mk 4383 42 0, Entry.mk 4425 42 0, Entry.mk 4467 42 0, Entry.mk 4510 43 0, Entry.mk 4552 42 0, Entry.mk 4595 43 0, Entry.mk 4638 43 0, Entry.mk 4681 43 0, Entry.mk 4725 44 0, Entry.mk 4769 44 0, Entry.mk 4813 44 0, Entry.mk 4857 44 0, Entry.mk 4901 44 0, Entry.mk 4946 45 0, Entry.mk 4991 45 0, Entry.mk 5036 45 0, Entry.mk 5081 45 0, Entry.mk 5126 45 0, Entry.mk 5171 45 0, Entry.mk 5216 45 0, Entry.mk 5261 45 0, Entry.mk 5307 46 0, Entry.mk 5353 46 0, Entry.mk 5400 47 0, Entry.mk 5446 46 0, Entry.mk 5493 47 0, Entry.mk 5540 47 0, Entry.mk 5587 47 0, Entry.mk 5635 48 0, Entry.mk 5682 47 0, Entry.mk 5730 48 0, Entry.mk 5778 48 0, Entry.mk 5826 48 0, Entry.mk 5875 49 0, Entry.mk 5924 49 0, Entry.mk 5973 49 0, Entry.mk 6022 49 0, Entry.mk 6071 49 0, Entry.mk 6121 50 0, Entry.mk 6171 50 0, Entry.mk 6221 50 0, Entry.mk 6271 50 0, Entry.mk 6321 50 0, Entry.mk 6371 50 0, Entry.mk 6421 50 0, Entry.mk 6471 50 0, Entry.mk 6522 51 0, Entry.mk 6573 51 0, Entry.mk 6625 52 0, Entry.mk 6676 51 0, Entry.mk 6728 52 0, Entry.mk 6780 52 0, Entry.mk 6832 52 0, Entry.mk 6885 53 0, Entry.mk 6937 52 0, Entry.mk 6990 53 0, Entry.mk 7043 53 0, Entry.mk 7096 53 0, Entry.mk 7150 54 0, Entry.mk 7204 54 0, Entry.mk 7258 54 0, Entry.mk 7312 54 0, Entry.mk 7366 54 0, Entry.mk 7421 55 0, Entry.mk 7476 55 0, Entry.mk 7531 55 0, Entry.mk 7586 55 0, Entry.mk 7641 55 0, Entry.mk 7696 55 0, Entry.mk 7751 55 0, Entry.mk 7806 55 0, Entry.mk 7862 56 0, Entry.mk 7918 56 0, Entry.mk 7975 57 0, Entry.mk 8031 56 0, Entry.mk 8088 57 0, Entry.mk 8145 57 0, Entry.mk 8202 57 0, Entry.mk 8260 58 0, Entry.mk 8317 57 0, Entry.mk 8375 58 0, Entry.mk 8433 58 0, Entry.mk 8491 58 0, Entry.mk 8550 59 0, Entry.mk 8609 59 0, Entry.mk 8668 59 0, Entry.mk 8727 59 0, Entry.mk 8786 59 0, Entry.mk 8846 60 0, Entry.mk 8906 60 0, Entry.mk 8966 60 0, Entry.mk 9026 60 0, Entry.mk 9086 60 0, Entry.mk 9146 60 0, Entry.mk 9206 60 0, Entry.mk 9266 60 0, Entry.mk 9327 61 0, Entry.mk 9388 61 0, Entry.mk 9450 62 0, Entry.mk 9511 61 0, Entry.mk 9573 62 0, Entry.mk 9635 62 0, Entry.mk 9697 62 0, Entry.mk 9760 63 0, Entry.mk 9822 62 0, Entry.mk 9885 63 0, Entry.mk 9948 63 0, Entry.mk 9996 48 0, Entry.mk 9997 1 0, Entry.mk 9998 1 0, Entry.mk 9999 1 0]) =
      RState.mk 9999 3 [Entry.mk 1 1 0, Entry.mk 2 1 0, Entry.mk 3 1 0, Entry.mk 4 1 0, Entry.mk 5 1 0, Entry.mk 6 1 0, Entry.mk 7 1 0, Entry.mk 8 1 0, Entry.mk 9 1 0, Entry.mk 11 2 0, Entry.mk 13 2 0, Entry.mk 15 2 0, Entry.mk 17 2 0, Entry.mk 20 3 0, Entry.mk 23 3 0, Entry.mk 26 3 0, Entry.mk 29 3 0, Entry.mk 32 3 0, Entry.mk 36 4 0, Entry.mk 40 4 0, Entry.mk 44 4 0, Entry.mk 48 4 0, Entry.mk 52 4 0, Entry.mk 56 4 0, Entry.mk 61 5 0, Entry.mk 66 5 0, Entry.mk 71 5 0, Entry.mk 76 5 0, Entry.mk 81 5 0, Entry.mk 87 6 0, Entry.mk 93 6 0, Entry.mk 100 7 0, Entry.mk 106 6 0, Entry.mk 113 7 0, Entry.mk 120 7 0, Entry.mk 127 7 0, Entry.mk 135 8 0, Entry.mk 142 7 0, Entry.mk 150 8 0, Entry.mk 158 8 0, Entry.mk 166 8 0, Entry.mk 175 9 0, Entry.mk 184 9 0, Entry.mk 193 9 0, Entry.mk 202 9 0, Entry.mk 211 9 0, Entry.mk 221 10 0, Entry.mk 231 10 0, Entry.mk 241 10 0, Entry.mk 251 10 0, Entry.mk 261 10 0, Entry.mk 271 10 0, Entry.mk 281 10 0, Entry.mk 291 10 0, Entry.mk 302 11 0, Entry.mk 313 11 0, Entry.mk 325 12 0, Entry.mk 336 11 0, Entry.mk 348 12 0, Entry.mk 360 12 0, Entry.mk 372 12 0, Entry.mk 385 13 0, Entry.mk 397 12 0, Entry.mk 410 13 0, Entry.mk 423 13 0, Entry.mk 436 13 0, Entry.mk 450 14 0, Entry.mk 464 14 0, Entry.mk 478 14 0, Entry.mk 492 14 0, Entry.mk 506 14 0, Entry.mk 521 15 0, Entry.mk 536 15 0, Entry.mk 551 15 0, Entry.mk 566 15 0, Entry.mk 581 15 0, Entry.mk 596 15 0, Entry.mk 611 15 0, Entry.mk 626 15 0, Entry.mk 642 16 0, Entry.mk 658 16 0, Entry.mk 675 17 0, Entry.mk 691 16 0, Entry.mk 708 17 0, Entry.mk 725 17 0, Entry.mk 742 17 0, Entry.mk 760 18 0, Entry.mk 777 17 0, Entry.mk 795 18 0, Entry.mk 813 18 0, Entry.mk 831 18 0, Entry.mk 850 19 0, Entry.mk 869 19 0, Entry.mk 888 19 0, Entry.mk 907 19 0, Entry.mk 926 19 0, Entry.mk 946 20 0, Entry.mk 966 20 0, Entry.mk 986 20 0, Entry.mk 1006 20 0, Entry.mk 1026 20 0, Entry.mk 1046 20 0, Entry.mk 1066 20 0, Entry.mk 1086 20 0, Entry.mk 1107 21 0, Entry.mk 1128 21 0, Entry.mk 1150 22 0, Entry.mk 1171 21 0, Entry.mk 1193 22 0, Entry.mk 1215 22 0, Entry.mk 1237 22 0, Entry.mk 1260 23 0, Entry.mk 1282 22 0, Entry.mk 1305 23 0, Entry.mk 1328 23 0, Entry.mk 1351 23 0, Entry.mk 1375 24 0, Entry.mk 1399 24 0, Entry.mk 1423 24 0, Entry.mk 1447 24 0, Entry.mk 1471 24 0, Entry.mk 1496 25 0, Entry.mk 1521 25 0, Entry.mk 1546 25 0, Entry.mk 1571 25 0, Entry.mk 1596 25 0, Entry.mk 1621 25 0, Entry.mk 1646 25 0, Entry.mk 1671 25 0, Entry.mk 1697 26 0, Entry.mk 1723 26 0, Entry.mk 1750 27 0, Entry.mk 1776 26 0, Entry.mk 1803 27 0, Entry.mk 1830 27 0, Entry.mk 1857 27 0, Entry.mk 1885 28 0, Entry.mk 1912 27 0, Entry.mk 1940 28 0, Entry.mk 1968 28 0, Entry.mk 1996 28 0, Entry.mk 2025 29 0, Entry.mk 2054 29 0, Entry.mk 2083 29 0, Entry.mk 2112 29 0, Entry.mk 2141 29 0, Entry.mk 2171 30 0, Entry.mk 2201 30 0, Entry.mk 2231 30 0, Entry.mk 2261 30 0, Entry.mk 2291 30 0, Entry.mk 2321 30 0, Entry.mk 2351 30 0, Entry.mk 2381 30 0, Entry.mk 2412 31 0, Entry.mk 2443 31 0, Entry.mk 2475 32 0, Entry.mk 2506 31 0, Entry.mk 2538 32 0, Entry.mk 2570 32 0, Entry.mk 2602 32 0, Entry.mk 2635 33 0, Entry.mk 2667 32 0, Entry.mk 2700 33 0, Entry.mk 2733 33 0, Entry.mk 2766 33 0, Entry.mk 2800 34 0, Entry.mk 2834 34 0, Entry.mk 2868 34 0, Entry.mk 2902 34 0, Entry.mk 2936 34 0, Entry.mk 2971 35 0, Entry.mk 3006 35 0, Entry.mk 3041 35 0, Entry.mk 3076 35 0, Entry.mk 3111 35 0, Entry.mk 3146 35 0, Entry.mk 3181 35 0, Entry.mk 3216 35 0, Entry.mk 3252 36 0, Entry.mk 3288 36 0, Entry.mk 3325 37 0, Entry.mk 3361 36 0, Entry.mk 3398 37 0, Entry.mk 3435 37 0, Entry.mk 3472 37 0, Entry.mk 3510 38 0, Entry.mk 3547 37 0, Entry.mk 3585 38 0, Entry.mk 3623 38 0, Entry.mk 3661 38 0, Entry.mk 3700 39 0, Entry.mk 3739 39 0, Entry.mk 3778 39 0, Entry.mk 3817 39 0, Entry.mk 3856 39 0, Entry.mk 3896 40 0, Entry.mk 3936 40 0, Entry.mk 3976 40 0, Entry.mk 4016 40 0, Entry.mk 4056 40 0, Entry.mk 4096 40 0, Entry.mk 4136 40 0, Entry.mk 4176 40 0, Entry.mk 4217 41 0, Entry.mk 4258 41 0, Entry.mk 4300 42 0, Entry.mk 4341 41 0, Entry.mk 4383 42 0, Entry.mk 4425 42 0, Entry.mk 4467 42 0, Entry.mk 4510 43 0, Entry.mk 4552 42 0, Entry.mk 4595 43 0, Entry.mk 4638 43 0, Entry.mk 4681 43 0, Entry.mk 4725 44 0, Entry.mk 4769 44 0, Entry.mk 4813 44 0, Entry.mk 4857 44 0, Entry.mk 4901 44 0, Entry.mk 4946 45 0, Entry.mk 4991 45 0, Entry.mk 5036 45 0, Entry.mk 5081 45 0, Entry.mk 5126 45 0, Entry.mk 5171 45 0, Entry.mk 5216 45 0, Entry.mk 5261 45 0, Entry.mk 5307 46 0, Entry.mk 5353 46 0, Entry.mk 5400 47 0, Entry.mk 5446 46 0, Entry.mk 5493 47 0, Entry.mk 5540 47 0, Entry.mk 5587 47 0, Entry.mk 5635 48 0, Entry.mk 5682 47 0, Entry.mk 5730 48 0, Entry.mk 5778 48 0, Entry.mk 5826 48 0, Entry.mk 5875 49 0, Entry.mk 5924 49 0, Entry.mk 5973 49 0, Entry.mk 6022 49 0, Entry.mk 6071 49 0, Entry.mk 6121 50 0, Entry.mk 6171 50 0, Entry.mk 6221 50 0, Entry.mk 6271 50 0, Entry.mk 6321 50 0, Entry.mk 6371 50 0, Entry.mk 6421 50 0, Entry.mk 6471 50 0, Entry.mk 6522 51 0, Entry.mk 6573 51 0, Entry.mk 6625 52 0, Entry.mk 6676 51 0, Entry.mk 6728 52 0, Entry.mk 6780 52 0, Entry.mk 6832 52 0, Entry.mk 6885 53 0, Entry.mk 6937 52 0, Entry.mk 6990 53 0, Entry.mk 7043 53 0, Entry.mk 7096 53 0, Entry.mk 7150 54 0, Entry.mk 7204 54 0, Entry.mk 7258 54 0, Entry.mk 7312 54 0, Entry.mk 7366 54 0, Entry.mk 7421 55 0, Entry.mk 7476 55 0, Entry.mk 7531 55 0, Entry.mk 7586 55 0, Entry.mk 7641 55 0, Entry.mk 7696 55 0, Entry.mk 7751 55 0, Entry.mk 7806 55 0, Entry.mk 7862 56 0, Entry.mk 7918 56 0, Entry.mk 7975 57 0, Entry.mk 8031 56 0, Entry.mk 8088 57 0, Entry.mk 8145 57 0, Entry.mk 8202 57 0, Entry.mk 8260 58 0, Entry.mk 8317 57 0, Entry.mk 8375 58 0, Entry.mk 8433 58 0, Entry.mk 8491 58 0, Entry.mk 8550 59 0, Entry.mk 8609 59 0, Entry.mk 8668 59 0, Entry.mk 8727 59 0, Entry.mk 8786 59 0, Entry.mk 8846 60 0, Entry.mk 8906 60 0, Entry.mk 8966 60 0, Entry.mk 9026 60 0, Entry.mk 9086 60 0, Entry.mk 9146 60 0, Entry.mk 9206 60 0, Entry.mk 9266 60 0, Entry.mk 9327 61 0, Entry.mk 9388 61 0, Entry.mk 9450 62 0, Entry.mk 9511 61 0, Entry.mk 9573 62 0, Entry.mk 9635 62 0, Entry.mk 9697 62 0, Entry.mk 9760 63 0, Entry.mk 9822 62 0, Entry.mk 9885 63 0, Entry.mk 9948 63 0, Entry.mk 9999 51 0] := by
  decide!

theorem c8_fin_stats :
    (RState.mk 9999 3 [Entry.mk 1 1 0, Entry.mk 2 1 0, Entry.mk 3 1 0, Entry.mk 4 1 0, Entry.mk 5 1 0, Entry.mk 6 1 0, Entry.mk 7 1 0, Entry.mk 8 1 0, Entry.mk 9 1 0, Entry.mk 11 2 0, Entry.mk 13 2 0, Entry.mk 15 2 0, Entry.mk 17 2 0, Entry.mk 20 3 0, Entry.mk 23 3 0, Entry.mk 26 3 0, Entry.mk 29 3 0, Entry.mk 32 3 0, Entry.mk 36 4 0, Entry.mk 40 4 0, Entry.mk 44 4 0, Entry.mk 48 4 0, Entry.mk 52 4 0, Entry.mk 56 4 0, Entry.mk 61 5 0, Entry.mk 66 5 0, Entry.mk 71 5 0, Entry.mk 76 5 0, Entry.mk 81 5 0, Entry.mk 87 6 0, Entry.mk 93 6 0, Entry.mk 100 7 0, Entry.mk 106 6 0, Entry.mk 113 7 0, Entry.mk 120 7 0, Entry.mk 127 7 0, Entry.mk 135 8 0, Entry.mk 142 7 0, Entry.mk 150 8 0, Entry.mk 158 8 0, Entry.mk 166 8 0, Entry.mk 175 9 0, Entry.mk 184 9 0, Entry.mk 193 9 0, Entry.mk 202 9 0, Entry.mk 211 9 0, Entry.mk 221 10 0, Entry.mk 231 10 0, Entry.mk 241 10 0, Entry.mk 251 10 0, Entry.mk 261 10 0, Entry.mk 271 10 0, Entry.mk 281 10 0, Entry.mk 291 10 0, Entry.mk 302 11 0, Entry.mk 313 11 0, Entry.mk 325 12 0, Entry.mk 336 11 0, Entry.mk 348 12 0, Entry.mk 360 12 0, Entry.mk 372 12 0, Entry.mk 385 13 0, Entry.mk 397 12 0, Entry.mk 410 13 0, Entry.mk 423 13 0, Entry.mk 436 13 0, Entry.mk 450 14 0, Entry.mk 464 14 0, Entry.mk 478 14 0, Entry.mk 492 14 0, Entry.mk 506 14 0, Entry.mk 521 15 0, Entry.mk 536 15 0, Entry.mk 551 15 0, Entry.mk 566 15 0, Entry.mk 581 15 0, Entry.mk 596 15 0, Entry.mk 611 15 0, Entry.mk 626 15 0, Entry.mk 642 16 0, Entry.mk 658 16 0, Entry.mk 675 17 0, Entry.mk 691 16 0, Entry.mk 708 17 0, Entry.mk 725 17 0, Entry.mk 742 17 0, Entry.mk 760 18 0, Entry.mk 777 17 0, Entry.mk 795 18 0, Entry.mk 813 18 0, Entry.mk 831 18 0, Entry.mk 850 19 0, Entry.mk 869 19 0, Entry.mk 888 19 0, Entry.mk 907 19 0, Entry.mk 926 19 0, Entry.mk 946 20 0, Entry.mk 966 20 0, Entry.mk 986 20 0, Entry.mk 1006 20 0, Entry.mk 1026 20 0, Entry.mk 1046 20 0, Entry.mk 1066 20 0, Entry.mk 1086 20 0, Entry.mk 1107 21 0, Entry.mk 1128 21 0, Entry.mk 1150 22 0, Entry.mk 1171 21 0, Entry.mk 1193 22 0, Entry.mk 1215 22 0, Entry.mk 1237 22 0, Entry.mk 1260 23 0, Entry.mk 1282 22 0, Entry.mk 1305 23 0, Entry.mk 1328 23 0, Entry.mk 1351 23 0, Entry.mk 1375 24 0, Entry.mk 1399 24 0, Entry.mk 1423 24 0, Entry.mk 1447 24 0, Entry.mk 1471 24 0, Entry.mk 1496 25 0, Entry.mk 1521 25 0, Entry.mk 1546 25 0, Entry.mk 1571 25 0, Entry.mk 1596 25 0, Entry.mk 1621 25 0, Entry.mk 1646 25 0, Entry.mk 1671 25 0, Entry.mk 1697 26 0, Entry.mk 1723 26 0, Entry.mk 1750 27 0, Entry.mk 1776 26 0, Entry.mk 1803 27 0, Entry.mk 1830 27 0, Entry.mk 1857 27 0, Entry.mk 1885 28 0, Entry.mk 1912 27 0, Entry.mk 1940 28 0, Entry.mk 1968 28 0, Entry.mk 1996 28 0, Entry.mk 2025 29 0, Entry.mk 2054 29 0, Entry.mk 2083 29 0, Entry.mk 2112 29 0, Entry.mk 2141 29 0, Entry.mk 2171 30 0, Entry.mk 2201 30 0, Entry.mk 2231 30 0, Entry.mk 2261 30 0, Entry.mk 2291 30 0, Entry.mk 2321 30 0, Entry.mk 2351 30 0, Entry.mk 2381 30 0, Entry.mk 2412 31 0, Entry.mk 2443 31 0, Entry.mk 2475 32 0, Entry.mk 2506 31 0, Entry.mk 2538 32 0, Entry.mk 2570 32 0, Entry.mk 2602 32 0, Entry.mk 2635 33 0, Entry.mk 2667 32 0, Entry.mk 2700 33 0, Entry.mk 2733 33 0, Entry.mk 2766 33 0, Entry.mk 2800 34 0, Entry.mk 2834 34 0, Entry.mk 2868 34 0, Entry.mk 2902 34 0, Entry.mk 2936 34 0, Entry.mk 2971 35 0, Entry.mk 3006 35 0, Entry.mk 3041 35 0, Entry.mk 3076 35 0, Entry.mk 3111 35 0, Entry.mk 3146 35 0, Entry.mk 3181 35 0, Entry.mk 3216 35 0, Entry.mk 3252 36 0, Entry.mk 3288 36 0, Entry.mk 3325 37 0, Entry.mk 3361 36 0, Entry.mk 3398 37 0, Entry.mk 3435 37 0, Entry.mk 3472 37 0, Entry.mk 3510 38 0, Entry.mk 3547 37 0, Entry.mk 3585 38 0, Entry.mk 3623 38 0, Entry.mk 3661 38 0, Entry.mk 3700 39 0, Entry.mk 3739 39 0, Entry.mk 3778 39 0, Entry.mk 3817 39 0, Entry.mk 3856 39 0, Entry.mk 3896 40 0, Entry.mk 3936 40 0, Entry.mk 3976 40 0, Entry.mk 4016 40 0, Entry.mk 4056 40 0, Entry.mk 4096 40 0, Entry.mk 4136 40 0, Entry.mk 4176 40 0, Entry.mk 4217 41 0, Entry.mk 4258 41 0, Entry.mk 4300 42 0, Entry.mk 4341 41 0, Entry.mk 4383 42 0, Entry.mk 4425 42 0, Entry.mk 4467 42 0, Entry.mk 4510 43 0, Entry.mk 4552 42 0, Entry.mk 4595 43 0, Entry.mk 4638 43 0, Entry.mk 4681 43 0, Entry.mk 4725 44 0, Entry.mk 4769 44 0, Entry.mk 4813 44 0, Entry.mk 4857 44 0, Entry.mk 4901 44 0, Entry.mk 4946 45 0, Entry.mk 4991 45 0, Entry.mk 5036 45 0, Entry.mk 5081 45 0, Entry.mk 5126 45 0, Entry.mk 5171 45 0, Entry.mk 5216 45 0, Entry.mk 5261 45 0, Entry.mk 5307 46 0, Entry.mk 5353 46 0, Entry.mk 5400 47 0, Entry.mk 5446 46 0, Entry.mk 5493 47 0, Entry.mk 5540 47 0, Entry.mk 5587 47 0, Entry.mk 5635 48 0, Entry.mk 5682 47 0, Entry.mk 5730 48 0, Entry.mk 5778 48 0, Entry.mk 5826 48 0, Entry.mk 5875 49 0, Entry.mk 5924 49 0, Entry.mk 5973 49 0, Entry.mk 6022 49 0, Entry.mk 6071 49 0, Entry.mk 6121 50 0, Entry.mk 6171 50 0, Entry.mk 6221 50 0, Entry.mk 6271 50 0, Entry.mk 6321 50 0, Entry.mk 6371 50 0, Entry.mk 6421 50 0, Entry.mk 6471 50 0, Entry.mk 6522 51 0, Entry.mk 6573 51 0, Entry.mk 6625 52 0, Entry.mk 6676 51 0, Entry.mk 6728 52 0, Entry.mk 6780 52 0, Entry.mk 6832 52 0, Entry.mk 6885 53 0, Entry.mk 6937 52 0, Entry.mk 6990 53 0, Entry.mk 7043 53 0, Entry.mk 7096 53 0, Entry.mk 7150 54 0, Entry.mk 7204 54 0, Entry.mk 7258 54 0, Entry.mk 7312 54 0, Entry.mk 7366 54 0, Entry.mk 7421 55 0, Entry.mk 7476 55 0, Entry.mk 7531 55 0, Entry.mk 7586 55 0, Entry.mk 7641 55 0, Entry.mk 7696 55 0, Entry.mk 7751 55 0, Entry.mk 7806 55 0, Entry.mk 7862 56 0, Entry.mk 7918 56 0, Entry.mk 7975 57 0, Entry.mk 8031 56 0, Entry.mk 8088 57 0, Entry.mk 8145 57 0, Entry.mk 8202 57 0, Entry.mk 8260 58 0, Entry.mk 8317 57 0, Entry.mk 8375 58 0, Entry.mk 8433 58 0, Entry.mk 8491 58 0, Entry.mk 8550 59 0, Entry.mk 8609 59 0, Entry.mk 8668 59 0, Entry.mk 8727 59 0, Entry.mk 8786 59 0, Entry.mk 8846 60 0, Entry.mk 8906 60 0, Entry.mk 8966 60 0, Entry.mk 9026 60 0, Entry.mk 9086 60 0, Entry.mk 9146 60 0, Entry.mk 9206 60 0, Entry.mk 9266 60 0, Entry.mk 9327 61 0, Entry.mk 9388 61 0, Entry.mk 9450 62 0, Entry.mk 9511 61 0, Entry.mk 9573 62 0, Entry.mk 9635 62 0, Entry.mk 9697 62 0, Entry.mk 9760 63 0, Entry.mk 9822 62 0, Entry.mk 9885 63 0, Entry.mk 9948 63 0, Entry.mk 9999 51 0] : RState).n = 9999 ∧ (RState.mk 9999 3 [Entry.mk 1 1 0, Entry.mk 2 1 0, Entry.mk 3 1 0, Entry.mk 4 1 0, Entry.mk 5 1 0, Entry.mk 6 1 0, Entry.mk 7 1 0, Entry.mk 8 1 0, Entry.mk 9 1 0, Entry.mk 11 2 0, Entry.mk 13 2 0, Entry.mk 15 2 0, Entry.mk 17 2 0, Entry.mk 20 3 0, Entry.mk 23 3 0, Entry.mk 26 3 0, Entry.mk 29 3 0, Entry.mk 32 3 0, Entry.mk 36 4 0, Entry.mk 40 4 0, Entry.mk 44 4 0, Entry.mk 48 4 0, Entry.mk 52 4 0, Entry.mk 56 4 0, Entry.mk 61 5 0, Entry.mk 66 5 0, Entry.mk 71 5 0, Entry.mk 76 5 0, Entry.mk 81 5 0, Entry.mk 87 6 0, Entry.mk 93 6 0, Entry.mk 100 7 0, Entry.mk 106 6 0, Entry.mk 113 7 0, Entry.mk 120 7 0, Entry.mk 127 7 0, Entry.mk 135 8 0, Entry.mk 142 7 0, Entry.mk 150 8 0, Entry.mk 158 8 0, Entry.mk 166 8 0, Entry.mk 175 9 0, Entry.mk 184 9 0, Entry.mk 193 9 0, Entry.mk 202 9 0, Entry.mk 211 9 0, Entry.mk 221 10 0, Entry.mk 231 10 0, Entry.mk 241 10 0, Entry.mk 251 10 0, Entry.mk 261 10 0, Entry.mk 271 10 0, Entry.mk 281 10 0, Entry.mk 291 10 0, Entry.mk 302 11 0, Entry.mk 313 11 0, Entry.mk 325 12 0, Entry.mk 336 11 0, Entry.mk 348 12 0, Entry.mk 360 12 0, Entry.mk 372 12 0, Entry.mk 385 13 0, Entry.mk 397 12 0, Entry.mk 410 13 0, Entry.mk 423 13 0, Entry.mk 436 13 0, Entry.mk 450 14 0, Entry.mk 464 14 0, Entry.mk 478 14 0, Entry.mk 492 14 0, Entry.mk 506 14 0, Entry.mk 521 15 0, Entry.mk 536 15 0, Entry.mk 551 15 0, Entry.mk 566 15 0, Entry.mk 581 15 0, Entry.mk 596 15 0, Entry.mk 611 15 0, Entry.mk 626 15 0, Entry.mk 642 16 0, Entry.mk 658 16 0, Entry.mk 675 17 0, Entry.mk 691 16 0, Entry.mk 708 17 0, Entry.mk 725 17 0, Entry.mk 742 17 0, Entry.mk 760 18 0, Entry.mk 777 17 0, Entry.mk 795 18 0, Entry.mk 813 18 0, Entry.mk 831 18 0, Entry.mk 850 19 0, Entry.mk 869 19 0, Entry.mk 888 19 0, Entry.mk 907 19 0, Entry.mk 926 19 0, Entry.mk 946 20 0, Entry.mk 966 20 0, Entry.mk 986 20 0, Entry.mk 1006 20 0, Entry.mk 1026 20 0, Entry.mk 1046 20 0, Entry.mk 1066 20 0, Entry.mk 1086 20 0, Entry.mk 1107 21 0, Entry.mk 1128 21 0, Entry.mk 1150 22 0, Entry.mk 1171 21 0, Entry.mk 1193 22 0, Entry.mk 1215 22 0, Entry.mk 1237 22 0, Entry.mk 1260 23 0, Entry.mk 1282 22 0, Entry.mk 1305 23 0, Entry.mk 1328 23 0, Entry.mk 1351 23 0, Entry.mk 1375 24 0, Entry.mk 1399 24 0, Entry.mk 1423 24 0, Entry.mk 1447 24 0, Entry.mk 1471 24 0, Entry.mk 1496 25 0, Entry.mk 1521 25 0, Entry.mk 1546 25 0, Entry.mk 1571 25 0, Entry.mk 1596 25 0, Entry.mk 1621 25 0, Entry.mk 1646 25 0, Entry.mk 1671 25 0, Entry.mk 1697 26 0, Entry.mk 1723 26 0, Entry.mk 1750 27 0, Entry.mk 1776 26 0, Entry.mk 1803 27 0, Entry.mk 1830 27 0, Entry.mk 1857 27 0, Entry.mk 1885 28 0, Entry.mk 1912 27 0, Entry.mk 1940 28 0, Entry.mk 1968 28 0, Entry.mk 1996 28 0, Entry.mk 2025 29 0, Entry.mk 2054 29 0, Entry.mk 2083 29 0, Entry.mk 2112 29 0, Entry.mk 2141 29 0, Entry.mk 2171 30 0, Entry.mk 2201 30 0, Entry.mk 2231 30 0, Entry.mk 2261 30 0, Entry.mk 2291 30 0, Entry.mk 2321 30 0, Entry.mk 2351 30 0, Entry.mk 2381 30 0, Entry.mk 2412 31 0, Entry.mk 2443 31 0, Entry.mk 2475 32 0, Entry.mk 2506 31 0, Entry.mk 2538 32 0, Entry.mk 2570 32 0, Entry.mk 2602 32 0, Entry.mk 2635 33 0, Entry.mk 2667 32 0, Entry.mk 2700 33 0, Entry.mk 2733 33 0, Entry.mk 2766 33 0, Entry.mk 2800 34 0, Entry.mk 2834 34 0, Entry.mk 2868 34 0, Entry.mk 2902 34 0, Entry.mk 2936 34 0, Entry.mk 2971 35 0, Entry.mk 3006 35 0, Entry.mk 3041 35 0, Entry.mk 3076 35 0, Entry.mk 3111 35 0, Entry.mk 3146 35 0, Entry.mk 3181 35 0, Entry.mk 3216 35 0, Entry.mk 3252 36 0, Entry.mk 3288 36 0, Entry.mk 3325 37 0, Entry.mk 3361 36 0, Entry.mk 3398 37 0, Entry.mk 3435 37 0, Entry.mk 3472 37 0, Entry.mk 3510 38 0, Entry.mk 3547 37 0, Entry.mk 3585 38 0, Entry.mk 3623 38 0, Entry.mk 3661 38 0, Entry.mk 3700 39 0, Entry.mk 3739 39 0, Entry.mk 3778 39 0, Entry.mk 3817 39 0, Entry.mk 3856 39 0, Entry.mk 3896 40 0, Entry.mk 3936 40 0, Entry.mk 3976 40 0, Entry.mk 4016 40 0, Entry.mk 4056 40 0, Entry.mk 4096 40 0, Entry.mk 4136 40 0, Entry.mk 4176 40 0, Entry.mk 4217 41 0, Entry.mk 4258 41 0, Entry.mk 4300 42 0, Entry.mk 4341 41 0, Entry.mk 4383 42 0, Entry.mk 4425 42 0, Entry.mk 4467 42 0, Entry.mk 4510 43 0, Entry.mk 4552 42 0, Entry.mk 4595 43 0, Entry.mk 4638 43 0, Entry.mk 4681 43 0, Entry.mk 4725 44 0, Entry.mk 4769 44 0, Entry.mk 4813 44 0, Entry.mk 4857 44 0, Entry.mk 4901 44 0, Entry.mk 4946 45 0, Entry.mk 4991 45 0, Entry.mk 5036 45 0, Entry.mk 5081 45 0, Entry.mk 5126 45 0, Entry.mk 5171 45 0, Entry.mk 5216 45 0, Entry.mk 5261 45 0, Entry.mk 5307 46 0, Entry.mk 5353 46 0, Entry.mk 5400 47 0, Entry.mk 5446 46 0, Entry.mk 5493 47 0, Entry.mk 5540 47 0, Entry.mk 5587 47 0, Entry.mk 5635 48 0, Entry.mk 5682 47 0, Entry.mk 5730 48 0, Entry.mk 5778 48 0, Entry.mk 5826 48 0, Entry.mk 5875 49 0, Entry.mk 5924 49 0, Entry.mk 5973 49 0, Entry.mk 6022 49 0, Entry.mk 6071 49 0, Entry.mk 6121 50 0, Entry.mk 6171 50 0, Entry.mk 6221 50 0, Entry.mk 6271 50 0, Entry.mk 6321 50 0, Entry.mk 6371 50 0, Entry.mk 6421 50 0, Entry.mk 6471 50 0, Entry.mk 6522 51 0, Entry.mk 6573 51 0, Entry.mk 6625 52 0, Entry.mk 6676 51 0, Entry.mk 6728 52 0, Entry.mk 6780 52 0, Entry.mk 6832 52 0, Entry.mk 6885 53 0, Entry.mk 6937 52 0, Entry.mk 6990 53 0, Entry.mk 7043 53 0, Entry.mk 7096 53 0, Entry.mk 7150 54 0, Entry.mk 7204 54 0, Entry.mk 7258 54 0, Entry.mk 7312 54 0, Entry.mk 7366 54 0, Entry.mk 7421 55 0, Entry.mk 7476 55 0, Entry.mk 7531 55 0, Entry.mk 7586 55 0, Entry.mk 7641 55 0, Entry.mk 7696 55 0, Entry.mk 7751 55 0, Entry.mk 7806 55 0, Entry.mk 7862 56 0, Entry.mk 7918 56 0, Entry.mk 7975 57 0, Entry.mk 8031 56 0, Entry.mk 8088 57 0, Entry.mk 8145 57 0, Entry.mk 8202 57 0, Entry.mk 8260 58 0, Entry.mk 8317 57 0, Entry.mk 8375 58 0, Entry.mk 8433 58 0, Entry.mk 8491 58 0, Entry.mk 8550 59 0, Entry.mk 8609 59 0, Entry.mk 8668 59 0, Entry.mk 8727 59 0, Entry.mk 8786 59 0, Entry.mk 8846 60 0, Entry.mk 8906 60 0, Entry.mk 8966 60 0, Entry.mk 9026 60 0, Entry.mk 9086 60 0, Entry.mk 9146 60 0, Entry.mk 9206 60 0, Entry.mk 9266 60 0, Entry.mk 9327 61 0, Entry.mk 9388 61 0, Entry.mk 9450 62 0, Entry.mk 9511 61 0, Entry.mk 9573 62 0, Entry.mk 9635 62 0, Entry.mk 9697 62 0, Entry.mk 9760 63 0, Entry.mk 9822 62 0, Entry.mk 9885 63 0, Entry.mk 9948 63 0, Entry.mk 9999 51 0] : RState).samples.length = 316 := by
  decide
theorem c8_windows :
    wRun 1998 7 (RState.mk 6 0 [Entry.mk 1 1 0, Entry.mk 2 1 0, Entry.mk 3 1 0, Entry.mk 4 1 0, Entry.mk 5 1 0, Entry.mk 6 1 0]) =
      RState.mk 9996 0 [Entry.mk 1 1 0, Entry.mk 2 1 0, Entry.mk 3 1 0, Entry.mk 4 1 0, Entry.mk 5 1 0, Entry.mk 6 1 0, Entry.mk 7 1 0, Entry.mk 8 1 0, Entry.mk 9 1 0, Entry.mk 11 2 0, Entry.mk 13 2 0, Entry.mk 15 2 0, Entry.mk 17 2 0, Entry.mk 20 3 0, Entry.mk 23 3 0, Entry.mk 26 3 0, Entry.mk 29 3 0, Entry.mk 32 3 0, Entry.mk 36 4 0, Entry.mk 40 4 0, Entry.mk 44 4 0, Entry.mk 48 4 0, Entry.mk 52 4 0, Entry.mk 56 4 0, Entry.mk 61 5 0, Entry.mk 66 5 0, Entry.mk 71 5 0, Entry.mk 76 5 0, Entry.mk 81 5 0, Entry.mk 87 6 0, Entry.mk 93 6 0, Entry.mk 100 7 0, Entry.mk 106 6 0, Entry.mk 113 7 0, Entry.mk 120 7 0, Entry.mk 127 7 0, Entry.mk 135 8 0, Entry.mk 142 7 0, Entry.mk 150 8 0, Entry.mk 158 8 0, Entry.mk 166 8 0, Entry.mk 175 9 0, Entry.mk 184 9 0, Entry.mk 193 9 0, Entry.mk 202 9 0, Entry.mk 211 9 0, Entry.mk 221 10 0, Entry.mk 231 10 0, Entry.mk 241 10 0, Entry.mk 251 10 0, Entry.mk 261 10 0, Entry.mk 271 10 0, Entry.mk 281 10 0, Entry.mk 291 10 0, Entry.mk 302 11 0, Entry.mk 313 11 0, Entry.mk 325 12 0, Entry.mk 336 11 0, Entry.mk 348 12 0, Entry.mk 360 12 0, Entry.mk 372 12 0, Entry.mk 385 13 0, Entry.mk 397 12 0, Entry.mk 410 13 0, Entry.mk 423 13 0, Entry.mk 436 13 0, Entry.mk 450 14 0, Entry.mk 464 14 0, Entry.mk 478 14 0, Entry.mk 492 14 0, Entry.mk 506 14 0, Entry.mk 521 15 0, Entry.mk 536 15 0, Entry.mk 551 15 0, Entry.mk 566 15 0, Entry.mk 581 15 0, Entry.mk 596 15 0, Entry.mk 611 15 0, Entry.mk 626 15 0, Entry.mk 642 16 0, Entry.mk 658 16 0, Entry.mk 675 17 0, Entry.mk 691 16 0, Entry.mk 708 17 0, Entry.mk 725 17 0, Entry.mk 742 17 0, Entry.mk 760 18 0, Entry.mk 777 17 0, Entry.mk 795 18 0, Entry.mk 813 18 0, Entry.mk 831 18 0, Entry.mk 850 19 0, Entry.mk 869 19 0, Entry.mk 888 19 0, Entry.mk 907 19 0, Entry.mk 926 19 0, Entry.mk 946 20 0, Entry.mk 966 20 0, Entry.mk 986 20 0, Entry.mk 1006 20 0, Entry.mk 1026 20 0, Entry.mk 1046 20 0, Entry.mk 1066 20 0, Entry.mk 1086 20 0, Entry.mk 1107 21 0, Entry.mk 1128 21 0, Entry.mk 1150 22 0, Entry.mk 1171 21 0, Entry.mk 1193 22 0, Entry.mk 1215 22 0, Entry.mk 1237 22 0, Entry.mk 1260 23 0, Entry.mk 1282 22 0, Entry.mk 1305 23 0, Entry.mk 1328 23 0, Entry.mk 1351 23 0, Entry.mk 1375 24 0, Entry.mk 1399 24 0, Entry.mk 1423 24 0, Entry.mk 1447 24 0, Entry.mk 1471 24 0, Entry.mk 1496 25 0, Entry.mk 1521 25 0, Entry.mk 1546 25 0, Entry.mk 1571 25 0, Entry.mk 1596 25 0, Entry.mk 1621 25 0, Entry.mk 1646 25 0, Entry.mk 1671 25 0, Entry.mk 1697 26 0, Entry.mk 1723 26 0, Entry.mk 1750 27 0, Entry.mk 1776 26 0, Entry.mk 1803 27 0, Entry.mk 1830 27 0, Entry.mk 1857 27 0, Entry.mk 1885 28 0, Entry.mk 1912 27 0, Entry.mk 1940 28 0, Entry.mk 1968 28 0, Entry.mk 1996 28 0, Entry.mk 2025 29 0, Entry.mk 2054 29 0, Entry.mk 2083 29 0, Entry.mk 2112 29 0, Entry.mk 2141 29 0, Entry.mk 2171 30 0, Entry.mk 2201 30 0, Entry.mk 2231 30 0, Entry.mk 2261 30 0, Entry.mk 2291 30 0, Entry.mk 2321 30 0, Entry.mk 2351 30 0, Entry.mk 2381 30 0, Entry.mk 2412 31 0, Entry.mk 2443 31 0, Entry.mk 2475 32 0, Entry.mk 2506 31 0, Entry.mk 2538 32 0, Entry.mk 2570 32 0, Entry.mk 2602 32 0, Entry.mk 2635 33 0, Entry.mk 2667 32 0, Entry.mk 2700 33 0, Entry.mk 2733 33 0, Entry.mk 2766 33 0, Entry.mk 2800 34 0, Entry.mk 2834 34 0, Entry.mk 2868 34 0, Entry.mk 2902 34 0, Entry.mk 2936 34 0, Entry.mk 2971 35 0, Entry.mk 3006 35 0, Entry.mk 3041 35 0, Entry.mk 3076 35 0, Entry.mk 3111 35 0, Entry.mk 3146 35 0, Entry.mk 3181 35 0, Entry.mk 3216 35 0, Entry.mk 3252 36 0, Entry.mk 3288 36 0, Entry.mk 3325 37 0, Entry.mk 3361 36 0, Entry.mk 3398 37 0, Entry.mk 3435 37 0, Entry.mk 3472 37 0, Entry.mk 3510 38 0, Entry.mk 3547 37 0, Entry.mk 3585 38 0, Entry.mk 3623 38 0, Entry.mk 3661 38 0, Entry.mk 3700 39 0, Entry.mk 3739 39 0, Entry.mk 3778 39 0, Entry.mk 3817 39 0, Entry.mk 3856 39 0, Entry.mk 3896 40 0, Entry.mk 3936 40 0, Entry.mk 3976 40 0, Entry.mk 4016 40 0, Entry.mk 4056 40 0, Entry.mk 4096 40 0, Entry.mk 4136 40 0, Entry.mk 4176 40 0, Entry.mk 4217 41 0, Entry.mk 4258 41 0, Entry.mk 4300 42 0, Entry.mk 4341 41 0, Entry.mk 4383 42 0, Entry.mk 4425 42 0, Entry.mk 4467 42 0, Entry.mk 4510 43 0, Entry.mk 4552 42 0, Entry.mk 4595 43 0, Entry.mk 4638 43 0, Entry.mk 4681 43 0, Entry.mk 4725 44 0, Entry.mk 4769 44 0, Entry.mk 4813 44 0, Entry.mk 4857 44 0, Entry.mk 4901 44 0, Entry.mk 4946 45 0, Entry.mk 4991 45 0, Entry.mk 5036 45 0, Entry.mk 5081 45 0, Entry.mk 5126 45 0, Entry.mk 5171 45 0, Entry.mk 5216 45 0, Entry.mk 5261 45 0, Entry.mk 5307 46 0, Entry.mk 5353 46 0, Entry.mk 5400 47 0, Entry.mk 5446 46 0, Entry.mk 5493 47 0, Entry.mk 5540 47 0, Entry.mk 5587 47 0, Entry.mk 5635 48 0, Entry.mk 5682 47 0, Entry.mk 5730 48 0, Entry.mk 5778 48 0, Entry.mk 5826 48 0, Entry.mk 5875 49 0, Entry.mk 5924 49 0, Entry.mk 5973 49 0, Entry.mk 6022 49 0, Entry.mk 6071 49 0, Entry.mk 6121 50 0, Entry.mk 6171 50 0, Entry.mk 6221 50 0, Entry.mk 6271 50 0, Entry.mk 6321 50 0, Entry.mk 6371 50 0, Entry.mk 6421 50 0, Entry.mk 6471 50 0, Entry.mk 6522 51 0, Entry.mk 6573 51 0, Entry.mk 6625 52 0, Entry.mk 6676 51 0, Entry.mk 6728 52 0, Entry.mk 6780 52 0, Entry.mk 6832 52 0, Entry.mk 6885 53 0, Entry.mk 6937 52 0, Entry.mk 6990 53 0, Entry.mk 7043 53 0, Entry.mk 7096 53 0, Entry.mk 7150 54 0, Entry.mk 7204 54 0, Entry.mk 7258 54 0, Entry.mk 7312 54 0, Entry.mk 7366 54 0, Entry.mk 7421 55 0, Entry.mk 7476 55 0, Entry.mk 7531 55 0, Entry.mk 7586 55 0, Entry.mk 7641 55 0, Entry.mk 7696 55 0, Entry.mk 7751 55 0, Entry.mk 7806 55 0, Entry.mk 7862 56 0, Entry.mk 7918 56 0, Entry.mk 7975 57 0, Entry.mk 8031 56 0, Entry.mk 8088 57 0, Entry.mk 8145 57 0, Entry.mk 8202 57 0, Entry.mk 8260 58 0, Entry.mk 8317 57 0, Entry.mk 8375 58 0, Entry.mk 8433 58 0, Entry.mk 8491 58 0, Entry.mk 8550 59 0, Entry.mk 8609 59 0, Entry.mk 8668 59 0, Entry.mk 8727 59 0, Entry.mk 8786 59 0, Entry.mk 8846 60 0, Entry.mk 8906 60 0, Entry.mk 8966 60 0, Entry.mk 9026 60 0, Entry.mk 9086 60 0, Entry.mk 9146 60 0, Entry.mk 9206 60 0, Entry.mk 9266 60 0, Entry.mk 9327 61 0, Entry.mk 9388 61 0, Entry.mk 9450 62 0, Entry.mk 9511 61 0, Entry.mk 9573 62 0, Entry.mk 9635 62 0, Entry.mk 9697 62 0, Entry.mk 9760 63 0, Entry.mk 9822 62 0, Entry.mk 9885 63 0, Entry.mk 9948 63 0, Entry.mk 9996 48 0] := by
  rw [show (1998 : Nat) = 250 + 1748 from by norm_num]
  rw [wRun_chunk 250 1748 7 1257 _ _ (by norm_num) c8_w1]
  rw [show (1748 : Nat) = 250 + 1498 from by norm_num]
  rw [wRun_chunk 250 1498 1257 2507 _ _ (by norm_num) c8_w2]
  rw [show (1498 : Nat) = 250 + 1248 from by norm_num]
  rw [wRun_chunk 250 1248 2507 3757 _ _ (by norm_num) c8_w3]
  rw [show (1248 : Nat) = 250 + 998 from by norm_num]
  rw [wRun_chunk 250 998 3757 5007 _ _ (by norm_num) c8_w4]
  rw [show (998 : Nat) = 250 + 748 from by norm_num]
  rw [wRun_chunk 250 748 5007 6257 _ _ (by norm_num) c8_w5]
  rw [show (748 : Nat) = 250 + 498 from by norm_num]
  rw [wRun_chunk 250 498 6257 7507 _ _ (by norm_num) c8_w6]
  rw [show (498 : Nat) = 250 + 248 from by norm_num]
  rw [wRun_chunk 250 248 7507 8757 _ _ (by norm_num) c8_w7]
  exact c8_w8

theorem c8_run :
    rInsertAll 5 5 (RState.mk 0 0 []) (List.range' 1 9999) =
      RState.mk 9999 3 [Entry.mk 1 1 0, Entry.mk 2 1 0, Entry.mk 3 1 0, Entry.mk 4 1 0, Entry.mk 5 1 0, Entry.mk 6 1 0, Entry.mk 7 1 0, Entry.mk 8 1 0, Entry.mk 9 1 0, Entry.mk 11 2 0, Entry.mk 13 2 0, Entry.mk 15 2 0, Entry.mk 17 2 0, Entry.mk 20 3 0, Entry.mk 23 3 0, Entry.mk 26 3 0, Entry.mk 29 3 0, Entry.mk 32 3 0, Entry.mk 36 4 0, Entry.mk 40 4 0, Entry.mk 44 4 0, Entry.mk 48 4 0, Entry.mk 52 4 0, Entry.mk 56 4 0, Entry.mk 61 5 0, Entry.mk 66 5 0, Entry.mk 71 5 0, Entry.mk 76 5 0, Entry.mk 81 5 0, Entry.mk 87 6 0, Entry.mk 93 6 0, Entry.mk 100 7 0, Entry.mk 106 6 0, Entry.mk 113 7 0, Entry.mk 120 7 0, Entry.mk 127 7 0, Entry.mk 135 8 0, Entry.mk 142 7 0, Entry.mk 150 8 0, Entry.mk 158 8 0, Entry.mk 166 8 0, Entry.mk 175 9 0, Entry.mk 184 9 0, Entry.mk 193 9 0, Entry.mk 202 9 0, Entry.mk 211 9 0, Entry.mk 221 10 0, Entry.mk 231 10 0, Entry.mk 241 10 0, Entry.mk 251 10 0, Entry.mk 261 10 0, Entry.mk 271 10 0, Entry.mk 281 10 0, Entry.mk 291 10 0, Entry.mk 302 11 0, Entry.mk 313 11 0, Entry.mk 325 12 0, Entry.mk 336 11 0, Entry.mk 348 12 0, Entry.mk 360 12 0, Entry.mk 372 12 0, Entry.mk 385 13 0, Entry.mk 397 12 0, Entry.mk 410 13 0, Entry.mk 423 13 0, Entry.mk 436 13 0, Entry.mk 450 14 0, Entry.mk 464 14 0, Entry.mk 478 14 0, Entry.mk 492 14 0, Entry.mk 506 14 0, Entry.mk 521 15 0, Entry.mk 536 15 0, Entry.mk 551 15 0, Entry.mk 566 15 0, Entry.mk 581 15 0, Entry.mk 596 15 0, Entry.mk 611 15 0, Entry.mk 626 15 0, Entry.mk 642 16 0, Entry.mk 658 16 0, Entry.mk 675 17 0, Entry.mk 691 16 0, Entry.mk 708 17 0, Entry.mk 725 17 0, Entry.mk 742 17 0, Entry.mk 760 18 0, Entry.mk 777 17 0, Entry.mk 795 18 0, Entry.mk 813 18 0, Entry.mk 831 18 0, Entry.mk 850 19 0, Entry.mk 869 19 0, Entry.mk 888 19 0, Entry.mk 907 19 0, Entry.mk 926 19 0, Entry.mk 946 20 0, Entry.mk 966 20 0, Entry.mk 986 20 0, Entry.mk 1006 20 0, Entry.mk 1026 20 0, Entry.mk 1046 20 0, Entry.mk 1066 20 0, Entry.mk 1086 20 0, Entry.mk 1107 21 0, Entry.mk 1128 21 0, Entry.mk 1150 22 0, Entry.mk 1171 21 0, Entry.mk 1193 22 0, Entry.mk 1215 22 0, Entry.mk 1237 22 0, Entry.mk 1260 23 0, Entry.mk 1282 22 0, Entry.mk 1305 23 0, Entry.mk 1328 23 0, Entry.mk 1351 23 0, Entry.mk 1375 24 0, Entry.mk 1399 24 0, Entry.mk 1423 24 0, Entry.mk 1447 24 0, Entry.mk 1471 24 0, Entry.mk 1496 25 0, Entry.mk 1521 25 0, Entry.mk 1546 25 0, Entry.mk 1571 25 0, Entry.mk 1596 25 0, Entry.mk 1621 25 0, Entry.mk 1646 25 0, Entry.mk 1671 25 0, Entry.mk 1697 26 0, Entry.mk 1723 26 0, Entry.mk 1750 27 0, Entry.mk 1776 26 0, Entry.mk 1803 27 0, Entry.mk 1830 27 0, Entry.mk 1857 27 0, Entry.mk 1885 28 0, Entry.mk 1912 27 0, Entry.mk 1940 28 0, Entry.mk 1968 28 0, Entry.mk 1996 28 0, Entry.mk 2025 29 0, Entry.mk 2054 29 0, Entry.mk 2083 29 0, Entry.mk 2112 29 0, Entry.mk 2141 29 0, Entry.mk 2171 30 0, Entry.mk 2201 30 0, Entry.mk 2231 30 0, Entry.mk 2261 30 0, Entry.mk 2291 30 0, Entry.mk 2321 30 0, Entry.mk 2351 30 0, Entry.mk 2381 30 0, Entry.mk 2412 31 0, Entry.mk 2443 31 0, Entry.mk 2475 32 0, Entry.mk 2506 31 0, Entry.mk 2538 32 0, Entry.mk 2570 32 0, Entry.mk 2602 32 0, Entry.mk 2635 33 0, Entry.mk 2667 32 0, Entry.mk 2700 33 0, Entry.mk 2733 33 0, Entry.mk 2766 33 0, Entry.mk 2800 34 0, Entry.mk 2834 34 0, Entry.mk 2868 34 0, Entry.mk 2902 34 0, Entry.mk 2936 34 0, Entry.mk 2971 35 0, Entry.mk 3006 35 0, Entry.mk 3041 35 0, Entry.mk 3076 35 0, Entry.mk 3111 35 0, Entry.mk 3146 35 0, Entry.mk 3181 35 0, Entry.mk 3216 35 0, Entry.mk 3252 36 0, Entry.mk 3288 36 0, Entry.mk 3325 37 0, Entry.mk 3361 36 0, Entry.mk 3398 37 0, Entry.mk 3435 37 0, Entry.mk 3472 37 0, Entry.mk 3510 38 0, Entry.mk 3547 37 0, Entry.mk 3585 38 0, Entry.mk 3623 38 0, Entry.mk 3661 38 0, Entry.mk 3700 39 0, Entry.mk 3739 39 0, Entry.mk 3778 39 0, Entry.mk 3817 39 0, Entry.mk 3856 39 0, Entry.mk 3896 40 0, Entry.mk 3936 40 0, Entry.mk 3976 40 0, Entry.mk 4016 40 0, Entry.mk 4056 40 0, Entry.mk 4096 40 0, Entry.mk 4136 40 0, Entry.mk 4176 40 0, Entry.mk 4217 41 0, Entry.mk 4258 41 0, Entry.mk 4300 42 0, Entry.mk 4341 41 0, Entry.mk 4383 42 0, Entry.mk 4425 42 0, Entry.mk 4467 42 0, Entry.mk 4510 43 0, Entry.mk 4552 42 0, Entry.mk 4595 43 0, Entry.mk 4638 43 0, Entry.mk 4681 43 0, Entry.mk 4725 44 0, Entry.mk 4769 44 0, Entry.mk 4813 44 0, Entry.mk 4857 44 0, Entry.mk 4901 44 0, Entry.mk 4946 45 0, Entry.mk 4991 45 0, Entry.mk 5036 45 0, Entry.mk 5081 45 0, Entry.mk 5126 45 0, Entry.mk 5171 45 0, Entry.mk 5216 45 0, Entry.mk 5261 45 0, Entry.mk 5307 46 0, Entry.mk 5353 46 0, Entry.mk 5400 47 0, Entry.mk 5446 46 0, Entry.mk 5493 47 0, Entry.mk 5540 47 0, Entry.mk 5587 47 0, Entry.mk 5635 48 0, Entry.mk 5682 47 0, Entry.mk 5730 48 0, Entry.mk 5778 48 0, Entry.mk 5826 48 0, Entry.mk 5875 49 0, Entry.mk 5924 49 0, Entry.mk 5973 49 0, Entry.mk 6022 49 0, Entry.mk 6071 49 0, Entry.mk 6121 50 0, Entry.mk 6171 50 0, Entry.mk 6221 50 0, Entry.mk 6271 50 0, Entry.mk 6321 50 0, Entry.mk 6371 50 0, Entry.mk 6421 50 0, Entry.mk 6471 50 0, Entry.mk 6522 51 0, Entry.mk 6573 51 0, Entry.mk 6625 52 0, Entry.mk 6676 51 0, Entry.mk 6728 52 0, Entry.mk 6780 52 0, Entry.mk 6832 52 0, Entry.mk 6885 53 0, Entry.mk 6937 52 0, Entry.mk 6990 53 0, Entry.mk 7043 53 0, Entry.mk 7096 53 0, Entry.mk 7150 54 0, Entry.mk 7204 54 0, Entry.mk 7258 54 0, Entry.mk 7312 54 0, Entry.mk 7366 54 0, Entry.mk 7421 55 0, Entry.mk 7476 55 0, Entry.mk 7531 55 0, Entry.mk 7586 55 0, Entry.mk 7641 55 0, Entry.mk 7696 55 0, Entry.mk 7751 55 0, Entry.mk 7806 55 0, Entry.mk 7862 56 0, Entry.mk 7918 56 0, Entry.mk 7975 57 0, Entry.mk 8031 56 0, Entry.mk 8088 57 0, Entry.mk 8145 57 0, Entry.mk 8202 57 0, Entry.mk 8260 58 0, Entry.mk 8317 57 0, Entry.mk 8375 58 0, Entry.mk 8433 58 0, Entry.mk 8491 58 0, Entry.mk 8550 59 0, Entry.mk 8609 59 0, Entry.mk 8668 59 0, Entry.mk 8727 59 0, Entry.mk 8786 59 0, Entry.mk 8846 60 0, Entry.mk 8906 60 0, Entry.mk 8966 60 0, Entry.mk 9026 60 0, Entry.mk 9086 60 0, Entry.mk 9146 60 0, Entry.mk 9206 60 0, Entry.mk 9266 60 0, Entry.mk 9327 61 0, Entry.mk 9388 61 0, Entry.mk 9450 62 0, Entry.mk 9511 61 0, Entry.mk 9573 62 0, Entry.mk 9635 62 0, Entry.mk 9697 62 0, Entry.mk 9760 63 0, Entry.mk 9822 62 0, Entry.mk 9885 63 0, Entry.mk 9948 63 0, Entry.mk 9996 48 0, Entry.mk 9997 1 0, Entry.mk 9998 1 0, Entry.mk 9999 1 0] := by
  have hr1 : List.range' 1 6 ++ List.range' 7 9990 = List.range' 1 9996 := by
    have h := List.range'_append_1 1 6 9990
    norm_num at h
    exact h
  have hr2 : List.range' 1 9996 ++ List.range' 9997 3 = List.range' 1 9999 := by
    have h := List.range'_append_1 1 9996 3
    norm_num at h
    exact h
  rw [show List.range' 1 9999 = (List.range' 1 6 ++ List.range' 7 9990) ++ List.range' 9997 3
    from by rw [hr1, hr2]]
  rw [rInsertAll_append, rInsertAll_append, c8_seg0]
  rw [show (9990 : Nat) = 5 * 1998 from by norm_num]
  rw [wRun_correct 1998 7 _ rfl (by decide) (by decide)]
  rw [c8_windows]
  exact c8_seg9


theorem c8_toR :
    ((insertAll (CKMS.new (1 / 10) : CKMS Nat) (List.range' 1 9999)).compress).toR =
      RState.mk 9999 3 [Entry.mk 1 1 0, Entry.mk 2 1 0, Entry.mk 3 1 0, Entry.mk 4 1 0, Entry.mk 5 1 0, Entry.mk 6 1 0, Entry.mk 7 1 0, Entry.mk 8 1 0, Entry.mk 9 1 0, Entry.mk 11 2 0, Entry.mk 13 2 0, Entry.mk 15 2 0, Entry.mk 17 2 0, Entry.mk 20 3 0, Entry.mk 23 3 0, Entry.mk 26 3 0, Entry.mk 29 3 0, Entry.mk 32 3 0, Entry.mk 36 4 0, Entry.mk 40 4 0, Entry.mk 44 4 0, Entry.mk 48 4 0, Entry.mk 52 4 0, Entry.mk 56 4 0, Entry.mk 61 5 0, Entry.mk 66 5 0, Entry.mk 71 5 0, Entry.mk 76 5 0, Entry.mk 81 5 0, Entry.mk 87 6 0, Entry.mk 93 6 0, Entry.mk 100 7 0, Entry.mk 106 6 0, Entry.mk 113 7 0, Entry.mk 120 7 0, Entry.mk 127 7 0, Entry.mk 135 8 0, Entry.mk 142 7 0, Entry.mk 150 8 0, Entry.mk 158 8 0, Entry.mk 166 8 0, Entry.mk 175 9 0, Entry.mk 184 9 0, Entry.mk 193 9 0, Entry.mk 202 9 0, Entry.mk 211 9 0, Entry.mk 221 10 0, Entry.mk 231 10 0, Entry.mk 241 10 0, Entry.mk 251 10 0, Entry.mk 261 10 0, Entry.mk 271 10 0, Entry.mk 281 10 0, Entry.mk 291 10 0, Entry.mk 302 11 0, Entry.mk 313 11 0, Entry.mk 325 12 0, Entry.mk 336 11 0, Entry.mk 348 12 0, Entry.mk 360 12 0, Entry.mk 372 12 0, Entry.mk 385 13 0, Entry.mk 397 12 0, Entry.mk 410 13 0, Entry.mk 423 13 0, Entry.mk 436 13 0, Entry.mk 450 14 0, Entry.mk 464 14 0, Entry.mk 478 14 0, Entry.mk 492 14 0, Entry.mk 506 14 0, Entry.mk 521 15 0, Entry.mk 536 15 0, Entry.mk 551 15 0, Entry.mk 566 15 0, Entry.mk 581 15 0, Entry.mk 596 15 0, Entry.mk 611 15 0, Entry.mk 626 15 0, Entry.mk 642 16 0, Entry.mk 658 16 0, Entry.mk 675 17 0, Entry.mk 691 16 0, Entry.mk 708 17 0, Entry.mk 725 17 0, Entry.mk 742 17 0, Entry.mk 760 18 0, Entry.mk 777 17 0, Entry.mk 795 18 0, Entry.mk 813 18 0, Entry.mk 831 18 0, Entry.mk 850 19 0, Entry.mk 869 19 0, Entry.mk 888 19 0, Entry.mk 907 19 0, Entry.mk 926 19 0, Entry.mk 946 20 0, Entry.mk 966 20 0, Entry.mk 986 20 0, Entry.mk 1006 20 0, Entry.mk 1026 20 0, Entry.mk 1046 20 0, Entry.mk 1066 20 0, Entry.mk 1086 20 0, Entry.mk 1107 21 0, Entry.mk 1128 21 0, Entry.mk 1150 22 0, Entry.mk 1171 21 0, Entry.mk 1193 22 0, Entry.mk 1215 22 0, Entry.mk 1237 22 0, Entry.mk 1260 23 0, Entry.mk 1282 22 0, Entry.mk 1305 23 0, Entry.mk 1328 23 0, Entry.mk 1351 23 0, Entry.mk 1375 24 0, Entry.mk 1399 24 0, Entry.mk 1423 24 0, Entry.mk 1447 24 0, Entry.mk 1471 24 0, Entry.mk 1496 25 0, Entry.mk 1521 25 0, Entry.mk 1546 25 0, Entry.mk 1571 25 0, Entry.mk 1596 25 0, Entry.mk 1621 25 0, Entry.mk 1646 25 0, Entry.mk 1671 25 0, Entry.mk 1697 26 0, Entry.mk 1723 26 0, Entry.mk 1750 27 0, Entry.mk 1776 26 0, Entry.mk 1803 27 0, Entry.mk 1830 27 0, Entry.mk 1857 27 0, Entry.mk 1885 28 0, Entry.mk 1912 27 0, Entry.mk 1940 28 0, Entry.mk 1968 28 0, Entry.mk 1996 28 0, Entry.mk 2025 29 0, Entry.mk 2054 29 0, Entry.mk 2083 29 0, Entry.mk 2112 29 0, Entry.mk 2141 29 0, Entry.mk 2171 30 0, Entry.mk 2201 30 0, Entry.mk 2231 30 0, Entry.mk 2261 30 0, Entry.mk 2291 30 0, Entry.mk 2321 30 0, Entry.mk 2351 30 0, Entry.mk 2381 30 0, Entry.mk 2412 31 0, Entry.mk 2443 31 0, Entry.mk 2475 32 0, Entry.mk 2506 31 0, Entry.mk 2538 32 0, Entry.mk 2570 32 0, Entry.mk 2602 32 0, Entry.mk 2635 33 0, Entry.mk 2667 32 0, Entry.mk 2700 33 0, Entry.mk 2733 33 0, Entry.mk 2766 33 0, Entry.mk 2800 34 0, Entry.mk 2834 34 0, Entry.mk 2868 34 0, Entry.mk 2902 34 0, Entry.mk 2936 34 0, Entry.mk 2971 35 0, Entry.mk 3006 35 0, Entry.mk 3041 35 0, Entry.mk 3076 35 0, Entry.mk 3111 35 0, Entry.mk 3146 35 0, Entry.mk 3181 35 0, Entry.mk 3216 35 0, Entry.mk 3252 36 0, Entry.mk 3288 36 0, Entry.mk 3325 37 0, Entry.mk 3361 36 0, Entry.mk 3398 37 0, Entry.mk 3435 37 0, Entry.mk 3472 37 0, Entry.mk 3510 38 0, Entry.mk 3547 37 0, Entry.mk 3585 38 0, Entry.mk 3623 38 0, Entry.mk 3661 38 0, Entry.mk 3700 39 0, Entry.mk 3739 39 0, Entry.mk 3778 39 0, Entry.mk 3817 39 0, Entry.mk 3856 39 0, Entry.mk 3896 40 0, Entry.mk 3936 40 0, Entry.mk 3976 40 0, Entry.mk 4016 40 0, Entry.mk 4056 40 0, Entry.mk 4096 40 0, Entry.mk 4136 40 0, Entry.mk 4176 40 0, Entry.mk 4217 41 0, Entry.mk 4258 41 0, Entry.mk 4300 42 0, Entry.mk 4341 41 0, Entry.mk 4383 42 0, Entry.mk 4425 42 0, Entry.mk 4467 42 0, Entry.mk 4510 43 0, Entry.mk 4552 42 0, Entry.mk 4595 43 0, Entry.mk 4638 43 0, Entry.mk 4681 43 0, Entry.mk 4725 44 0, Entry.mk 4769 44 0, Entry.mk 4813 44 0, Entry.mk 4857 44 0, Entry.mk 4901 44 0, Entry.mk 4946 45 0, Entry.mk 4991 45 0, Entry.mk 5036 45 0, Entry.mk 5081 45 0, Entry.mk 5126 45 0, Entry.mk 5171 45 0, Entry.mk 5216 45 0, Entry.mk 5261 45 0, Entry.mk 5307 46 0, Entry.mk 5353 46 0, Entry.mk 5400 47 0, Entry.mk 5446 46 0, Entry.mk 5493 47 0, Entry.mk 5540 47 0, Entry.mk 5587 47 0, Entry.mk 5635 48 0, Entry.mk 5682 47 0, Entry.mk 5730 48 0, Entry.mk 5778 48 0, Entry.mk 5826 48 0, Entry.mk 5875 49 0, Entry.mk 5924 49 0, Entry.mk 5973 49 0, Entry.mk 6022 49 0, Entry.mk 6071 49 0, Entry.mk 6121 50 0, Entry.mk 6171 50 0, Entry.mk 6221 50 0, Entry.mk 6271 50 0, Entry.mk 6321 50 0, Entry.mk 6371 50 0, Entry.mk 6421 50 0, Entry.mk 6471 50 0, Entry.mk 6522 51 0, Entry.mk 6573 51 0, Entry.mk 6625 52 0, Entry.mk 6676 51 0, Entry.mk 6728 52 0, Entry.mk 6780 52 0, Entry.mk 6832 52 0, Entry.mk 6885 53 0, Entry.mk 6937 52 0, Entry.mk 6990 53 0, Entry.mk 7043 53 0, Entry.mk 7096 53 0, Entry.mk 7150 54 0, Entry.mk 7204 54 0, Entry.mk 7258 54 0, Entry.mk 7312 54 0, Entry.mk 7366 54 0, Entry.mk 7421 55 0, Entry.mk 7476 55 0, Entry.mk 7531 55 0, Entry.mk 7586 55 0, Entry.mk 7641 55 0, Entry.mk 7696 55 0, Entry.mk 7751 55 0, Entry.mk 7806 55 0, Entry.mk 7862 56 0, Entry.mk 7918 56 0, Entry.mk 7975 57 0, Entry.mk 8031 56 0, Entry.mk 8088 57 0, Entry.mk 8145 57 0, Entry.mk 8202 57 0, Entry.mk 8260 58 0, Entry.mk 8317 57 0, Entry.mk 8375 58 0, Entry.mk 8433 58 0, Entry.mk 8491 58 0, Entry.mk 8550 59 0, Entry.mk 8609 59 0, Entry.mk 8668 59 0, Entry.mk 8727 59 0, Entry.mk 8786 59 0, Entry.mk 8846 60 0, Entry.mk 8906 60 0, Entry.mk 8966 60 0, Entry.mk 9026 60 0, Entry.mk 9086 60 0, Entry.mk 9146 60 0, Entry.mk 9206 60 0, Entry.mk 9266 60 0, Entry.mk 9327 61 0, Entry.mk 9388 61 0, Entry.mk 9450 62 0, Entry.mk 9511 61 0, Entry.mk 9573 62 0, Entry.mk 9635 62 0, Entry.mk 9697 62 0, Entry.mk 9760 63 0, Entry.mk 9822 62 0, Entry.mk 9885 63 0, Entry.mk 9948 63 0, Entry.mk 9999 51 0] := by
  have he : (CKMS.new (1 / 10) : CKMS Nat).error = 1 / (2 * ((5 : Nat) : ℚ)) := by
    rw [new_tenth]
    norm_num
  have h1 : insertAll (CKMS.new (1 / 10) : CKMS Nat) (List.range' 1 9999)
      = nInsertAll 5 (CKMS.new (1 / 10)) (List.range' 1 9999) :=
    insertAll_eq 5 (by norm_num) _ _ he
  have he2 : (insertAll (CKMS.new (1 / 10) : CKMS Nat) (List.range' 1 9999)).error
      = 1 / (2 * ((5 : Nat) : ℚ)) := by
    rw [insertAll_error]
    exact he
  have h2 : (insertAll (CKMS.new (1 / 10) : CKMS Nat) (List.range' 1 9999)).compress
      = nCompress 5 (insertAll (CKMS.new (1 / 10)) (List.range' 1 9999)) :=
    compress_eq _ 5 (by norm_num) he2
  have h3 : (nInsertAll 5 (CKMS.new (1 / 10) : CKMS Nat) (List.range' 1 9999)).toR
      = rInsertAll 5 5 (RState.mk 0 0 []) (List.range' 1 9999) := by
    rw [toR_nInsertAll, new_tenth]
    rfl
  have h6 : ((insertAll (CKMS.new (1 / 10) : CKMS Nat) (List.range' 1 9999)).compress).toR
      = rCompress 5 (rInsertAll 5 5 (RState.mk 0 0 []) (List.range' 1 9999)) := by
    rw [h2, toR_nCompress, h1, h3]
  rw [c8_run, c8_fin] at h6
  exact h6

/-- C8: on a summary constructed with error `0.1`, inserting the integers
`1` through `9999` in order and then compressing once leaves a count of
`9999` and exactly `316` retained samples. -/
theorem claim_C8 :
    ((insertAll (CKMS.new (1 / 10) : CKMS Nat) (List.range' 1 9999)).compress).count = 9999 ∧
    ((insertAll (CKMS.new (1 / 10) : CKMS Nat) (List.range' 1 9999)).compress).samples.length
      = 316 := by
  refine ⟨?_, ?_⟩
  · exact (CKMS.count_toR _).trans ((congrArg RState.n c8_toR).trans c8_fin_stats.1)
  · exact (congrArg List.length (CKMS.toR_samples_eq _).symm).trans
      ((congrArg List.length (congrArg RState.samples c8_toR)).trans c8_fin_stats.2)

/-- C1: the rank-error invariant fails on a reachable state.  With error
`1/2` the summary built by inserting `0, 0, 0` retains
`[⟨0, 1, 0⟩, ⟨0, 2, 0⟩]`, whose second entry has `g + δ = 2` while the
allowance at its rank is `f(1, 3) = max(1, ⌊2 · (1/2) · 1⌋) = 1`. -/
theorem claim_C1 :
    rankErrHolds (insertAll (CKMS.new (1 / 2) : CKMS Nat) [0, 0, 0]) = false := by
  have he : (CKMS.new (1 / 2) : CKMS Nat).error = 1 / (2 * ((1 : Nat) : ℚ)) := by
    rw [new_half]
    norm_num
  have he2 : (insertAll (CKMS.new (1 / 2) : CKMS Nat) [0, 0, 0]).error
      = 1 / (2 * ((1 : Nat) : ℚ)) := by
    rw [insertAll_error]
    exact he
  rw [rankErrHolds_eq _ 1 (by norm_num) he2]
  rw [insertAll_eq 1 (by norm_num) _ _ he]
  rw [new_half]
  decide

/-- The 22-value stream of the `query(1.0)` counterexample. -/
def c3stream : List Nat :=
  [0, 1, 0, 0, 0, 0, 0, 2, 2, 0, 0, 1, 0, 0, 0, 0, 1, 0, 0, 0, 0, 2]

/-- The samples retained after inserting `c3stream` at error `1/4`. -/
def c3samp : List (Entry Nat) :=
  [Entry.mk 0 1 0, Entry.mk 0 1 0, Entry.mk 0 1 0, Entry.mk 0 2 0, Entry.mk 0 2 0,
   Entry.mk 0 3 0, Entry.mk 0 3 0, Entry.mk 0 2 0, Entry.mk 1 4 0, Entry.mk 2 1 8,
   Entry.mk 2 2 0]

theorem CKMS.query_congr {α : Type} (c c' : CKMS α) (q : ℚ)
    (h1 : c.samples = c'.samples) (h2 : c.n = c'.n) (h3 : c.error = c'.error) :
    c.query q = c'.query q := by
  have hinv : ∀ r : ℚ, c.invariant r = c'.invariant r := by
    intro r
    unfold CKMS.invariant
    rw [h3]
  unfold CKMS.query
  rw [h1, h2]
  simp only [hinv]

theorem c3_toR :
    (insertAll (CKMS.new (1 / 4) : CKMS Nat) c3stream).toR = RState.mk 22 1 c3samp := by
  have he : (CKMS.new (1 / 4) : CKMS Nat).error = 1 / (2 * ((2 : Nat) : ℚ)) := by
    rw [new_quarter]
    norm_num
  have h1 : insertAll (CKMS.new (1 / 4) : CKMS Nat) c3stream
      = nInsertAll 2 (CKMS.new (1 / 4)) c3stream :=
    insertAll_eq 2 (by norm_num) _ _ he
  have h3 : (nInsertAll 2 (CKMS.new (1 / 4) : CKMS Nat) c3stream).toR
      = rInsertAll 2 2 (RState.mk 0 0 []) c3stream := by
    rw [toR_nInsertAll, new_quarter]
    rfl
  rw [h1, h3]
  decide

theorem c3_error : (insertAll (CKMS.new (1 / 4) : CKMS Nat) c3stream).error = 1 / 4 := by
  rw [insertAll_error, new_quarter]

theorem c3_query :
    (CKMS.mk 22 (1 / 4) 2 1 c3samp (some 2) (some 9) : CKMS Nat).query 1 = some (19, 1) := by
  norm_num [CKMS.query, CKMS.invariant, queryLoop, c3samp,
    show Int.toNat 11 = (11 : Nat) from rfl]

/-- C3: `query(1.0)` does not return the maximum inserted value.  At error
`1/4`, after inserting `c3stream` (whose maximum element is `2`), the walk
stops early and `query 1` returns the pair `(19, 1)` with value `1 < 2`. -/
theorem claim_C3 :
    (insertAll (CKMS.new (1 / 4) : CKMS Nat) c3stream).query 1 = some (19, 1) ∧
    2 ∈ c3stream ∧ ∀ x ∈ c3stream, x ≤ 2 := by
  refine ⟨?_, by decide, by decide⟩
  have h1 : (insertAll (CKMS.new (1 / 4) : CKMS Nat) c3stream).samples
      = (CKMS.mk 22 (1 / 4) 2 1 c3samp (some 2) (some 9) : CKMS Nat).samples :=
    (CKMS.toR_samples_eq _).symm.trans (congrArg RState.samples c3_toR)
  have h2 : (insertAll (CKMS.new (1 / 4) : CKMS Nat) c3stream).n
      = (CKMS.mk 22 (1 / 4) 2 1 c3samp (some 2) (some 9) : CKMS Nat).n :=
    (CKMS.toR_n_eq _).symm.trans (congrArg RState.n c3_toR)
  have h3 : (insertAll (CKMS.new (1 / 4) : CKMS Nat) c3stream).error
      = (CKMS.mk 22 (1 / 4) 2 1 c3samp (some 2) (some 9) : CKMS Nat).error :=
    c3_error
  exact (CKMS.query_congr _ _ 1 h1 h2 h3).trans c3_query
